import Mathlib

/-!
# Configuration REST API of the gateway plugin (rest_configuration.cpp)

A shallow embedding of the handlers `createUser`, `modifyConfig`, `changePassword`,
`deletePassword`, `getConfig`, `getFullState`, `updateSoftware`, `updateFirmware` and of the
members `configToMap`, `checkRfConnectState`, `queryFirmwareVersionTimerFired`,
`checkMinFirmwareVersionFile` and `updateSoftwareTimerFired` of `DeRestPluginPrivate` as
state-passing functions, followed by theorems about them.

Conventions of the embedding:
* the members of `DeRestPluginPrivate` the handlers touch form `GatewayState`;
* constants of the headers and the collaborators defined in other files
  (radio controller, JSON parser, authentication check, random numbers, clock)
  are fields of `Env`;
* a handler takes the request and the response object it is given and returns
  its return code, the state and the response afterwards;
* `return` in the middle of `modifyConfig` is `Except.error`.
-/

namespace DeRestPlugin

/-! ## Qt values -/

/-- Text is a sequence of characters; `length` counts characters. -/
abbrev QString := String

/-- Values of `QVariant::type()` of a value delivered by the JSON parser. -/
inductive QVariantType
  | Invalid
  | Bool
  | Int
  | UInt
  | LongLong
  | ULongLong
  | Double
  | String
  | List
  | Map
deriving DecidableEq, Repr

/-- A `QVariant` as the handlers observe it: its type tag and the results of the
conversions they call. `toInt` and `toUInt` give the converted value together with
the `ok` flag the conversion reports. The theorems hold for every such value. -/
structure QVariant where
  type : QVariantType
  toString : QString
  toBool : Bool
  toInt : Int × Bool
  toUInt : Nat × Bool
deriving DecidableEq, Repr

/-- Default constructed `QVariant()`: what `map[key]` gives for an absent key. -/
def QVariant.invalid : QVariant :=
  { type := QVariantType.Invalid, toString := "", toBool := false, toInt := (0, false), toUInt := (0, false) }

/-- The variant `QVariant(bool)`: converts to the text true or false and to 1 or 0. -/
def QVariant.ofBool (b : Bool) : QVariant :=
  { type := QVariantType.Bool
    toString := if b then "true" else "false"
    toBool := b
    toInt := (if b then 1 else 0, true)
    toUInt := (if b then 1 else 0, true) }

/-- Value of a run of decimal digits, `none` when a character is not a digit. -/
def digitsValue : List Char → Nat → Option Nat
  | [], acc => some acc
  | c :: cs, acc => if c.isDigit then digitsValue cs (acc * 10 + (c.toNat - 48)) else none

/-- Decimal reading of a text as `QString::toLongLong` does it for plain input: an
optional sign followed by at least one digit. -/
def parseDecimal (cs : List Char) : Option Int :=
  match cs with
  | [] => none
  | '-' :: ds => if ds.isEmpty then none else (digitsValue ds 0).map (fun n => - (n : Int))
  | '+' :: ds => if ds.isEmpty then none else (digitsValue ds 0).map (fun n => (n : Int))
  | ds => (digitsValue ds 0).map (fun n => (n : Int))

/-- The variant `QVariant(QString)`: `toInt` and `toUInt` read the text as a decimal number
and report `ok` when it is one and fits 32 bits; `toBool` is false for the empty text,
the text 0 and the text false. -/
def QVariant.ofString (s : QString) : QVariant :=
  { type := QVariantType.String
    toString := s
    toBool := !(s.data.isEmpty || s.data = ['0'] || s.data = ['f', 'a', 'l', 's', 'e'])
    toInt := match parseDecimal s.data with
      | some i => if -2147483648 ≤ i ∧ i ≤ 2147483647 then (i, true) else (0, false)
      | none => (0, false)
    toUInt := match parseDecimal s.data with
      | some i => if 0 ≤ i ∧ i ≤ 4294967295 then (i.toNat, true) else (0, false)
      | none => (0, false) }

/-- The variant of an integral JSON number that fits a signed 32 bit integer. -/
def QVariant.ofInt (i : Int) : QVariant :=
  { type := QVariantType.Int
    toString := ToString.toString i
    toBool := i != 0
    toInt := (i, true)
    toUInt := (i.toNat, decide (0 ≤ i)) }

/-- A `QVariantMap`: keys with their values; lookup takes the first entry of a key. -/
abbrev QVariantMap := List (QString × QVariant)

/-- Member `QMap::contains`. -/
def QVariantMap.contains (m : QVariantMap) (key : QString) : Bool :=
  (m.lookup key).isSome

/-- Member `QMap::operator[]` read access: the value, or a default constructed one. -/
def QVariantMap.value (m : QVariantMap) (key : QString) : QVariant :=
  (m.lookup key).getD QVariant.invalid

/-- The request body after `Json::parse(req.content, ok)` and `var.toMap()`. -/
structure Content where
  ok : Bool
  map : QVariantMap
deriving DecidableEq, Repr

/-! ## Requests and responses -/

/-- The request as the handlers read it: path segments, method, parsed body and the
`If-None-Match` header when present. -/
structure ApiRequest where
  path : List QString
  method : QString
  content : Content
  ifNoneMatch : Option Nat
deriving DecidableEq, Repr

inductive HttpStatus
  | HttpStatusOk
  | HttpStatusNotModified
  | HttpStatusBadRequest
  | HttpStatusUnauthorized
  | HttpStatusForbidden
deriving DecidableEq, Repr

/-- Error identifiers handed to `errorToMap`. -/
inductive ApiError
  | ERR_UNAUTHORIZED_USER
  | ERR_INVALID_JSON
  | ERR_MISSING_PARAMETER
  | ERR_INVALID_VALUE
  | ERR_LINK_BUTTON_NOT_PRESSED
  | ERR_INTERNAL_ERROR
  | ERR_DEVICE_OFF
  | ERR_BRIDGE_BUSY
deriving DecidableEq, Repr

/-- Values placed in a success element. -/
inductive RspValue
  | str (s : QString)
  | bool (b : Bool)
  | num (n : Int)
deriving DecidableEq, Repr

/-- One element of `rsp.list`: a success map with one path and value, or the map
`errorToMap(id, address, description)` builds. -/
inductive RspItem
  | success (path : QString) (value : RspValue)
  | error (id : ApiError) (address : QString) (description : QString)
deriving DecidableEq, Repr

/-- Modelled from the spec: `errorToMap` is defined outside this file; a response element
is either a success or an error carrying type, address and description. -/
def errorToMap (id : ApiError) (address : QString) (description : QString) : RspItem :=
  RspItem.error id address description

/-- A value stored in a map that is sent as JSON: text, boolean, number or a nested map. -/
inductive JsonValue
  | str (s : QString)
  | bool (b : Bool)
  | num (n : Int)
  | obj (entries : List (QString × JsonValue))

/-- Assignment `map[key] = value`: replaces the value of the key or adds the key. -/
def mapInsert {α : Type} (m : List (QString × α)) (key : QString) (value : α) : List (QString × α) :=
  match m with
  | [] => [(key, value)]
  | (k, v) :: rest => if k = key then (key, value) :: rest else (k, v) :: mapInsert rest key value

/-- The response object: status, the list of result elements, the map sent as body by the
read handlers, and the change token. -/
structure ApiResponse where
  httpStatus : HttpStatus
  list : List RspItem
  map : List (QString × JsonValue)
  etag : Nat

inductive ReturnCode
  | REQ_READY_SEND
  | REQ_NOT_HANDLED
deriving DecidableEq, Repr

/-! ## Gateway state -/

structure ApiAuth where
  apikey : QString
  devicetype : QString
  createDate : Nat
  lastUseDate : Nat
deriving DecidableEq, Repr

inductive TouchlinkState
  | TL_Idle
  | TL_Active (step : Nat)
deriving DecidableEq, Repr

inductive DbTable
  | DB_AUTH
  | DB_CONFIG
deriving DecidableEq, Repr

inductive SaveDelay
  | DB_SHORT_SAVE_DELAY
  | DB_LONG_SAVE_DELAY
deriving DecidableEq, Repr

/-- The slots started by `QTimer::singleShot` in this file. -/
inductive TimerSlot
  | queryFirmwareVersionTimerFired
  | updateSoftwareTimerFired
  | updateFirmwareTimerFired
deriving DecidableEq, Repr

/-- Exit codes handed to `qApp->exit`, by the names of the header. -/
inductive AppRet
  | APP_RET_RESTART_APP
  | APP_RET_UPDATE
  | APP_RET_UPDATE_ALPHA
  | APP_RET_UPDATE_BETA
  | APP_RET_UPDATE_FW
deriving DecidableEq, Repr

/-- A light as `getFullState` reads it: its id; the rest is left to `lightToMap`. -/
structure LightNode where
  id : QString
deriving DecidableEq, Repr

inductive GroupState
  | StateNormal
  | StateDeleted
deriving DecidableEq, Repr

/-- A group as `getFullState` reads it: its id and state; the rest is left to `groupToMap`. -/
structure Group where
  id : QString
  state : GroupState
deriving DecidableEq, Repr

/-- An address entry of a network interface. -/
structure NetworkAddressEntry where
  ip : QString
  netmask : QString
  isIPv4 : Bool
deriving DecidableEq, Repr

/-- A network interface as `configToMap` reads it. -/
structure NetworkInterface where
  isUp : Bool
  isRunning : Bool
  isLoopBack : Bool
  addressEntries : List NetworkAddressEntry
  hardwareAddress : QString
deriving DecidableEq, Repr

/-- The members of `DeRestPluginPrivate` used by the configuration API.
`apsCtrl` tells whether the radio controller pointer is set, `gwConfigEtag` is the
change token, `lockGatewayTimer` is the interval of the running relock timer (`none`
when stopped), `saveQueue` lists the `queSaveDb` requests and `networkRequests` the
states asked of the radio by `setNetworkState`, both in call order. `singleShots` lists the
`QTimer::singleShot` calls (delay in ms and slot) in call order, `dbSaves` counts the
immediate `openDb(); saveDb(); closeDb()` sequences and `appExit` lists the codes handed to
`qApp->exit`. -/
structure GatewayState where
  apsCtrl : Bool
  gwLinkButton : Bool
  apiAuths : List ApiAuth
  gwConfigEtag : Nat
  gwName : QString
  gwRfConnected : Bool
  gwRfConnectedExpected : Bool
  gwUpdateChannel : QString
  gwUpdateVersion : QString
  gwPermitJoinDuration : Int
  gwGroupSendDelay : Int
  gwOtauActive : Bool
  gwAnnounceInterval : Int
  gwAdminUserName : QString
  gwAdminPasswordHash : QString
  gwFirmwareVersion : QString
  gwFirmwareVersionUpdate : QString
  gwFirmwareNeedUpdate : Bool
  gwConfig : List (QString × QString)
  touchlinkState : TouchlinkState
  lockGatewayTimer : Option Int
  saveQueue : List (DbTable × SaveDelay)
  networkRequests : List Bool
  gwUuid : QString
  gwAnnounceUrl : QString
  gwIpAddress : QString
  gwPort : Int
  nodes : List LightNode
  groups : List Group
  singleShots : List (Nat × TimerSlot)
  dbSaves : Nat
  appExit : List AppRet
deriving DecidableEq, Repr

/-- Constants of the headers and collaborators defined outside this file.
`checkApikeyAuthentification` gives the verdict and the response the check leaves;
`setNetworkState` tells whether the radio accepts the requested state (argument true
for `InNetwork`); `qrand i` is the value of the i-th `qrand()` call of a request.
`getUptime` is the uptime in seconds, `initAuthentification` the effect of that member on the
state, `isInNetwork` what the radio reports, `firmwareVersion` the value of
`getParameter(ParamFirmwareVersion)`, `autoConnect` and `httpPort` the values of the arguments
`--auto-connect` and `--http-port`, `ARCH_ARM` whether the build defines that symbol,
`fileExists` and `homeLocation` the file system, `currentDateTime` and `formatDateTime` the
local clock and its rendering, `lightToMap` and `groupToMap` the map built for a light or
group, `none` when the call returns false. -/
structure Env where
  GW_DEFAULT_NAME : QString
  GW_SW_VERSION : QString
  MAX_GROUP_SEND_DELAY : Int
  MAX_UNLOCK_GATEWAY_TIME : Nat
  ANNOUNCE_INTERVAL : Int
  errorCode : ApiError → Nat
  allowedToCreateApikey : ApiRequest → Bool
  checkApikeyAuthentification : ApiRequest → ApiResponse → Bool × ApiResponse
  encryptString : QString → QString
  setNetworkState : Bool → Bool
  qrand : Nat → Nat
  currentDateTimeUtc : Nat
  getUptime : Int
  initAuthentification : GatewayState → GatewayState
  isInNetwork : Bool
  isOtauBusy : Bool
  firmwareVersion : Nat
  autoConnect : Int
  httpPort : Int
  ARCH_ARM : Bool
  FW_PLATFORM_MASK : Nat
  FW_PLATFORM_RPI : Nat
  GW_MIN_RPI_FW_VERSION : Nat
  fileExists : QString → Bool
  homeLocation : QString
  allInterfaces : List NetworkInterface
  currentDateTime : Nat
  formatDateTime : Nat → QString
  lightToMap : ApiRequest → LightNode → Option (List (QString × JsonValue))
  groupToMap : Group → Option (List (QString × JsonValue))

/-- What a handler leaves behind: return code, state and response. -/
structure Outcome where
  ret : ReturnCode
  state : GatewayState
  rsp : ApiResponse

/-- Modelled from the spec: `updateEtag` is defined outside this file; the change token
is a strictly changing value, here a counter that each call advances by one. -/
def updateEtag (s : GatewayState) : GatewayState :=
  { s with gwConfigEtag := s.gwConfigEtag + 1 }

/-- Modelled from the spec: `queSaveDb` is defined outside this file; it schedules a save
of a table after a short or long delay. The request is recorded in call order. -/
def queSaveDb (s : GatewayState) (table : DbTable) (delay : SaveDelay) : GatewayState :=
  { s with saveQueue := s.saveQueue ++ [(table, delay)] }

/-- Modelled from the spec: `setPermitJoinDuration` is defined outside this file; the
value is forwarded to the join-window controller, which records the duration. -/
def setPermitJoinDuration (s : GatewayState) (seconds : Int) : GatewayState :=
  { s with gwPermitJoinDuration := seconds }

/-- Modelled from the spec: `setInternetDiscoveryInterval` is defined outside this file;
it sets the announce interval to the given number of minutes. -/
def setInternetDiscoveryInterval (s : GatewayState) (minutes : Int) : GatewayState :=
  { s with gwAnnounceInterval := minutes }

/-- Assignment `map[key] = value` on the persisted configuration map. -/
def configInsert (m : List (QString × QString)) (key value : QString) : List (QString × QString) :=
  match m with
  | [] => [(key, value)]
  | (k, v) :: rest => if k = key then (key, value) :: rest else (k, v) :: configInsert rest key value

/-! ## createUser -/

/-- Upper-case hexadecimal digit of a value below 16. -/
def hexDigitUpper (n : Nat) : Char :=
  if n < 10 then Char.ofNat (48 + n) else Char.ofNat (55 + n)

/-- Rendering `sprintf("%02X", rnd)` of `rnd = (uint8_t)qrand()`. -/
def hex2 (r : Nat) : QString :=
  String.mk [hexDigitUpper ((r % 256) / 16), hexDigitUpper ((r % 256) % 16)]

/-- The random key: five draws, each appended as two hexadecimal digits. -/
def randomApikey (env : Env) : QString :=
  (List.range 5).foldl (fun key i => key ++ hex2 (env.qrand i)) ""

/-- Handler of `POST /api`. -/
def createUser (env : Env) (s : GatewayState) (req : ApiRequest) (rsp : ApiResponse) : Outcome :=
  let ok := req.content.ok
  let map := req.content.map
  if !s.gwLinkButton && !env.allowedToCreateApikey req then
    { ret := ReturnCode.REQ_READY_SEND
      state := s
      rsp := { rsp with
        httpStatus := HttpStatus.HttpStatusForbidden
        list := rsp.list ++ [errorToMap ApiError.ERR_LINK_BUTTON_NOT_PRESSED "" "link button not pressed"] } }
  else if !ok || map.isEmpty then
    { ret := ReturnCode.REQ_READY_SEND
      state := s
      rsp := { rsp with
        httpStatus := HttpStatus.HttpStatusBadRequest
        list := rsp.list ++ [errorToMap ApiError.ERR_INVALID_JSON "" "body contains invalid JSON"] } }
  else if !map.contains "devicetype" then
    { ret := ReturnCode.REQ_READY_SEND
      state := s
      rsp := { rsp with
        httpStatus := HttpStatus.HttpStatusBadRequest
        list := rsp.list ++ [errorToMap ApiError.ERR_MISSING_PARAMETER "" "missing parameters in body"] } }
  else
    let devicetype := (map.value "devicetype").toString
    if map.contains "username" &&
        ((map.value "username").type != QVariantType.String || (map.value "username").toString.length < 10) then
      { ret := ReturnCode.REQ_READY_SEND
        state := s
        rsp := { rsp with
          httpStatus := HttpStatus.HttpStatusBadRequest
          list := rsp.list ++ [errorToMap ApiError.ERR_INVALID_VALUE "/"
            ("invalid value, " ++ (map.value "username").toString ++ ", for parameter, username")] } }
    else
      let apikey := if map.contains "username" then (map.value "username").toString else randomApikey env
      let found := map.contains "username" && s.apiAuths.any (fun a => apikey == a.apikey)
      let rsp1 := { rsp with
        list := rsp.list ++ [RspItem.success "username" (RspValue.str apikey)]
        httpStatus := HttpStatus.HttpStatusOk }
      if !found then
        let auth : ApiAuth :=
          { apikey := apikey, devicetype := devicetype
            createDate := env.currentDateTimeUtc, lastUseDate := env.currentDateTimeUtc }
        let s1 := { s with apiAuths := s.apiAuths ++ [auth] }
        let s2 := queSaveDb s1 DbTable.DB_AUTH SaveDelay.DB_SHORT_SAVE_DELAY
        let s3 := updateEtag s2
        { ret := ReturnCode.REQ_READY_SEND, state := s3, rsp := { rsp1 with etag := s3.gwConfigEtag } }
      else
        { ret := ReturnCode.REQ_READY_SEND, state := s, rsp := { rsp1 with etag := s.gwConfigEtag } }

/-! ## modifyConfig -/

/-- Working values of `modifyConfig` between two fields: the state, the response and the
local variable `changed`. -/
structure Ctx where
  state : GatewayState
  rsp : ApiResponse
  changed : Bool

/-- The exit of a field whose value is refused: the error element is appended, the status
becomes `HttpStatusBadRequest` and the handler returns at once. -/
def reject (c : Ctx) (item : RspItem) : Except Ctx Ctx :=
  Except.error { c with rsp := { c.rsp with
    list := c.rsp.list ++ [item], httpStatus := HttpStatus.HttpStatusBadRequest } }

/-- Appends a success element for one field. -/
def appendSuccess (c : Ctx) (path : QString) (value : RspValue) : Ctx :=
  { c with rsp := { c.rsp with list := c.rsp.list ++ [RspItem.success path value] } }

/-- Block `if (map.contains("name"))`. -/
def modifyConfigName (env : Env) (map : QVariantMap) (c : Ctx) : Except Ctx Ctx :=
  if map.contains "name" then
    if (map.value "name").type != QVariantType.String || (map.value "name").toString.length > 16 then
      reject c (errorToMap ApiError.ERR_INVALID_VALUE "/config/name"
        ("invalid value, " ++ (map.value "name").toString ++ ", for parameter, name"))
    else
      let name := (map.value "name").toString
      let c1 : Ctx :=
        if c.state.gwName != name then
          { c with
            state := { c.state with gwName := if name.isEmpty then env.GW_DEFAULT_NAME else name }
            changed := true }
        else c
      let c2 := appendSuccess c1 "/config/name" (RspValue.str c1.state.gwName)
      let s3 := { c2.state with gwConfig := configInsert c2.state.gwConfig "name" c2.state.gwName }
      Except.ok { c2 with state := queSaveDb s3 DbTable.DB_CONFIG SaveDelay.DB_SHORT_SAVE_DELAY }
  else Except.ok c

/-- Block `if (map.contains("rfconnected"))`. A refusal by the radio adds a
`ERR_DEVICE_OFF` element and goes on; it neither sets the status nor returns. -/
def modifyConfigRfconnected (env : Env) (map : QVariantMap) (c : Ctx) : Except Ctx Ctx :=
  if map.contains "rfconnected" then
    if (map.value "rfconnected").type != QVariantType.Bool then
      reject c (errorToMap ApiError.ERR_INVALID_VALUE "/config/rfconnected"
        ("invalid value, " ++ (map.value "rfconnected").toString ++ ", for parameter, rfconnected"))
    else if c.state.touchlinkState != TouchlinkState.TL_Idle then
      reject c (errorToMap ApiError.ERR_INTERNAL_ERROR "/config/rfconnected"
        ("Internal error, " ++ ToString.toString (env.errorCode ApiError.ERR_BRIDGE_BUSY)))
    else
      let rfconnected := (map.value "rfconnected").toBool
      let c1 : Ctx :=
        if c.state.gwRfConnected != rfconnected then
          { c with state := { c.state with gwRfConnected := rfconnected }, changed := true }
        else c
      let c2 : Ctx :=
        if c1.state.gwRfConnectedExpected != rfconnected then
          { c1 with state := (queSaveDb { c1.state with gwRfConnectedExpected := rfconnected }
              DbTable.DB_CONFIG SaveDelay.DB_LONG_SAVE_DELAY) }
        else c1
      let c3 : Ctx :=
        { c2 with state := { c2.state with
            networkRequests := c2.state.networkRequests ++ [c2.state.gwRfConnected] } }
      if env.setNetworkState c2.state.gwRfConnected then
        Except.ok (appendSuccess c3 "/config/rfconnected" (RspValue.bool c3.state.gwRfConnected))
      else
        Except.ok { c3 with rsp := { c3.rsp with list := c3.rsp.list ++
          [errorToMap ApiError.ERR_DEVICE_OFF "/config/rfconnected"
            "Error, rfconnected, is not modifiable. Device is set to off."] } }
  else Except.ok c

/-- Block `if (map.contains("updatechannel"))`. -/
def modifyConfigUpdatechannel (env : Env) (map : QVariantMap) (c : Ctx) : Except Ctx Ctx :=
  if map.contains "updatechannel" then
    let updatechannel := (map.value "updatechannel").toString
    if (map.value "updatechannel").type != QVariantType.String ||
        !(updatechannel == "stable" || updatechannel == "alpha" || updatechannel == "beta") then
      reject c (errorToMap ApiError.ERR_INVALID_VALUE "/config/updatechannel"
        ("invalid value, " ++ (map.value "updatechannel").toString ++ ", for parameter, updatechannel"))
    else
      let c1 : Ctx :=
        if c.state.gwUpdateChannel != updatechannel then
          { c with
            state := (queSaveDb { c.state with
                gwUpdateChannel := updatechannel, gwUpdateVersion := env.GW_SW_VERSION }
              DbTable.DB_CONFIG SaveDelay.DB_SHORT_SAVE_DELAY)
            changed := true }
        else c
      Except.ok (appendSuccess c1 "/config/updatechannel" (RspValue.str updatechannel))
  else Except.ok c

/-- Block `if (map.contains("permitjoin"))`. -/
def modifyConfigPermitjoin (map : QVariantMap) (c : Ctx) : Except Ctx Ctx :=
  if map.contains "permitjoin" then
    let seconds := (map.value "permitjoin").toInt.1
    let ok := (map.value "permitjoin").toInt.2
    if !ok || !(decide (seconds ≥ 0) && decide (seconds ≤ 255)) then
      reject c (errorToMap ApiError.ERR_INVALID_VALUE "/config/permitjoin"
        ("invalid value, " ++ (map.value "permitjoin").toString ++ ", for parameter, permitjoin"))
    else
      let c1 : Ctx := if c.state.gwPermitJoinDuration != seconds then { c with changed := true } else c
      let c2 : Ctx := { c1 with state := setPermitJoinDuration c1.state seconds }
      Except.ok (appendSuccess c2 "/config/permitjoin" (RspValue.num seconds))
  else Except.ok c

/-- Block `if (map.contains("groupdelay"))`. -/
def modifyConfigGroupdelay (env : Env) (map : QVariantMap) (c : Ctx) : Except Ctx Ctx :=
  if map.contains "groupdelay" then
    let milliseconds := (map.value "groupdelay").toInt.1
    let ok := (map.value "groupdelay").toInt.2
    if !ok || !(decide (milliseconds ≥ 0) && decide (milliseconds ≤ env.MAX_GROUP_SEND_DELAY)) then
      reject c (errorToMap ApiError.ERR_INVALID_VALUE "/config/groupdelay"
        ("invalid value, " ++ (map.value "groupdelay").toString ++ ", for parameter, groupdelay"))
    else
      let c1 : Ctx :=
        if c.state.gwGroupSendDelay != milliseconds then
          { c with
            state := (queSaveDb { c.state with gwGroupSendDelay := milliseconds }
              DbTable.DB_CONFIG SaveDelay.DB_SHORT_SAVE_DELAY)
            changed := true }
        else c
      Except.ok (appendSuccess c1 "/config/groupdelay" (RspValue.num milliseconds))
  else Except.ok c

/-- Block `if (map.contains("otauactive"))`. -/
def modifyConfigOtauactive (map : QVariantMap) (c : Ctx) : Except Ctx Ctx :=
  if map.contains "otauactive" then
    let otauActive := (map.value "otauactive").toBool
    if (map.value "otauactive").type != QVariantType.Bool then
      reject c (errorToMap ApiError.ERR_INVALID_VALUE "/config/otauactive"
        ("invalid value, " ++ (map.value "otauactive").toString ++ ", for parameter, otauactive"))
    else
      let c1 : Ctx :=
        if c.state.gwOtauActive != otauActive then
          { c with state := { c.state with gwOtauActive := otauActive }, changed := true }
        else c
      Except.ok (appendSuccess c1 "/config/otauactive" (RspValue.bool otauActive))
  else Except.ok c

/-- Block `if (map.contains("discovery"))`. -/
def modifyConfigDiscovery (env : Env) (map : QVariantMap) (c : Ctx) : Except Ctx Ctx :=
  if map.contains "discovery" then
    let discovery := (map.value "discovery").toBool
    if (map.value "discovery").type != QVariantType.Bool then
      reject c (errorToMap ApiError.ERR_INVALID_VALUE "/config/discovery"
        ("invalid value, " ++ (map.value "discovery").toString ++ ", for parameter, discovery"))
    else
      let minutes := c.state.gwAnnounceInterval
      let c1 : Ctx :=
        if discovery then { c with state := setInternetDiscoveryInterval c.state env.ANNOUNCE_INTERVAL }
        else { c with state := setInternetDiscoveryInterval c.state 0 }
      let c2 : Ctx :=
        if minutes != c1.state.gwAnnounceInterval then
          { c1 with
            state := queSaveDb c1.state DbTable.DB_CONFIG SaveDelay.DB_SHORT_SAVE_DELAY
            changed := true }
        else c1
      Except.ok (appendSuccess c2 "/config/discovery" (RspValue.bool discovery))
  else Except.ok c

/-- Conversion of a 32 bit unsigned value to `int`, as passing it to `QTimer::start(int)` does. -/
def uintToInt (n : Nat) : Int :=
  if n % 4294967296 < 2147483648 then (n % 4294967296 : Nat) else (n % 4294967296 : Nat) - 4294967296

/-- Block `if (map.contains("unlock"))`. The interval handed to the timer is the
unsigned product `seconds * 1000`. -/
def modifyConfigUnlock (env : Env) (map : QVariantMap) (c : Ctx) : Except Ctx Ctx :=
  if map.contains "unlock" then
    let seconds := (map.value "unlock").toUInt.1
    let ok := (map.value "unlock").toUInt.2
    if !ok || decide (seconds > env.MAX_UNLOCK_GATEWAY_TIME) then
      reject c (errorToMap ApiError.ERR_INVALID_VALUE "/config/unlock"
        ("invalid value, " ++ (map.value "unlock").toString ++ ", for parameter, unlock"))
    else
      let c1 : Ctx := { c with state := { c.state with lockGatewayTimer := none }, changed := true }
      let c2 : Ctx :=
        if seconds > 0 then
          { c1 with state := { c1.state with
              gwLinkButton := true
              lockGatewayTimer := some (uintToInt (seconds * 1000)) } }
        else
          { c1 with state := { c1.state with gwLinkButton := false } }
      Except.ok (appendSuccess c2 "/config/unlock" (RspValue.num seconds))
  else Except.ok c

/-- The eight field blocks of `modifyConfig` in source order; `Except.error` is the
`return` inside a block. -/
def modifyConfigFields (env : Env) (map : QVariantMap) (c : Ctx) : Except Ctx Ctx := do
  let c ← modifyConfigName env map c
  let c ← modifyConfigRfconnected env map c
  let c ← modifyConfigUpdatechannel env map c
  let c ← modifyConfigPermitjoin map c
  let c ← modifyConfigGroupdelay env map c
  let c ← modifyConfigOtauactive map c
  let c ← modifyConfigDiscovery env map c
  modifyConfigUnlock env map c

/-- Handler of `PUT /api/<apikey>/config`. -/
def modifyConfig (env : Env) (s : GatewayState) (req : ApiRequest) (rsp : ApiResponse) : Outcome :=
  let auth := env.checkApikeyAuthentification req rsp
  if !auth.1 then
    { ret := ReturnCode.REQ_READY_SEND, state := s, rsp := auth.2 }
  else
    let ok := req.content.ok
    let map := req.content.map
    if !s.apsCtrl then
      { ret := ReturnCode.REQ_NOT_HANDLED, state := s, rsp := auth.2 }
    else
      let rsp1 := { auth.2 with httpStatus := HttpStatus.HttpStatusOk }
      if !ok || map.isEmpty then
        { ret := ReturnCode.REQ_READY_SEND
          state := s
          rsp := { rsp1 with
            httpStatus := HttpStatus.HttpStatusBadRequest
            list := rsp1.list ++ [errorToMap ApiError.ERR_INVALID_JSON "" "body contains invalid JSON"] } }
      else
        match modifyConfigFields env map { state := s, rsp := rsp1, changed := false } with
        | Except.error c => { ret := ReturnCode.REQ_READY_SEND, state := c.state, rsp := c.rsp }
        | Except.ok c =>
          let s1 := if c.changed then updateEtag c.state else c.state
          { ret := ReturnCode.REQ_READY_SEND, state := s1, rsp := { c.rsp with etag := s1.gwConfigEtag } }

/-! ## changePassword -/

/-- Handler of `PUT /api/<apikey>/config/password`. -/
def changePassword (env : Env) (s : GatewayState) (req : ApiRequest) (rsp : ApiResponse) : Outcome :=
  let auth := env.checkApikeyAuthentification req rsp
  if !auth.1 then
    { ret := ReturnCode.REQ_READY_SEND, state := s, rsp := auth.2 }
  else
    let ok := req.content.ok
    let map := req.content.map
    let rsp1 := { auth.2 with httpStatus := HttpStatus.HttpStatusOk }
    if !ok || map.isEmpty then
      { ret := ReturnCode.REQ_READY_SEND
        state := s
        rsp := { rsp1 with
          httpStatus := HttpStatus.HttpStatusBadRequest
          list := rsp1.list ++
            [errorToMap ApiError.ERR_INVALID_JSON "/config/password" "body contains invalid JSON"] } }
    else if map.contains "username" && map.contains "oldhash" && map.contains "newhash" then
      let username := (map.value "username").toString
      let oldhash := (map.value "oldhash").toString
      let newhash := (map.value "newhash").toString
      if (map.value "username").type != QVariantType.String || username != s.gwAdminUserName then
        { ret := ReturnCode.REQ_READY_SEND
          state := s
          rsp := { rsp1 with
            httpStatus := HttpStatus.HttpStatusUnauthorized
            list := rsp1.list ++ [errorToMap ApiError.ERR_INVALID_VALUE "/config/password"
              ("invalid value, " ++ username ++ " for parameter, username")] } }
      else if (map.value "oldhash").type != QVariantType.String || oldhash.isEmpty then
        { ret := ReturnCode.REQ_READY_SEND
          state := s
          rsp := { rsp1 with
            httpStatus := HttpStatus.HttpStatusUnauthorized
            list := rsp1.list ++ [errorToMap ApiError.ERR_INVALID_VALUE "/config/password"
              ("invalid value, " ++ oldhash ++ " for parameter, oldhash")] } }
      else if (map.value "newhash").type != QVariantType.String || newhash.isEmpty then
        { ret := ReturnCode.REQ_READY_SEND
          state := s
          rsp := { rsp1 with
            httpStatus := HttpStatus.HttpStatusBadRequest
            list := rsp1.list ++ [errorToMap ApiError.ERR_INVALID_VALUE "/config/password"
              ("invalid value, " ++ newhash ++ " for parameter, newhash")] } }
      else if env.encryptString oldhash != s.gwAdminPasswordHash then
        { ret := ReturnCode.REQ_READY_SEND
          state := s
          rsp := { rsp1 with
            httpStatus := HttpStatus.HttpStatusUnauthorized
            list := rsp1.list ++ [errorToMap ApiError.ERR_INVALID_VALUE "/config/password"
              ("invalid value, " ++ oldhash ++ " for parameter, oldhash")] } }
      else
        let s1 := { s with gwAdminPasswordHash := env.encryptString newhash }
        { ret := ReturnCode.REQ_READY_SEND
          state := queSaveDb s1 DbTable.DB_CONFIG SaveDelay.DB_SHORT_SAVE_DELAY
          rsp := { rsp1 with
            list := rsp1.list ++ [RspItem.success "/config/password" (RspValue.str "changed")] } }
    else
      { ret := ReturnCode.REQ_READY_SEND
        state := s
        rsp := { rsp1 with
          httpStatus := HttpStatus.HttpStatusBadRequest
          list := rsp1.list ++
            [errorToMap ApiError.ERR_MISSING_PARAMETER "/config/password" "missing parameters in body"] } }

/-! ## deletePassword -/

/-- Member `QMap::remove` on the persisted configuration map. -/
def configRemove (m : List (QString × QString)) (key : QString) : List (QString × QString) :=
  m.filter (fun e => e.1 != key)

/-- Rendering `req.path.join("/")`. -/
def joinPath (path : List QString) : QString :=
  "/".intercalate path

/-- Handler of `DELETE /api/config/password`. -/
def deletePassword (env : Env) (s : GatewayState) (req : ApiRequest) (rsp : ApiResponse) : Outcome :=
  if env.getUptime > 600 then
    { ret := ReturnCode.REQ_READY_SEND
      state := s
      rsp := { rsp with
        httpStatus := HttpStatus.HttpStatusForbidden
        list := rsp.list ++
          [errorToMap ApiError.ERR_UNAUTHORIZED_USER (joinPath req.path) "unauthorized user"] } }
  else
    let s1 := { s with gwConfig := configRemove (configRemove s.gwConfig "gwusername") "gwpassword" }
    { ret := ReturnCode.REQ_READY_SEND
      state := env.initAuthentification s1
      rsp := { rsp with httpStatus := HttpStatus.HttpStatusOk } }

/-! ## Software and firmware update -/

/-- Modelled from the spec: `openDb`, `saveDb` and `closeDb` are defined outside this file; the
sequence persists the state at once. The call is counted. -/
def saveDbNow (s : GatewayState) : GatewayState :=
  { s with dbSaves := s.dbSaves + 1 }

/-- Call `QTimer::singleShot(msec, this, SLOT(slot))`: recorded in call order. -/
def singleShot (s : GatewayState) (msec : Nat) (slot : TimerSlot) : GatewayState :=
  { s with singleShots := s.singleShots ++ [(msec, slot)] }

/-- Handler of `POST /api/<apikey>/config/update`. The part under `#ifdef ARCH_ARM` is there
when `env.ARCH_ARM` holds. -/
def updateSoftware (env : Env) (s : GatewayState) (req : ApiRequest) (rsp : ApiResponse) : Outcome :=
  let auth := env.checkApikeyAuthentification req rsp
  if !auth.1 then
    { ret := ReturnCode.REQ_READY_SEND, state := s, rsp := auth.2 }
  else
    let rsp1 := { auth.2 with
      httpStatus := HttpStatus.HttpStatusOk
      list := auth.2.list ++ [RspItem.success "/config/update" (RspValue.str s.gwUpdateVersion)] }
    if env.ARCH_ARM && s.gwUpdateVersion != env.GW_SW_VERSION then
      { ret := ReturnCode.REQ_READY_SEND
        state := singleShot (saveDbNow s) 5000 TimerSlot.updateSoftwareTimerFired
        rsp := rsp1 }
    else
      { ret := ReturnCode.REQ_READY_SEND, state := s, rsp := rsp1 }

/-- Handler of `POST /api/<apikey>/config/updatefirmware`. -/
def updateFirmware (env : Env) (s : GatewayState) (req : ApiRequest) (rsp : ApiResponse) : Outcome :=
  let auth := env.checkApikeyAuthentification req rsp
  if !auth.1 then
    { ret := ReturnCode.REQ_READY_SEND, state := s, rsp := auth.2 }
  else
    let rsp1 := { auth.2 with
      httpStatus := HttpStatus.HttpStatusOk
      list := auth.2.list ++
        [RspItem.success "/config/updatefirmware" (RspValue.str s.gwFirmwareVersionUpdate)] }
    if env.ARCH_ARM && s.gwFirmwareNeedUpdate then
      { ret := ReturnCode.REQ_READY_SEND
        state := singleShot (saveDbNow s) 5000 TimerSlot.updateFirmwareTimerFired
        rsp := rsp1 }
    else
      { ret := ReturnCode.REQ_READY_SEND, state := s, rsp := rsp1 }

/-- Slot `updateSoftwareTimerFired`. The local `appRet` starts as `APP_RET_RESTART_APP`, is
replaced for the channels stable, alpha and beta, and the last `else` returns before
`qApp->exit(appRet)`: `none` below is that return. -/
def updateSoftwareTimerFired (s : GatewayState) : GatewayState :=
  let appRet : Option AppRet :=
    if s.gwUpdateChannel == "stable" then some AppRet.APP_RET_UPDATE
    else if s.gwUpdateChannel == "alpha" then some AppRet.APP_RET_UPDATE_ALPHA
    else if s.gwUpdateChannel == "beta" then some AppRet.APP_RET_UPDATE_BETA
    else none
  match appRet with
  | none => s
  | some code => { s with appExit := s.appExit ++ [code] }

/-! ## Radio state and firmware version -/

/-- Modelled from the spec: `isTouchlinkActive` is defined outside this file; the exclusive
touchlink mode is active when the touchlink state is not idle. -/
def isTouchlinkActive (s : GatewayState) : Bool :=
  s.touchlinkState != TouchlinkState.TL_Idle

/-- Helper `checkRfConnectState`. -/
def checkRfConnectState (env : Env) (s : GatewayState) : GatewayState :=
  if s.apsCtrl then
    let s1 : GatewayState :=
      if isTouchlinkActive s then
        if !s.gwRfConnected then updateEtag { s with gwRfConnected := true } else s
      else
        let connected := env.isInNetwork
        if connected != s.gwRfConnected then updateEtag { s with gwRfConnected := connected } else s
    if !s1.gwRfConnectedExpected && s1.gwRfConnected then
      queSaveDb { s1 with gwRfConnectedExpected := true } DbTable.DB_CONFIG SaveDelay.DB_LONG_SAVE_DELAY
    else s1
  else s

/-- Lower-case hexadecimal digit of a value below 16. -/
def hexDigitLower (n : Nat) : Char :=
  if n < 10 then Char.ofNat (48 + n) else Char.ofNat (87 + n)

/-- The eight lower-case hexadecimal digits of a 32 bit value, most significant first. -/
def hexDigits8 (v : Nat) : List Char :=
  [hexDigitLower (v / 268435456 % 16), hexDigitLower (v / 16777216 % 16),
   hexDigitLower (v / 1048576 % 16), hexDigitLower (v / 65536 % 16),
   hexDigitLower (v / 4096 % 16), hexDigitLower (v / 256 % 16),
   hexDigitLower (v / 16 % 16), hexDigitLower (v % 16)]

/-- Rendering `sprintf("0x%08x", v)` of a 32 bit unsigned value. -/
def sprintfHex8 (v : Nat) : QString :=
  "0x" ++ String.mk (hexDigits8 (v % 4294967296))

/-- Member `checkMinFirmwareVersionFile`; the body is there when `env.ARCH_ARM` holds. -/
def checkMinFirmwareVersionFile (env : Env) (s : GatewayState) : GatewayState :=
  if env.ARCH_ARM then
    let s1 := { s with gwFirmwareVersionUpdate := sprintfHex8 env.GW_MIN_RPI_FW_VERSION }
    let path := env.homeLocation ++ "/raspbee_firmware/" ++ "deCONZ_Rpi_" ++
      s1.gwFirmwareVersionUpdate ++ ".bin.GCF"
    if env.fileExists path then
      { s1 with gwFirmwareNeedUpdate := true }
    else
      { s1 with gwFirmwareVersionUpdate := s1.gwFirmwareVersion }
  else s

/-- The firmware version the radio reports, as the `uint32_t` it is stored in. -/
def reportedFirmwareVersion (env : Env) : Nat :=
  env.firmwareVersion % 4294967296

/-- Slot `queryFirmwareVersionTimerFired`. -/
def queryFirmwareVersionTimerFired (env : Env) (s : GatewayState) : GatewayState :=
  if s.apsCtrl then
    let fwVersion := reportedFirmwareVersion env
    if fwVersion == 0 then
      let s1 := singleShot s 1000 TimerSlot.queryFirmwareVersionTimerFired
      if !s1.gwFirmwareNeedUpdate then
        if env.getUptime ≥ 60 then
          if env.autoConnect == 1 then
            let s2 := checkMinFirmwareVersionFile env s1
            if s2.gwFirmwareNeedUpdate then updateEtag s2 else s2
          else s1
        else s1
      else s1
    else
      let str := sprintfHex8 fwVersion
      let s1 := { s with
        gwConfig := configInsert s.gwConfig "fwversion" str
        gwFirmwareVersion := str
        gwFirmwareVersionUpdate := str
        gwFirmwareNeedUpdate := false }
      let s2 :=
        if (fwVersion &&& env.FW_PLATFORM_MASK) == env.FW_PLATFORM_RPI then
          if fwVersion < env.GW_MIN_RPI_FW_VERSION then checkMinFirmwareVersionFile env s1 else s1
        else s1
      updateEtag s2
  else s

/-! ## Reading the configuration -/

/-- A run of assignments `map[key] = value` in the given order. -/
def assignAll (map : List (QString × JsonValue)) (entries : List (QString × JsonValue)) :
    List (QString × JsonValue) :=
  entries.foldl (fun m e => mapInsert m e.1 e.2) map

/-- The interface `configToMap` picks: the first one that is up, running, not a loopback and
has an address entry. -/
def pickInterface (env : Env) : Option NetworkInterface :=
  env.allInterfaces.find? (fun i => i.isUp && i.isRunning && !i.isLoopBack && !i.addressEntries.isEmpty)

/-- The first part of `configToMap`: the entries ipaddress, netmask and mac. -/
def networkEntries (env : Env) (map : List (QString × JsonValue)) : List (QString × JsonValue) :=
  let found : Option (NetworkInterface × Option NetworkAddressEntry) :=
    match pickInterface env with
    | some eth =>
      if !eth.addressEntries.isEmpty then some (eth, eth.addressEntries.find? (fun a => a.isIPv4))
      else none
    | none => none
  let map1 :=
    match found with
    | some (eth, some a) =>
      assignAll map [("ipaddress", JsonValue.str a.ip), ("netmask", JsonValue.str a.netmask),
        ("mac", JsonValue.str eth.hardwareAddress)]
    | some (eth, none) => assignAll map [("mac", JsonValue.str eth.hardwareAddress)]
    | none => map
  let ok := match found with
    | some (_, some _) => true
    | _ => false
  if !ok then
    assignAll map1 [("mac", JsonValue.str "38:60:77:7c:53:18"), ("ipaddress", JsonValue.str "127.0.0.1"),
      ("netmask", JsonValue.str "255.0.0.0")]
  else map1

/-- The whitelist map of `configToMap`: one entry per record, keyed by the api key. -/
def whitelistMap (env : Env) (s : GatewayState) : List (QString × JsonValue) :=
  s.apiAuths.foldl (fun w a =>
    mapInsert w a.apikey (JsonValue.obj
      [("last use date", JsonValue.str (env.formatDateTime a.lastUseDate)),
       ("create date", JsonValue.str (env.formatDateTime a.createDate)),
       ("name", JsonValue.str a.devicetype)])) []

/-- Member `configToMap`: fills the map and caches the address and the port in the state. -/
def configToMap (env : Env) (s : GatewayState) (map : List (QString × JsonValue)) :
    GatewayState × List (QString × JsonValue) :=
  let map1 := networkEntries env map
  let map2 := assignAll map1
    [("name", JsonValue.str s.gwName),
     ("uuid", JsonValue.str s.gwUuid),
     ("port", JsonValue.num env.httpPort),
     ("dhcp", JsonValue.bool true),
     ("gateway", JsonValue.str "192.168.178.1"),
     ("proxyaddress", JsonValue.str ""),
     ("proxyport", JsonValue.num 0),
     ("utc", JsonValue.str (env.formatDateTime env.currentDateTime)),
     ("whitelist", JsonValue.obj (whitelistMap env s)),
     ("swversion", JsonValue.str env.GW_SW_VERSION),
     ("fwversion", JsonValue.str s.gwFirmwareVersion),
     ("fwneedupdate", JsonValue.bool s.gwFirmwareNeedUpdate),
     ("announceurl", JsonValue.str s.gwAnnounceUrl),
     ("announceinterval", JsonValue.num s.gwAnnounceInterval),
     ("rfconnected", JsonValue.bool s.gwRfConnected),
     ("permitjoin", JsonValue.num s.gwPermitJoinDuration),
     ("otauactive", JsonValue.bool s.gwOtauActive),
     ("otaustate", JsonValue.str
        (if env.isOtauBusy then "busy" else if s.gwOtauActive then "idle" else "off")),
     ("groupdelay", JsonValue.num s.gwGroupSendDelay),
     ("discovery", JsonValue.bool (decide (s.gwAnnounceInterval > 0))),
     ("updatechannel", JsonValue.str s.gwUpdateChannel),
     ("swupdate", JsonValue.obj
        [("version", JsonValue.str s.gwUpdateVersion),
         ("updatestate", JsonValue.num 0),
         ("url", JsonValue.str ""),
         ("text", JsonValue.str ""),
         ("notify", JsonValue.bool false)]),
     ("linkbutton", JsonValue.bool s.gwLinkButton),
     ("portalservices", JsonValue.bool false)]
  let ip : QString := match map2.lookup "ipaddress" with
    | some (JsonValue.str a) => a
    | _ => ""
  let port : Int := match map2.lookup "port" with
    | some (JsonValue.num n) => n
    | _ => 0
  ({ s with gwIpAddress := ip, gwPort := port }, map2)

/-- The ETag test of the read handlers: the value of `If-None-Match` when the header is there
and equals the change token. -/
def matchingEtag (s : GatewayState) (req : ApiRequest) : Option Nat :=
  match req.ifNoneMatch with
  | some etag => if s.gwConfigEtag == etag then some etag else none
  | none => none

/-- Handler of `GET /api/<apikey>/config`. -/
def getConfig (env : Env) (s : GatewayState) (req : ApiRequest) (rsp : ApiResponse) : Outcome :=
  let auth := env.checkApikeyAuthentification req rsp
  if !auth.1 then
    { ret := ReturnCode.REQ_READY_SEND, state := s, rsp := auth.2 }
  else
    let s1 := checkRfConnectState env s
    match matchingEtag s1 req with
    | some etag =>
      { ret := ReturnCode.REQ_READY_SEND
        state := s1
        rsp := { auth.2 with httpStatus := HttpStatus.HttpStatusNotModified, etag := etag } }
    | none =>
      let filled := configToMap env s1 auth.2.map
      { ret := ReturnCode.REQ_READY_SEND
        state := filled.1
        rsp := { auth.2 with
          map := filled.2
          httpStatus := HttpStatus.HttpStatusOk
          etag := filled.1.gwConfigEtag } }

/-- The lights map of `getFullState`: the map of each light for which `lightToMap` succeeds. -/
def lightsMap (env : Env) (s : GatewayState) (req : ApiRequest) : List (QString × JsonValue) :=
  s.nodes.foldl (fun m n =>
    match env.lightToMap req n with
    | some lm => mapInsert m n.id (JsonValue.obj lm)
    | none => m) []

/-- The groups map of `getFullState`: deleted groups and the group 0 are left out. -/
def groupsMap (env : Env) (s : GatewayState) : List (QString × JsonValue) :=
  s.groups.foldl (fun m g =>
    if g.state == GroupState.StateDeleted then m
    else if g.id != "0" then
      match env.groupToMap g with
      | some gm => mapInsert m g.id (JsonValue.obj gm)
      | none => m
    else m) []

/-- Handler of `GET /api/<apikey>`. -/
def getFullState (env : Env) (s : GatewayState) (req : ApiRequest) (rsp : ApiResponse) : Outcome :=
  let auth := env.checkApikeyAuthentification req rsp
  if !auth.1 then
    { ret := ReturnCode.REQ_READY_SEND, state := s, rsp := auth.2 }
  else
    let s1 := checkRfConnectState env s
    match matchingEtag s1 req with
    | some etag =>
      { ret := ReturnCode.REQ_READY_SEND
        state := s1
        rsp := { auth.2 with httpStatus := HttpStatus.HttpStatusNotModified, etag := etag } }
    | none =>
      let lights := lightsMap env s1 req
      let groups := groupsMap env s1
      let filled := configToMap env s1 []
      { ret := ReturnCode.REQ_READY_SEND
        state := filled.1
        rsp := { auth.2 with
          map := assignAll auth.2.map
            [("lights", JsonValue.obj lights), ("groups", JsonValue.obj groups),
             ("config", JsonValue.obj filled.2), ("schedules", JsonValue.obj [])]
          etag := filled.1.gwConfigEtag
          httpStatus := HttpStatus.HttpStatusOk } }

/-! ## The broker -/

/-- Segment `req.path[i]`, read only after the test of `req.path.size()`. -/
def pathAt (req : ApiRequest) (i : Nat) : QString :=
  req.path.getD i ""

/-- The broker `handleConfigurationApi`. The branch of `DELETE` on the whitelist holds only a
TODO comment and falls through to the final `return REQ_NOT_HANDLED`. -/
def handleConfigurationApi (env : Env) (s : GatewayState) (req : ApiRequest) (rsp : ApiResponse) :
    Outcome :=
  if req.path.length == 1 && req.method == "POST" then
    createUser env s req rsp
  else if req.path.length == 2 && req.method == "GET" then
    getFullState env s req rsp
  else if req.path.length == 3 && req.method == "GET" && pathAt req 2 == "config" then
    getConfig env s req rsp
  else if req.path.length == 3 && req.method == "PUT" && pathAt req 2 == "config" then
    modifyConfig env s req rsp
  else if req.path.length == 5 && req.method == "DELETE" && pathAt req 2 == "config" &&
      pathAt req 3 == "whitelist" then
    { ret := ReturnCode.REQ_NOT_HANDLED, state := s, rsp := rsp }
  else if req.path.length == 4 && req.method == "POST" && pathAt req 2 == "config" &&
      pathAt req 3 == "update" then
    updateSoftware env s req rsp
  else if req.path.length == 4 && req.method == "POST" && pathAt req 2 == "config" &&
      pathAt req 3 == "updatefirmware" then
    updateFirmware env s req rsp
  else if req.path.length == 4 && req.method == "PUT" && pathAt req 2 == "config" &&
      pathAt req 3 == "password" then
    changePassword env s req rsp
  else if req.path.length == 3 && req.method == "DELETE" && pathAt req 1 == "config" &&
      pathAt req 2 == "password" then
    deletePassword env s req rsp
  else
    { ret := ReturnCode.REQ_NOT_HANDLED, state := s, rsp := rsp }

/-! ## Vocabulary of the statements -/

/-- The field names `modifyConfig` looks for, in the order of its blocks. -/
inductive ConfigField
  | name
  | rfconnected
  | updatechannel
  | permitjoin
  | groupdelay
  | otauactive
  | discovery
  | unlock
deriving DecidableEq, Repr

/-- The key of a field in the request body. -/
def ConfigField.key : ConfigField → QString
  | ConfigField.name => "name"
  | ConfigField.rfconnected => "rfconnected"
  | ConfigField.updatechannel => "updatechannel"
  | ConfigField.permitjoin => "permitjoin"
  | ConfigField.groupdelay => "groupdelay"
  | ConfigField.otauactive => "otauactive"
  | ConfigField.discovery => "discovery"
  | ConfigField.unlock => "unlock"

/-- Position of the block of a field in `modifyConfig`. -/
def ConfigField.index : ConfigField → Nat
  | ConfigField.name => 0
  | ConfigField.rfconnected => 1
  | ConfigField.updatechannel => 2
  | ConfigField.permitjoin => 3
  | ConfigField.groupdelay => 4
  | ConfigField.otauactive => 5
  | ConfigField.discovery => 6
  | ConfigField.unlock => 7

/-- The recognized fields in processing order. -/
def recognizedFields : List ConfigField :=
  [ConfigField.name, ConfigField.rfconnected, ConfigField.updatechannel, ConfigField.permitjoin,
   ConfigField.groupdelay, ConfigField.otauactive, ConfigField.discovery, ConfigField.unlock]

/-- The block of `modifyConfig` that handles a field. -/
def ConfigField.block (f : ConfigField) (env : Env) (map : QVariantMap) (c : Ctx) : Except Ctx Ctx :=
  match f with
  | ConfigField.name => modifyConfigName env map c
  | ConfigField.rfconnected => modifyConfigRfconnected env map c
  | ConfigField.updatechannel => modifyConfigUpdatechannel env map c
  | ConfigField.permitjoin => modifyConfigPermitjoin map c
  | ConfigField.groupdelay => modifyConfigGroupdelay env map c
  | ConfigField.otauactive => modifyConfigOtauactive map c
  | ConfigField.discovery => modifyConfigDiscovery env map c
  | ConfigField.unlock => modifyConfigUnlock env map c

/-- Runs the blocks of a list of fields one after the other, stopping at the first `return`. -/
def runBlocks (env : Env) (map : QVariantMap) : List ConfigField → Ctx → Except Ctx Ctx
  | [], c => Except.ok c
  | f :: fs, c =>
    match f.block env map c with
    | Except.error e => Except.error e
    | Except.ok c1 => runBlocks env map fs c1

/-- The constraint on the value of a field, as the field rules word it: name a string of at
most 16 characters; rfconnected a boolean, and touchlink idle; updatechannel one of the
strings stable, alpha, beta; permitjoin converts to an integer in [0,255]; groupdelay to an
integer in [0, MAX_GROUP_SEND_DELAY]; otauactive and discovery booleans; unlock converts to
an unsigned integer of at most MAX_UNLOCK_GATEWAY_TIME. -/
def ConfigField.accepts (env : Env) (touchlink : TouchlinkState) : ConfigField → QVariant → Bool
  | ConfigField.name, v => decide (v.type = QVariantType.String) && decide (v.toString.length ≤ 16)
  | ConfigField.rfconnected, v =>
    decide (v.type = QVariantType.Bool) && decide (touchlink = TouchlinkState.TL_Idle)
  | ConfigField.updatechannel, v =>
    decide (v.type = QVariantType.String) &&
      (decide (v.toString = "stable") || decide (v.toString = "alpha") || decide (v.toString = "beta"))
  | ConfigField.permitjoin, v => v.toInt.2 && decide (0 ≤ v.toInt.1) && decide (v.toInt.1 ≤ 255)
  | ConfigField.groupdelay, v =>
    v.toInt.2 && decide (0 ≤ v.toInt.1) && decide (v.toInt.1 ≤ env.MAX_GROUP_SEND_DELAY)
  | ConfigField.otauactive, v => decide (v.type = QVariantType.Bool)
  | ConfigField.discovery, v => decide (v.type = QVariantType.Bool)
  | ConfigField.unlock, v => v.toUInt.2 && decide (v.toUInt.1 ≤ env.MAX_UNLOCK_GATEWAY_TIME)

/-- Every field of the list that is present in the batch meets its constraint. -/
def fieldsAccepted (env : Env) (touchlink : TouchlinkState) (map : QVariantMap)
    (fields : List ConfigField) : Bool :=
  fields.all (fun f =>
    match map.lookup f.key with
    | none => true
    | some v => f.accepts env touchlink v)

/-- Number of fields of the list whose name is present in the batch. -/
def presentCount (map : QVariantMap) (fields : List ConfigField) : Nat :=
  (fields.filter (fun f => map.contains f.key)).length

/-- The externally observable configuration fields: name, rfconnected, updatechannel, recorded
update version, permitjoin, groupdelay, otauactive, announce interval and link button. -/
def observableConfig (s : GatewayState) :
    QString × Bool × QString × QString × Int × Int × Bool × Int × Bool :=
  (s.gwName, s.gwRfConnected, s.gwUpdateChannel, s.gwUpdateVersion, s.gwPermitJoinDuration,
   s.gwGroupSendDelay, s.gwOtauActive, s.gwAnnounceInterval, s.gwLinkButton)

/-- The conditions under which `changePassword` takes the new hash: the three parameters are
present, username is a string equal to the admin name, oldhash and newhash are non-empty
strings, and the encrypted oldhash equals the stored hash. -/
def passwordChangeAccepted (env : Env) (s : GatewayState) (map : QVariantMap) : Bool :=
  map.contains "username" && map.contains "oldhash" && map.contains "newhash" &&
  decide ((map.value "username").type = QVariantType.String) &&
  decide ((map.value "username").toString = s.gwAdminUserName) &&
  decide ((map.value "oldhash").type = QVariantType.String) &&
  !(map.value "oldhash").toString.isEmpty &&
  decide ((map.value "newhash").type = QVariantType.String) &&
  !(map.value "newhash").toString.isEmpty &&
  decide (env.encryptString (map.value "oldhash").toString = s.gwAdminPasswordHash)

/-- The update image `checkMinFirmwareVersionFile` looks for. -/
def minFirmwareFile (env : Env) : QString :=
  env.homeLocation ++ "/raspbee_firmware/" ++ "deCONZ_Rpi_" ++
    sprintfHex8 env.GW_MIN_RPI_FW_VERSION ++ ".bin.GCF"

/-- Value of a lower-case hexadecimal digit; 16 for any other character. -/
def hexCharValue (c : Char) : Nat :=
  if 48 ≤ c.toNat ∧ c.toNat ≤ 57 then c.toNat - 48
  else if 97 ≤ c.toNat ∧ c.toNat ≤ 102 then c.toNat - 87
  else 16

/-- Value of a run of hexadecimal digits, most significant first. -/
def hexValue (cs : List Char) : Nat :=
  cs.foldl (fun acc c => acc * 16 + hexCharValue c) 0

/-- The two read handlers: `getFullState` when `full` holds, `getConfig` otherwise. -/
def readHandler (full : Bool) (env : Env) (s : GatewayState) (req : ApiRequest) (rsp : ApiResponse) :
    Outcome :=
  if full then getFullState env s req rsp else getConfig env s req rsp

/-- The swupdate entry a config read holds when the recorded update version is `version`. -/
def swupdateEntry (version : QString) : JsonValue :=
  JsonValue.obj
    [("version", JsonValue.str version), ("updatestate", JsonValue.num 0), ("url", JsonValue.str ""),
     ("text", JsonValue.str ""), ("notify", JsonValue.bool false)]

/-- The operations of the interface table. -/
inductive Route
  | createUser
  | getFullState
  | getConfig
  | modifyConfig
  | updateSoftware
  | updateFirmware
  | changePassword
  | deletePassword
deriving DecidableEq, Repr

/-- The interface table: the operation for a method and a path given by its segments, the
first segment being the one of `/api`. -/
def routeOf (method : QString) (path : List QString) : Option Route :=
  match path with
  | [_] => if method = "POST" then some Route.createUser else none
  | [_, _] => if method = "GET" then some Route.getFullState else none
  | [_, seg1, seg2] =>
    if method = "GET" ∧ seg2 = "config" then some Route.getConfig
    else if method = "PUT" ∧ seg2 = "config" then some Route.modifyConfig
    else if method = "DELETE" ∧ seg1 = "config" ∧ seg2 = "password" then some Route.deletePassword
    else none
  | [_, _, seg2, seg3] =>
    if method = "POST" ∧ seg2 = "config" ∧ seg3 = "update" then some Route.updateSoftware
    else if method = "POST" ∧ seg2 = "config" ∧ seg3 = "updatefirmware" then some Route.updateFirmware
    else if method = "PUT" ∧ seg2 = "config" ∧ seg3 = "password" then some Route.changePassword
    else none
  | _ => none

/-- The handler of an operation. -/
def Route.handler (r : Route) (env : Env) (s : GatewayState) (req : ApiRequest) (rsp : ApiResponse) :
    Outcome :=
  match r with
  | Route.createUser => DeRestPlugin.createUser env s req rsp
  | Route.getFullState => DeRestPlugin.getFullState env s req rsp
  | Route.getConfig => DeRestPlugin.getConfig env s req rsp
  | Route.modifyConfig => DeRestPlugin.modifyConfig env s req rsp
  | Route.updateSoftware => DeRestPlugin.updateSoftware env s req rsp
  | Route.updateFirmware => DeRestPlugin.updateFirmware env s req rsp
  | Route.changePassword => DeRestPlugin.changePassword env s req rsp
  | Route.deletePassword => DeRestPlugin.deletePassword env s req rsp

/-- Value of an upper-case hexadecimal digit; 16 for any other character. -/
def hexCharValueUpper (c : Char) : Nat :=
  if 48 ≤ c.toNat ∧ c.toNat ≤ 57 then c.toNat - 48
  else if 65 ≤ c.toNat ∧ c.toNat ≤ 70 then c.toNat - 55
  else 16

/-- The address `errorToMap` is given for a field of the config batch. -/
def ConfigField.address (f : ConfigField) : QString :=
  "/config/" ++ f.key

/-- Whether two states agree on the observable setting a field of the batch governs: name,
rfconnected, updatechannel with the recorded update version, permitjoin, groupdelay, otauactive,
announce interval, link button. -/
def ConfigField.sameSetting (f : ConfigField) (a b : GatewayState) : Prop :=
  match f with
  | ConfigField.name => a.gwName = b.gwName
  | ConfigField.rfconnected => a.gwRfConnected = b.gwRfConnected
  | ConfigField.updatechannel =>
    a.gwUpdateChannel = b.gwUpdateChannel ∧ a.gwUpdateVersion = b.gwUpdateVersion
  | ConfigField.permitjoin => a.gwPermitJoinDuration = b.gwPermitJoinDuration
  | ConfigField.groupdelay => a.gwGroupSendDelay = b.gwGroupSendDelay
  | ConfigField.otauactive => a.gwOtauActive = b.gwOtauActive
  | ConfigField.discovery => a.gwAnnounceInterval = b.gwAnnounceInterval
  | ConfigField.unlock => a.gwLinkButton = b.gwLinkButton

/-- Whether the keys of the whitelist are pairwise distinct. -/
def keysDistinct (auths : List ApiAuth) : Prop :=
  (auths.map (fun a => a.apikey)).Nodup

/-! ## A concrete gateway for examples -/

/-- An environment with sample constants: every caller is authenticated and the response is
left as given, no caller may create a key without the link button, the radio accepts every
request, `encryptString` appends a salt, and every random draw is 0. -/
def exampleEnv : Env :=
  { GW_DEFAULT_NAME := "deCONZ-GW"
    GW_SW_VERSION := "1.09.00"
    MAX_GROUP_SEND_DELAY := 5000
    MAX_UNLOCK_GATEWAY_TIME := 600
    ANNOUNCE_INTERVAL := 10
    errorCode := fun _ => 0
    allowedToCreateApikey := fun _ => false
    checkApikeyAuthentification := fun _ rsp => (true, rsp)
    encryptString := fun s => s ++ "$salt"
    setNetworkState := fun _ => true
    qrand := fun _ => 0
    currentDateTimeUtc := 1000
    getUptime := 30
    initAuthentification := fun s =>
      { s with gwAdminUserName := "delight", gwAdminPasswordHash := "delight$salt" }
    isInNetwork := true
    isOtauBusy := false
    firmwareVersion := 637207808
    autoConnect := 0
    httpPort := 80
    ARCH_ARM := true
    FW_PLATFORM_MASK := 65280
    FW_PLATFORM_RPI := 1280
    GW_MIN_RPI_FW_VERSION := 638256384
    fileExists := fun _ => true
    homeLocation := "/home/pi"
    allInterfaces := []
    currentDateTime := 1000
    formatDateTime := fun _ => "2014-01-01T00:00:00"
    lightToMap := fun _ _ => none
    groupToMap := fun _ => none }

/-- A gateway state: locked, one whitelisted key, touchlink idle, no timer, nothing queued. -/
def exampleState : GatewayState :=
  { apsCtrl := true
    gwLinkButton := false
    apiAuths := [{ apikey := "0000000000", devicetype := "app", createDate := 1, lastUseDate := 2 }]
    gwConfigEtag := 7
    gwName := "GW"
    gwRfConnected := true
    gwRfConnectedExpected := true
    gwUpdateChannel := "stable"
    gwUpdateVersion := "1.09.00"
    gwPermitJoinDuration := 0
    gwGroupSendDelay := 50
    gwOtauActive := false
    gwAnnounceInterval := 10
    gwAdminUserName := "delight"
    gwAdminPasswordHash := "old$salt"
    gwFirmwareVersion := "0x00000000"
    gwFirmwareVersionUpdate := ""
    gwFirmwareNeedUpdate := false
    gwConfig := []
    touchlinkState := TouchlinkState.TL_Idle
    lockGatewayTimer := none
    saveQueue := []
    networkRequests := []
    gwUuid := "uuid"
    gwAnnounceUrl := "http://dresden-light.appspot.com/discover"
    gwIpAddress := ""
    gwPort := 0
    nodes := []
    groups := []
    singleShots := []
    dbSaves := 0
    appExit := [] }

/-- A fresh response object. -/
def emptyRsp : ApiResponse :=
  { httpStatus := HttpStatus.HttpStatusOk, list := [], map := [], etag := 0 }

/-- A request with the given parsed body. -/
def requestWith (method : QString) (path : List QString) (map : QVariantMap) : ApiRequest :=
  { path := path, method := method, content := { ok := true, map := map }, ifNoneMatch := none }


/-! ## Lemmas on the field blocks -/

theorem block_lookup_congr (env : Env) (map map1 : QVariantMap) (c : Ctx) (f : ConfigField)
    (h : map1.lookup f.key = map.lookup f.key) : f.block env map1 c = f.block env map c := by
  cases f <;>
    simp only [ConfigField.key] at h <;>
    simp only [ConfigField.block, modifyConfigName, modifyConfigRfconnected, modifyConfigUpdatechannel,
      modifyConfigPermitjoin, modifyConfigGroupdelay, modifyConfigOtauactive, modifyConfigDiscovery,
      modifyConfigUnlock, QVariantMap.contains, QVariantMap.value, h]

theorem block_error (env : Env) (map : QVariantMap) (c e : Ctx) (f : ConfigField)
    (h : f.block env map c = Except.error e) :
    e.state = c.state ∧ e.changed = c.changed ∧ map.contains f.key = true ∧
    e.rsp.httpStatus = HttpStatus.HttpStatusBadRequest ∧ e.rsp.etag = c.rsp.etag ∧
    ∃ id address description, e.rsp.list = c.rsp.list ++ [RspItem.error id address description] := by
  cases f <;>
    simp only [ConfigField.block, modifyConfigName, modifyConfigRfconnected, modifyConfigUpdatechannel,
      modifyConfigPermitjoin, modifyConfigGroupdelay, modifyConfigOtauactive, modifyConfigDiscovery,
      modifyConfigUnlock, reject, errorToMap, ConfigField.key] at h ⊢ <;>
    split_ifs at h <;>
    simp only [Except.error.injEq, reduceCtorEq] at h <;>
    subst h <;>
    simp_all

theorem block_ok_frame (env : Env) (map : QVariantMap) (c c1 : Ctx) (f : ConfigField)
    (h : f.block env map c = Except.ok c1) :
    c1.state.touchlinkState = c.state.touchlinkState ∧
    c1.state.gwConfigEtag = c.state.gwConfigEtag ∧
    c1.rsp.httpStatus = c.rsp.httpStatus ∧ c1.rsp.etag = c.rsp.etag ∧
    c1.rsp.list.length = c.rsp.list.length + (if map.contains f.key = true then 1 else 0) := by
  cases f <;>
    simp only [ConfigField.block, modifyConfigName, modifyConfigRfconnected, modifyConfigUpdatechannel,
      modifyConfigPermitjoin, modifyConfigGroupdelay, modifyConfigOtauactive, modifyConfigDiscovery,
      modifyConfigUnlock, reject, appendSuccess, queSaveDb, setPermitJoinDuration,
      setInternetDiscoveryInterval, ConfigField.key] at h ⊢ <;>
    split_ifs at h <;>
    simp only [Except.ok.injEq, reduceCtorEq] at h <;>
    subst h <;>
    simp_all

theorem block_accepted (env : Env) (map : QVariantMap) (c : Ctx) (f : ConfigField)
    (h : ∀ v, map.lookup f.key = some v → f.accepts env c.state.touchlinkState v = true) :
    ∃ c1, f.block env map c = Except.ok c1 := by
  cases hl : map.lookup f.key with
  | none =>
    refine ⟨c, ?_⟩
    cases f <;>
      simp only [ConfigField.key] at hl <;>
      simp [ConfigField.block, modifyConfigName, modifyConfigRfconnected, modifyConfigUpdatechannel,
        modifyConfigPermitjoin, modifyConfigGroupdelay, modifyConfigOtauactive, modifyConfigDiscovery,
        modifyConfigUnlock, QVariantMap.contains, hl]
  | some v =>
    have ha := h v hl
    cases f <;>
      simp only [ConfigField.key] at hl <;>
      simp only [ConfigField.accepts, Bool.and_eq_true, Bool.or_eq_true, decide_eq_true_eq] at ha <;>
      simp only [ConfigField.block, modifyConfigName, modifyConfigRfconnected, modifyConfigUpdatechannel,
        modifyConfigPermitjoin, modifyConfigGroupdelay, modifyConfigOtauactive, modifyConfigDiscovery,
        modifyConfigUnlock, QVariantMap.contains, QVariantMap.value, hl, reject] <;>
      simp [ha] <;>
      split_ifs <;> simp_all <;> omega

theorem block_rejected (env : Env) (map : QVariantMap) (c : Ctx) (f : ConfigField) (v : QVariant)
    (hl : map.lookup f.key = some v) (ha : f.accepts env c.state.touchlinkState v = false) :
    ∃ e, f.block env map c = Except.error e := by
  cases f <;>
    simp only [ConfigField.key] at hl <;>
    simp only [ConfigField.accepts, Bool.and_eq_false_iff, Bool.or_eq_false_iff, decide_eq_false_iff_not] at ha <;>
    simp only [ConfigField.block, modifyConfigName, modifyConfigRfconnected, modifyConfigUpdatechannel,
      modifyConfigPermitjoin, modifyConfigGroupdelay, modifyConfigOtauactive, modifyConfigDiscovery,
      modifyConfigUnlock, QVariantMap.contains, QVariantMap.value, hl, reject] <;>
    simp <;>
    split_ifs <;> simp_all <;> omega

theorem block_rejected_item (env : Env) (map : QVariantMap) (c : Ctx) (f : ConfigField) (v : QVariant)
    (hl : map.lookup f.key = some v) (ha : f.accepts env c.state.touchlinkState v = false) :
    f.block env map c =
      Except.error { c with rsp := { c.rsp with
        list := c.rsp.list ++
          [if f = ConfigField.rfconnected ∧ v.type = QVariantType.Bool then
            RspItem.error ApiError.ERR_INTERNAL_ERROR f.address
              ("Internal error, " ++ ToString.toString (env.errorCode ApiError.ERR_BRIDGE_BUSY))
           else
            RspItem.error ApiError.ERR_INVALID_VALUE f.address
              ("invalid value, " ++ v.toString ++ (", for parameter, " ++ f.key))]
        httpStatus := HttpStatus.HttpStatusBadRequest } } := by
  cases f <;>
    simp only [ConfigField.key] at hl <;>
    simp only [ConfigField.accepts, Bool.and_eq_false_iff, Bool.or_eq_false_iff,
      decide_eq_false_iff_not] at ha <;>
    simp only [ConfigField.block, modifyConfigName, modifyConfigRfconnected, modifyConfigUpdatechannel,
      modifyConfigPermitjoin, modifyConfigGroupdelay, modifyConfigOtauactive, modifyConfigDiscovery,
      modifyConfigUnlock, QVariantMap.contains, QVariantMap.value, hl, reject, errorToMap,
      ConfigField.address, ConfigField.key] <;>
    simp [String.append_assoc] <;>
    (try split_ifs) <;>
    first
      | omega
      | aesop

/-! ## Lemmas on the sequence of blocks -/

theorem modifyConfigFields_eq_runBlocks (env : Env) (map : QVariantMap) (c : Ctx) :
    modifyConfigFields env map c = runBlocks env map recognizedFields c := by
  simp only [modifyConfigFields, recognizedFields, runBlocks, ConfigField.block, bind, Except.bind]
  cases modifyConfigName env map c with
  | error e => rfl
  | ok c1 =>
  dsimp only
  cases modifyConfigRfconnected env map c1 with
  | error e => rfl
  | ok c2 =>
  dsimp only
  cases modifyConfigUpdatechannel env map c2 with
  | error e => rfl
  | ok c3 =>
  dsimp only
  cases modifyConfigPermitjoin map c3 with
  | error e => rfl
  | ok c4 =>
  dsimp only
  cases modifyConfigGroupdelay env map c4 with
  | error e => rfl
  | ok c5 =>
  dsimp only
  cases modifyConfigOtauactive map c5 with
  | error e => rfl
  | ok c6 =>
  dsimp only
  cases modifyConfigDiscovery env map c6 with
  | error e => rfl
  | ok c7 =>
  dsimp only
  cases modifyConfigUnlock env map c7 with
  | error e => rfl
  | ok c8 => rfl

theorem runBlocks_ok (env : Env) (map : QVariantMap) :
    ∀ (l : List ConfigField) (c c1 : Ctx), runBlocks env map l c = Except.ok c1 →
      c1.state.touchlinkState = c.state.touchlinkState ∧
      c1.state.gwConfigEtag = c.state.gwConfigEtag ∧
      c1.rsp.httpStatus = c.rsp.httpStatus ∧ c1.rsp.etag = c.rsp.etag ∧
      c1.rsp.list.length = c.rsp.list.length + presentCount map l := by
  intro l
  induction l with
  | nil =>
    intro c c1 h
    simp only [runBlocks, Except.ok.injEq] at h
    subst h
    simp [presentCount]
  | cons f fs ih =>
    intro c c1 h
    simp only [runBlocks] at h
    cases hb : f.block env map c with
    | error e => rw [hb] at h; simp at h
    | ok c2 =>
      rw [hb] at h
      obtain ⟨h1, h2, h3, h4, h5⟩ := block_ok_frame env map c c2 f hb
      obtain ⟨k1, k2, k3, k4, k5⟩ := ih c2 c1 h
      refine ⟨k1.trans h1, k2.trans h2, k3.trans h3, k4.trans h4, ?_⟩
      rw [k5, h5]
      simp only [presentCount, List.filter_cons]
      split_ifs <;> (simp; try omega)

theorem runBlocks_error (env : Env) (map : QVariantMap) :
    ∀ (l : List ConfigField) (c e : Ctx), runBlocks env map l c = Except.error e →
      e.state.gwConfigEtag = c.state.gwConfigEtag ∧
      e.rsp.httpStatus = HttpStatus.HttpStatusBadRequest ∧ e.rsp.etag = c.rsp.etag ∧
      e.rsp.list.length ≤ c.rsp.list.length + presentCount map l ∧
      ∃ pre id address description, e.rsp.list = pre ++ [RspItem.error id address description] := by
  intro l
  induction l with
  | nil => intro c e h; simp [runBlocks] at h
  | cons f fs ih =>
    intro c e h
    simp only [runBlocks] at h
    cases hb : f.block env map c with
    | error e1 =>
      rw [hb] at h
      simp only [Except.error.injEq] at h
      subst h
      obtain ⟨h1, _, h3, h4, h5, id, address, description, h6⟩ := block_error env map c e1 f hb
      refine ⟨by rw [h1], h4, h5, ?_, c.rsp.list, id, address, description, h6⟩
      rw [h6]
      simp only [presentCount, List.filter_cons, h3, if_true, List.length_append, List.length_cons,
        List.length_nil]
      omega
    | ok c2 =>
      rw [hb] at h
      obtain ⟨_, h2, _, h4, h5⟩ := block_ok_frame env map c c2 f hb
      obtain ⟨k1, k2, k3, k4, k5⟩ := ih c2 e h
      refine ⟨k1.trans h2, k2, k3.trans h4, ?_, k5⟩
      rw [h5] at k4
      simp only [presentCount, List.filter_cons] at k4 ⊢
      split_ifs at k4 ⊢ <;> simp at k4 ⊢ <;> omega

theorem runBlocks_accepted (env : Env) (map : QVariantMap) :
    ∀ (l : List ConfigField) (c : Ctx), fieldsAccepted env c.state.touchlinkState map l = true →
      ∃ c1, runBlocks env map l c = Except.ok c1 := by
  intro l
  induction l with
  | nil => intro c _; exact ⟨c, rfl⟩
  | cons f fs ih =>
    intro c h
    simp only [fieldsAccepted, List.all_cons, Bool.and_eq_true] at h
    obtain ⟨c2, hb⟩ := block_accepted env map c f (by
      intro v hv
      have := h.1
      rw [hv] at this
      exact this)
    have ht := (block_ok_frame env map c c2 f hb).1
    obtain ⟨c1, hr⟩ := ih c2 (by rw [ht]; exact h.2)
    exact ⟨c1, by simp only [runBlocks, hb, hr]⟩

theorem runBlocks_stops (env : Env) (map map1 : QVariantMap) (f : ConfigField) (v : QVariant)
    (hl : map.lookup f.key = some v) :
    ∀ (l : List ConfigField) (c : Ctx), l.Pairwise (fun a b => a.index < b.index) → f ∈ l →
      (∀ g ∈ l, g.index ≤ f.index → map1.lookup g.key = map.lookup g.key) →
      f.accepts env c.state.touchlinkState v = false →
      runBlocks env map1 l c = runBlocks env map l c ∧ ∃ e, runBlocks env map l c = Except.error e := by
  intro l
  induction l with
  | nil => intro c _ hm; simp at hm
  | cons g gs ih =>
    intro c hp hm hag ha
    rw [List.pairwise_cons] at hp
    by_cases hgf : g = f
    · subst hgf
      obtain ⟨e, he⟩ := block_rejected env map c g v hl ha
      have hc := block_lookup_congr env map map1 c g (hag g (List.mem_cons_self _ _) (le_refl _))
      simp only [runBlocks, hc, he]
      exact ⟨trivial, e, rfl⟩
    · have hfm : f ∈ gs := by
        rcases List.mem_cons.mp hm with h | h
        · exact absurd h.symm hgf
        · exact h
      have hlt := hp.1 f hfm
      have hc := block_lookup_congr env map map1 c g (hag g (List.mem_cons_self _ _) (le_of_lt hlt))
      simp only [runBlocks, hc]
      cases hb : g.block env map c with
      | error e => exact ⟨rfl, e, rfl⟩
      | ok c2 =>
        have ht := (block_ok_frame env map c c2 g hb).1
        exact ih c2 hp.2 hfm (fun k hk hki => hag k (List.mem_cons_of_mem _ hk) hki) (by rw [ht]; exact ha)

theorem runBlocks_append (env : Env) (map : QVariantMap) (l2 : List ConfigField) :
    ∀ (l1 : List ConfigField) (c : Ctx),
      runBlocks env map (l1 ++ l2) c =
        match runBlocks env map l1 c with
        | Except.error e => Except.error e
        | Except.ok c1 => runBlocks env map l2 c1 := by
  intro l1
  induction l1 with
  | nil => intro c; rfl
  | cons f fs ih =>
    intro c
    simp only [List.cons_append, runBlocks]
    cases f.block env map c with
    | error e => rfl
    | ok c1 => exact ih c1

/-! ## modifyConfig as a whole -/

theorem map_nonempty_of_lookup (map : QVariantMap) (key : QString) (v : QVariant)
    (h : map.lookup key = some v) : map.isEmpty = false := by
  cases map with
  | nil => simp at h
  | cons a as => rfl

theorem modifyConfig_eq_of_fields (env : Env) (s : GatewayState) (req : ApiRequest) (rsp : ApiResponse)
    (hauth : (env.checkApikeyAuthentification req rsp).1 = true) (haps : s.apsCtrl = true)
    (hok : req.content.ok = true) (hne : req.content.map.isEmpty = false) :
    modifyConfig env s req rsp =
      match runBlocks env req.content.map recognizedFields
          { state := s
            rsp := { (env.checkApikeyAuthentification req rsp).2 with httpStatus := HttpStatus.HttpStatusOk }
            changed := false } with
      | Except.error c => { ret := ReturnCode.REQ_READY_SEND, state := c.state, rsp := c.rsp }
      | Except.ok c =>
        { ret := ReturnCode.REQ_READY_SEND
          state := if c.changed then updateEtag c.state else c.state
          rsp := { c.rsp with etag := (if c.changed then updateEtag c.state else c.state).gwConfigEtag } } := by
  simp only [modifyConfig, hauth, haps, hok, hne, modifyConfigFields_eq_runBlocks]
  simp

theorem recognizedFields_sorted : recognizedFields.Pairwise (fun a b => a.index < b.index) := by
  decide

theorem mem_recognizedFields (f : ConfigField) : f ∈ recognizedFields := by
  cases f <;> decide

theorem modifyConfig_unlock_effect (env : Env) (s : GatewayState) (req : ApiRequest) (rsp : ApiResponse)
    (v : QVariant)
    (hauth : (env.checkApikeyAuthentification req rsp).1 = true) (haps : s.apsCtrl = true)
    (hok : req.content.ok = true)
    (hacc : fieldsAccepted env s.touchlinkState req.content.map recognizedFields = true)
    (hl : req.content.map.lookup "unlock" = some v) :
    (modifyConfig env s req rsp).state.gwLinkButton = decide (0 < v.toUInt.1) ∧
    (modifyConfig env s req rsp).state.lockGatewayTimer =
      (if 0 < v.toUInt.1 then some (uintToInt (v.toUInt.1 * 1000)) else none) ∧
    (modifyConfig env s req rsp).state.gwConfigEtag = s.gwConfigEtag + 1 ∧
    (modifyConfig env s req rsp).rsp.httpStatus = HttpStatus.HttpStatusOk := by
  have hne := map_nonempty_of_lookup _ _ _ hl
  rw [modifyConfig_eq_of_fields env s req rsp hauth haps hok hne]
  have hsplit : recognizedFields =
      [ConfigField.name, ConfigField.rfconnected, ConfigField.updatechannel, ConfigField.permitjoin,
        ConfigField.groupdelay, ConfigField.otauactive, ConfigField.discovery] ++ [ConfigField.unlock] := rfl
  rw [hsplit] at hacc ⊢
  rw [runBlocks_append]
  simp only [fieldsAccepted, List.all_append, Bool.and_eq_true] at hacc
  obtain ⟨c7, h7⟩ := runBlocks_accepted env req.content.map _
    { state := s
      rsp := { (env.checkApikeyAuthentification req rsp).2 with httpStatus := HttpStatus.HttpStatusOk }
      changed := false } hacc.1
  obtain ⟨_, he, hs, _, _⟩ := runBlocks_ok env req.content.map _ _ _ h7
  have hu := hacc.2
  simp only [List.all_cons, List.all_nil, Bool.and_true, ConfigField.key, hl, ConfigField.accepts,
    Bool.and_eq_true, decide_eq_true_eq] at hu
  rw [h7]
  simp only [runBlocks, ConfigField.block, modifyConfigUnlock, QVariantMap.contains, QVariantMap.value, hl,
    reject, appendSuccess, updateEtag]
  simp only [Option.isSome_some, Option.getD_some, hu.1, if_true]
  have hnot : ¬ (v.toUInt.1 > env.MAX_UNLOCK_GATEWAY_TIME) := by omega
  simp only [hnot, decide_False, Bool.not_true, Bool.or_false, Bool.false_eq_true, if_false]
  simp at he hs
  by_cases hpos : 0 < v.toUInt.1 <;> simp [hpos, he, hs]

theorem block_ok_changed (env : Env) (map : QVariantMap) (c c1 : Ctx) (f : ConfigField)
    (h : f.block env map c = Except.ok c1) :
    (c.changed = true → c1.changed = true) ∧
    (observableConfig c1.state ≠ observableConfig c.state → c1.changed = true) := by
  cases f <;>
    simp only [ConfigField.block, modifyConfigName, modifyConfigRfconnected, modifyConfigUpdatechannel,
      modifyConfigPermitjoin, modifyConfigGroupdelay, modifyConfigOtauactive, modifyConfigDiscovery,
      modifyConfigUnlock, reject, appendSuccess, queSaveDb, setPermitJoinDuration,
      setInternetDiscoveryInterval, observableConfig] at h ⊢ <;>
    split_ifs at h <;>
    simp only [Except.ok.injEq, reduceCtorEq] at h <;>
    subst h <;>
    simp_all

theorem runBlocks_ok_changed (env : Env) (map : QVariantMap) :
    ∀ (l : List ConfigField) (c c1 : Ctx), runBlocks env map l c = Except.ok c1 →
      (c.changed = true → c1.changed = true) ∧
      (observableConfig c1.state ≠ observableConfig c.state → c1.changed = true) := by
  intro l
  induction l with
  | nil =>
    intro c c1 h
    simp only [runBlocks, Except.ok.injEq] at h
    subst h
    exact ⟨id, fun hne => absurd rfl hne⟩
  | cons f fs ih =>
    intro c c1 h
    simp only [runBlocks] at h
    cases hb : f.block env map c with
    | error e => rw [hb] at h; simp at h
    | ok c2 =>
      rw [hb] at h
      obtain ⟨h1, h2⟩ := block_ok_changed env map c c2 f hb
      obtain ⟨k1, k2⟩ := ih c2 c1 h
      refine ⟨fun hc => k1 (h1 hc), fun hne => ?_⟩
      by_cases heq : observableConfig c2.state = observableConfig c.state
      · exact k2 (by rw [heq]; exact hne)
      · exact k1 (h2 heq)

/-- When no recognized field of the batch fails its validation, a change of an observable field
bumps the change token once. -/
theorem modifyConfig_completed_bumps_etag (env : Env) (s : GatewayState) (req : ApiRequest)
    (rsp : ApiResponse)
    (hauth : (env.checkApikeyAuthentification req rsp).1 = true) (haps : s.apsCtrl = true)
    (hok : req.content.ok = true) (hne : req.content.map.isEmpty = false)
    (hacc : fieldsAccepted env s.touchlinkState req.content.map recognizedFields = true)
    (hchg : observableConfig (modifyConfig env s req rsp).state ≠ observableConfig s) :
    (modifyConfig env s req rsp).state.gwConfigEtag = s.gwConfigEtag + 1 := by
  rw [modifyConfig_eq_of_fields env s req rsp hauth haps hok hne] at hchg ⊢
  obtain ⟨c, hr⟩ := runBlocks_accepted env req.content.map recognizedFields
    { state := s
      rsp := { (env.checkApikeyAuthentification req rsp).2 with httpStatus := HttpStatus.HttpStatusOk }
      changed := false } hacc
  obtain ⟨_, he, _, _, _⟩ := runBlocks_ok env req.content.map _ _ _ hr
  obtain ⟨_, hc⟩ := runBlocks_ok_changed env req.content.map _ _ _ hr
  rw [hr] at hchg ⊢
  simp only at hchg he ⊢
  by_cases hch : c.changed = true
  · simp [hch, updateEtag, he]
  · simp only [hch] at hchg
    exact absurd (hc (by simpa using hchg)) hch

/-! ## Claims on modifyConfig: failure of one field -/

/-- C1, as stated, fails: in the batch with a boolean name and groupdelay 10 the name is refused
and the valid groupdelay is then neither applied nor reported; the response holds the single
error element of name. -/
theorem modifyConfig_failed_field_stops_others_counterexample :
    (exampleEnv.checkApikeyAuthentification
      (requestWith "PUT" ["api", "0000000000", "config"]
        [("name", QVariant.ofBool true), ("groupdelay", QVariant.ofInt 10)]) emptyRsp).1 = true ∧
    exampleState.apsCtrl = true ∧
    ConfigField.accepts exampleEnv exampleState.touchlinkState ConfigField.name (QVariant.ofBool true) = false ∧
    ConfigField.accepts exampleEnv exampleState.touchlinkState ConfigField.groupdelay (QVariant.ofInt 10) = true ∧
    exampleState.gwGroupSendDelay = 50 ∧
    (modifyConfig exampleEnv exampleState
      (requestWith "PUT" ["api", "0000000000", "config"]
        [("name", QVariant.ofBool true), ("groupdelay", QVariant.ofInt 10)]) emptyRsp).state.gwGroupSendDelay = 50 ∧
    (modifyConfig exampleEnv exampleState
      (requestWith "PUT" ["api", "0000000000", "config"]
        [("name", QVariant.ofBool true), ("groupdelay", QVariant.ofInt 10)]) emptyRsp).rsp.list =
      [RspItem.error ApiError.ERR_INVALID_VALUE "/config/name" "invalid value, true, for parameter, name"] := by
  decide

theorem recognizedFields_split (f : ConfigField) :
    recognizedFields = recognizedFields.take f.index ++ f :: recognizedFields.drop (f.index + 1) := by
  cases f <;> rfl

/-- C1, amended: the recognized fields are processed in the fixed order name, rfconnected,
updatechannel, permitjoin, groupdelay, otauactive, discovery, unlock, and processing stops at
the first field f of the batch, in that order, whose value fails its validation. The blocks of
the fields before f have run one after the other from the initial state, each present field
adding its own element to the response: their state is the final state and their elements open
the response. The response then gets status 400 and ends with the error element of f, with the
address /config/f. The fields after f are neither validated, applied nor reported: the outcome
is the one of any batch that agrees with this one on the fields up to and including f (this
last part holds for every failing field f of the batch, first or not). -/
theorem modifyConfig_stops_at_failed_field (env : Env) (s : GatewayState) (req : ApiRequest)
    (rsp : ApiResponse) (map1 : QVariantMap) (f : ConfigField) (v : QVariant)
    (hauth : (env.checkApikeyAuthentification req rsp).1 = true)
    (haps : s.apsCtrl = true)
    (hok : req.content.ok = true)
    (hf : req.content.map.lookup f.key = some v)
    (hrej : f.accepts env s.touchlinkState v = false)
    (hsame : env.checkApikeyAuthentification { req with content := { ok := true, map := map1 } } rsp =
      env.checkApikeyAuthentification req rsp)
    (hagree : ∀ g : ConfigField, g.index ≤ f.index → map1.lookup g.key = req.content.map.lookup g.key) :
    (fieldsAccepted env s.touchlinkState req.content.map (recognizedFields.take f.index) = true →
     ∃ c : Ctx,
      runBlocks env req.content.map (recognizedFields.take f.index)
        { state := s
          rsp := { (env.checkApikeyAuthentification req rsp).2 with httpStatus := HttpStatus.HttpStatusOk }
          changed := false } = Except.ok c ∧
      c.rsp.list.length = (env.checkApikeyAuthentification req rsp).2.list.length +
        presentCount req.content.map (recognizedFields.take f.index) ∧
      modifyConfig env s req rsp =
        { ret := ReturnCode.REQ_READY_SEND
          state := c.state
          rsp := { c.rsp with
            httpStatus := HttpStatus.HttpStatusBadRequest
            list := c.rsp.list ++
              [if f = ConfigField.rfconnected ∧ v.type = QVariantType.Bool then
                RspItem.error ApiError.ERR_INTERNAL_ERROR f.address
                  ("Internal error, " ++ ToString.toString (env.errorCode ApiError.ERR_BRIDGE_BUSY))
               else
                RspItem.error ApiError.ERR_INVALID_VALUE f.address
                  ("invalid value, " ++ v.toString ++ (", for parameter, " ++ f.key))] } }) ∧
    modifyConfig env s { req with content := { ok := true, map := map1 } } rsp =
      modifyConfig env s req rsp := by
  have hf1 : map1.lookup f.key = some v := (hagree f (le_refl _)).trans hf
  have hne := map_nonempty_of_lookup _ _ _ hf
  have hne1 := map_nonempty_of_lookup _ _ _ hf1
  have hauth1 : (env.checkApikeyAuthentification { req with content := { ok := true, map := map1 } } rsp).1
      = true := by rw [hsame]; exact hauth
  constructor
  · intro hfirst
    obtain ⟨c, hc⟩ := runBlocks_accepted env req.content.map (recognizedFields.take f.index)
      { state := s
        rsp := { (env.checkApikeyAuthentification req rsp).2 with httpStatus := HttpStatus.HttpStatusOk }
        changed := false } hfirst
    obtain ⟨ht, _, _, _, hlen⟩ := runBlocks_ok env req.content.map _ _ _ hc
    have hb := block_rejected_item env req.content.map c f v hf (by rw [ht]; exact hrej)
    refine ⟨c, hc, hlen, ?_⟩
    rw [modifyConfig_eq_of_fields env s req rsp hauth haps hok hne]
    have hrun : runBlocks env req.content.map recognizedFields
        { state := s
          rsp := { (env.checkApikeyAuthentification req rsp).2 with httpStatus := HttpStatus.HttpStatusOk }
          changed := false } = f.block env req.content.map c := by
      conv_lhs => rw [recognizedFields_split f]
      rw [runBlocks_append, hc]
      simp only [runBlocks, hb]
    rw [hrun, hb]
  · rw [modifyConfig_eq_of_fields env s req rsp hauth haps hok hne,
      modifyConfig_eq_of_fields env s _ rsp hauth1 haps rfl hne1, hsame]
    obtain ⟨heq, _⟩ := runBlocks_stops env req.content.map map1 f v hf recognizedFields
      { state := s
        rsp := { (env.checkApikeyAuthentification req rsp).2 with httpStatus := HttpStatus.HttpStatusOk }
        changed := false }
      recognizedFields_sorted (mem_recognizedFields f) (fun g _ hg => hagree g hg) hrej
    simp only [heq]

/-- Witness of C1 amended: in the batch with name B, permitjoin 300 and groupdelay 10 the name is
applied and reported, permitjoin is refused with its own error, and groupdelay is left alone:
the outcome is the one of the batch without groupdelay. -/
theorem modifyConfig_stops_at_failed_field_witness :
    ConfigField.accepts exampleEnv exampleState.touchlinkState ConfigField.permitjoin (QVariant.ofInt 300) =
      false ∧
    (∃ c : Ctx,
      runBlocks exampleEnv
        [("name", QVariant.ofString "B"), ("permitjoin", QVariant.ofInt 300),
          ("groupdelay", QVariant.ofInt 10)]
        (recognizedFields.take ConfigField.permitjoin.index)
        { state := exampleState
          rsp := { emptyRsp with httpStatus := HttpStatus.HttpStatusOk }
          changed := false } = Except.ok c ∧
      c.rsp.list.length = emptyRsp.list.length +
        presentCount
          [("name", QVariant.ofString "B"), ("permitjoin", QVariant.ofInt 300),
            ("groupdelay", QVariant.ofInt 10)]
          (recognizedFields.take ConfigField.permitjoin.index) ∧
      modifyConfig exampleEnv exampleState
        (requestWith "PUT" ["api", "0000000000", "config"]
          [("name", QVariant.ofString "B"), ("permitjoin", QVariant.ofInt 300),
            ("groupdelay", QVariant.ofInt 10)]) emptyRsp =
        { ret := ReturnCode.REQ_READY_SEND
          state := c.state
          rsp := { c.rsp with
            httpStatus := HttpStatus.HttpStatusBadRequest
            list := c.rsp.list ++
              [if ConfigField.permitjoin = ConfigField.rfconnected ∧
                  (QVariant.ofInt 300).type = QVariantType.Bool then
                RspItem.error ApiError.ERR_INTERNAL_ERROR ConfigField.permitjoin.address
                  ("Internal error, " ++
                    ToString.toString (exampleEnv.errorCode ApiError.ERR_BRIDGE_BUSY))
               else
                RspItem.error ApiError.ERR_INVALID_VALUE ConfigField.permitjoin.address
                  ("invalid value, " ++ (QVariant.ofInt 300).toString ++
                    (", for parameter, " ++ ConfigField.permitjoin.key))] } }) ∧
    modifyConfig exampleEnv exampleState
      { requestWith "PUT" ["api", "0000000000", "config"]
          [("name", QVariant.ofString "B"), ("permitjoin", QVariant.ofInt 300),
            ("groupdelay", QVariant.ofInt 10)] with
        content := { ok := true, map := [("name", QVariant.ofString "B"), ("permitjoin", QVariant.ofInt 300)] } }
      emptyRsp =
      modifyConfig exampleEnv exampleState
        (requestWith "PUT" ["api", "0000000000", "config"]
          [("name", QVariant.ofString "B"), ("permitjoin", QVariant.ofInt 300),
            ("groupdelay", QVariant.ofInt 10)]) emptyRsp ∧
    exampleState.gwName = "GW" ∧
    (modifyConfig exampleEnv exampleState
      (requestWith "PUT" ["api", "0000000000", "config"]
        [("name", QVariant.ofString "B"), ("permitjoin", QVariant.ofInt 300),
          ("groupdelay", QVariant.ofInt 10)]) emptyRsp).state.gwName = "B" ∧
    (modifyConfig exampleEnv exampleState
      (requestWith "PUT" ["api", "0000000000", "config"]
        [("name", QVariant.ofString "B"), ("permitjoin", QVariant.ofInt 300),
          ("groupdelay", QVariant.ofInt 10)]) emptyRsp).state.gwGroupSendDelay = 50 ∧
    (modifyConfig exampleEnv exampleState
      (requestWith "PUT" ["api", "0000000000", "config"]
        [("name", QVariant.ofString "B"), ("permitjoin", QVariant.ofInt 300),
          ("groupdelay", QVariant.ofInt 10)]) emptyRsp).rsp.list =
      [RspItem.success "/config/name" (RspValue.str "B"),
       RspItem.error ApiError.ERR_INVALID_VALUE "/config/permitjoin"
        "invalid value, 300, for parameter, permitjoin"] :=
  (fun h => ⟨by decide, h.1 (by decide), h.2, by decide, by decide, by decide, by decide⟩)
    (modifyConfig_stops_at_failed_field exampleEnv exampleState
      (requestWith "PUT" ["api", "0000000000", "config"]
        [("name", QVariant.ofString "B"), ("permitjoin", QVariant.ofInt 300),
          ("groupdelay", QVariant.ofInt 10)])
      emptyRsp [("name", QVariant.ofString "B"), ("permitjoin", QVariant.ofInt 300)]
      ConfigField.permitjoin (QVariant.ofInt 300)
      (by decide) (by decide) (by decide) (by decide) (by decide) rfl
      (by intro g hg; cases g <;> first | decide | exact absurd hg (by decide)))

/-- C2, the code at the failing input: the batch with name B and a text for rfconnected changes
the name from GW to B, returns at the refused rfconnected, and leaves the change token at its
old value: an observable field changed and the token was not bumped. -/
theorem modifyConfig_changes_name_without_etag_bump :
    exampleState.gwName = "GW" ∧
    (modifyConfig exampleEnv exampleState
      (requestWith "PUT" ["api", "0000000000", "config"]
        [("name", QVariant.ofString "B"), ("rfconnected", QVariant.ofString "yes")]) emptyRsp).state.gwName = "B" ∧
    observableConfig (modifyConfig exampleEnv exampleState
      (requestWith "PUT" ["api", "0000000000", "config"]
        [("name", QVariant.ofString "B"), ("rfconnected", QVariant.ofString "yes")]) emptyRsp).state ≠
      observableConfig exampleState ∧
    (modifyConfig exampleEnv exampleState
      (requestWith "PUT" ["api", "0000000000", "config"]
        [("name", QVariant.ofString "B"), ("rfconnected", QVariant.ofString "yes")]) emptyRsp).state.gwConfigEtag =
      exampleState.gwConfigEtag := by
  refine ⟨by decide, by decide, ?_, by decide⟩
  intro h
  have hname := congrArg Prod.fst h
  revert hname
  decide

/-- C3, as stated, fails: the batch with permitjoin 300 and otauactive true has two recognized
field names and the response list gets one element. -/
theorem modifyConfig_response_count_counterexample :
    (exampleEnv.checkApikeyAuthentification
      (requestWith "PUT" ["api", "0000000000", "config"]
        [("permitjoin", QVariant.ofInt 300), ("otauactive", QVariant.ofBool true)]) emptyRsp).1 = true ∧
    exampleState.apsCtrl = true ∧
    presentCount [("permitjoin", QVariant.ofInt 300), ("otauactive", QVariant.ofBool true)]
      recognizedFields = 2 ∧
    (modifyConfig exampleEnv exampleState
      (requestWith "PUT" ["api", "0000000000", "config"]
        [("permitjoin", QVariant.ofInt 300), ("otauactive", QVariant.ofBool true)]) emptyRsp).rsp.list.length =
      emptyRsp.list.length + 1 := by
  decide

/-- C3, amended: the number of elements appended to the response list is at most the number of
recognized field names present in the batch, and equals it when every recognized field
present meets its constraint; unrecognized names add no element. -/
theorem modifyConfig_response_count (env : Env) (s : GatewayState) (req : ApiRequest) (rsp : ApiResponse)
    (hauth : (env.checkApikeyAuthentification req rsp).1 = true)
    (haps : s.apsCtrl = true)
    (hok : req.content.ok = true)
    (hne : req.content.map.isEmpty = false) :
    (modifyConfig env s req rsp).rsp.list.length ≤
      (env.checkApikeyAuthentification req rsp).2.list.length +
        presentCount req.content.map recognizedFields ∧
    (fieldsAccepted env s.touchlinkState req.content.map recognizedFields = true →
      (modifyConfig env s req rsp).rsp.list.length =
        (env.checkApikeyAuthentification req rsp).2.list.length +
          presentCount req.content.map recognizedFields) := by
  rw [modifyConfig_eq_of_fields env s req rsp hauth haps hok hne]
  constructor
  · cases hr : runBlocks env req.content.map recognizedFields
      { state := s
        rsp := { (env.checkApikeyAuthentification req rsp).2 with httpStatus := HttpStatus.HttpStatusOk }
        changed := false } with
    | error e =>
      obtain ⟨_, _, _, hlen, _⟩ := runBlocks_error env req.content.map _ _ _ hr
      exact hlen
    | ok c =>
      obtain ⟨_, _, _, _, hlen⟩ := runBlocks_ok env req.content.map _ _ _ hr
      exact le_of_eq hlen
  · intro hacc
    obtain ⟨c, hr⟩ := runBlocks_accepted env req.content.map recognizedFields
      { state := s
        rsp := { (env.checkApikeyAuthentification req rsp).2 with httpStatus := HttpStatus.HttpStatusOk }
        changed := false } hacc
    obtain ⟨_, _, _, _, hlen⟩ := runBlocks_ok env req.content.map _ _ _ hr
    rw [hr]
    exact hlen

/-- Witness of C3 amended: the batch with name B, an unrecognized key and groupdelay 10 appends
two elements. -/
theorem modifyConfig_response_count_witness :
    (modifyConfig exampleEnv exampleState
      (requestWith "PUT" ["api", "0000000000", "config"]
        [("name", QVariant.ofString "B"), ("colour", QVariant.ofInt 3), ("groupdelay", QVariant.ofInt 10)])
      emptyRsp).rsp.list.length = 0 + 2 :=
  (modifyConfig_response_count exampleEnv exampleState
    (requestWith "PUT" ["api", "0000000000", "config"]
      [("name", QVariant.ofString "B"), ("colour", QVariant.ofInt 3), ("groupdelay", QVariant.ofInt 10)])
    emptyRsp (by decide) (by decide) (by decide) (by decide)).2 (by decide)

/-! ## Claims on createUser -/

/-- C4: a createUser request that passes the link-button gate, has a parsed body with devicetype
and a string username of at least 10 characters that is a key of the whitelist leaves the whole
state as it is (whitelist, save queue, change token) and answers status 200 with one success
element echoing the key. -/
theorem createUser_existing_key_idempotent (env : Env) (s : GatewayState) (req : ApiRequest)
    (rsp : ApiResponse) (v : QVariant)
    (hgate : s.gwLinkButton = true ∨ env.allowedToCreateApikey req = true)
    (hok : req.content.ok = true)
    (hdev : req.content.map.contains "devicetype" = true)
    (hu : req.content.map.lookup "username" = some v)
    (hty : v.type = QVariantType.String)
    (hlen : 10 ≤ v.toString.length)
    (hmem : ∃ a ∈ s.apiAuths, a.apikey = v.toString) :
    createUser env s req rsp =
      { ret := ReturnCode.REQ_READY_SEND
        state := s
        rsp := { httpStatus := HttpStatus.HttpStatusOk
                 list := rsp.list ++ [RspItem.success "username" (RspValue.str v.toString)]
                 map := rsp.map
                 etag := s.gwConfigEtag } } := by
  have hne := map_nonempty_of_lookup _ _ _ hu
  have hgate1 : (!s.gwLinkButton && !env.allowedToCreateApikey req) = false := by
    rcases hgate with h | h <;> simp [h]
  have hnl : ¬ (v.toString.length < 10) := by omega
  have hcu : req.content.map.contains "username" = true := by simp [QVariantMap.contains, hu]
  have hval : req.content.map.value "username" = v := by simp [QVariantMap.value, hu]
  simp only [createUser, hgate1, hok, hne, hdev, hcu, hval, hty, hnl]
  simp
  intro hall
  obtain ⟨a, ha, hk⟩ := hmem
  exact absurd hk.symm (hall a ha)

/-- Witness of C4: the whitelisted key 0000000000 asked for again while the gateway is unlocked. -/
theorem createUser_existing_key_idempotent_witness :
    createUser exampleEnv { exampleState with gwLinkButton := true }
      (requestWith "POST" ["api"]
        [("devicetype", QVariant.ofString "app"), ("username", QVariant.ofString "0000000000")]) emptyRsp =
      { ret := ReturnCode.REQ_READY_SEND
        state := { exampleState with gwLinkButton := true }
        rsp := { httpStatus := HttpStatus.HttpStatusOk
                 list := emptyRsp.list ++
                   [RspItem.success "username" (RspValue.str (QVariant.ofString "0000000000").toString)]
                 map := emptyRsp.map
                 etag := 7 } } :=
  createUser_existing_key_idempotent exampleEnv { exampleState with gwLinkButton := true }
    (requestWith "POST" ["api"]
      [("devicetype", QVariant.ofString "app"), ("username", QVariant.ofString "0000000000")])
    emptyRsp (QVariant.ofString "0000000000")
    (Or.inl rfl) (by decide) (by decide) (by decide) (by decide) (by decide)
    ⟨{ apikey := "0000000000", devicetype := "app", createDate := 1, lastUseDate := 2 },
      by decide, by decide⟩

/-- C5, the code at the failing input: the whitelist holds the key 0000000000, the gateway is
unlocked, the request has no username and the five draws are 0. The generated key is
0000000000 again and a second record with that key is appended: the keys were distinct before
and are not afterwards. -/
theorem createUser_random_key_duplicates :
    keysDistinct ({ exampleState with gwLinkButton := true } : GatewayState).apiAuths ∧
    randomApikey exampleEnv = "0000000000" ∧
    ¬ keysDistinct (createUser exampleEnv { exampleState with gwLinkButton := true }
      (requestWith "POST" ["api"] [("devicetype", QVariant.ofString "app")]) emptyRsp).state.apiAuths := by
  refine ⟨?_, by decide, ?_⟩
  · unfold keysDistinct; decide
  · unfold keysDistinct; decide

/-- Outcome of createUser when the gate is closed: link button off and caller not allowed. -/
theorem createUser_gate_closed (env : Env) (s : GatewayState) (req : ApiRequest) (rsp : ApiResponse)
    (hbutton : s.gwLinkButton = false)
    (hcaller : env.allowedToCreateApikey req = false) :
    createUser env s req rsp =
      { ret := ReturnCode.REQ_READY_SEND
        state := s
        rsp := { httpStatus := HttpStatus.HttpStatusForbidden
                 list := rsp.list ++
                   [RspItem.error ApiError.ERR_LINK_BUTTON_NOT_PRESSED "" "link button not pressed"]
                 map := rsp.map
                 etag := rsp.etag } } := by
  simp [createUser, hbutton, hcaller, errorToMap]

/-- C6: when the link button is not pressed and `allowedToCreateApikey` rejects the caller,
createUser answers status Forbidden, appends the single error LinkButtonNotPressed and leaves
the state (whitelist, change token, save queue) as it is, whatever the body. -/
theorem createUser_link_button_not_pressed (env : Env) (s : GatewayState) (req : ApiRequest)
    (rsp : ApiResponse)
    (hbutton : s.gwLinkButton = false)
    (hcaller : env.allowedToCreateApikey req = false) :
    (createUser env s req rsp).rsp =
        { httpStatus := HttpStatus.HttpStatusForbidden
          list := rsp.list ++
            [RspItem.error ApiError.ERR_LINK_BUTTON_NOT_PRESSED "" "link button not pressed"]
          map := rsp.map
          etag := rsp.etag } ∧
    (createUser env s req rsp).state = s ∧
    (createUser env s req rsp).state.apiAuths = s.apiAuths ∧
    (createUser env s req rsp).state.gwConfigEtag = s.gwConfigEtag ∧
    (createUser env s req rsp).state.saveQueue = s.saveQueue := by
  rw [createUser_gate_closed env s req rsp hbutton hcaller]
  exact ⟨rfl, rfl, rfl, rfl, rfl⟩

/-- Witness of C6: a well-formed request to the locked example gateway. -/
theorem createUser_link_button_not_pressed_witness :
    (createUser exampleEnv exampleState
      (requestWith "POST" ["api"] [("devicetype", QVariant.ofString "app")]) emptyRsp).rsp =
        { httpStatus := HttpStatus.HttpStatusForbidden
          list := emptyRsp.list ++
            [RspItem.error ApiError.ERR_LINK_BUTTON_NOT_PRESSED "" "link button not pressed"]
          map := emptyRsp.map
          etag := emptyRsp.etag } ∧
    (createUser exampleEnv exampleState
      (requestWith "POST" ["api"] [("devicetype", QVariant.ofString "app")]) emptyRsp).state = exampleState :=
  ⟨(createUser_link_button_not_pressed exampleEnv exampleState
      (requestWith "POST" ["api"] [("devicetype", QVariant.ofString "app")]) emptyRsp rfl rfl).1,
   (createUser_link_button_not_pressed exampleEnv exampleState
      (requestWith "POST" ["api"] [("devicetype", QVariant.ofString "app")]) emptyRsp rfl rfl).2.1⟩

/-- Outcome of createUser once the gate is passed and the body is well formed: status 200 and one
success element with the issued key. -/
theorem createUser_unlocked_succeeds (env : Env) (s : GatewayState) (req : ApiRequest)
    (rsp : ApiResponse)
    (hbutton : s.gwLinkButton = true)
    (hok : req.content.ok = true)
    (hdev : req.content.map.contains "devicetype" = true)
    (huser : req.content.map.contains "username" = false ∨
      ((req.content.map.value "username").type = QVariantType.String ∧
        10 ≤ (req.content.map.value "username").toString.length)) :
    (createUser env s req rsp).rsp.httpStatus = HttpStatus.HttpStatusOk ∧
    ∃ key, (createUser env s req rsp).rsp.list = rsp.list ++ [RspItem.success "username" (RspValue.str key)] := by
  have hne : req.content.map.isEmpty = false := by
    cases hm : req.content.map with
    | nil => rw [hm] at hdev; simp [QVariantMap.contains] at hdev
    | cons a as => rfl
  rcases huser with hno | ⟨hty, hlen⟩
  · simp only [createUser, hbutton, hok, hne, hdev, hno]
    simp
  · have hnl : ¬ ((req.content.map.value "username").toString.length < 10) := by omega
    simp only [createUser, hbutton, hok, hne, hdev, hty, hnl]
    simp
    split_ifs <;> simp

/-- C7: after modifyConfig applies the batch with unlock 0, createUser from a caller that is not
otherwise allowed fails with LinkButtonNotPressed (status Forbidden, state untouched); after it
applies the batch with unlock n, 0 < n ≤ MAX_UNLOCK_GATEWAY_TIME, createUser with a parsed body
holding devicetype and either no username or a string username of at least 10 characters
answers status 200 with one success element, whatever the state was before the unlock. -/
theorem unlock_then_createUser (env : Env) (s : GatewayState) (req : ApiRequest) (rsp : ApiResponse)
    (v : QVariant) (n : Nat) (req2 : ApiRequest) (rsp2 : ApiResponse)
    (hauth : (env.checkApikeyAuthentification req rsp).1 = true)
    (haps : s.apsCtrl = true)
    (hbody : req.content = { ok := true, map := [("unlock", v)] })
    (hv : v.toUInt = (n, true))
    (hn : n ≤ env.MAX_UNLOCK_GATEWAY_TIME) :
    (n = 0 → env.allowedToCreateApikey req2 = false →
      createUser env (modifyConfig env s req rsp).state req2 rsp2 =
        { ret := ReturnCode.REQ_READY_SEND
          state := (modifyConfig env s req rsp).state
          rsp := { httpStatus := HttpStatus.HttpStatusForbidden
                   list := rsp2.list ++
                     [RspItem.error ApiError.ERR_LINK_BUTTON_NOT_PRESSED "" "link button not pressed"]
                   map := rsp2.map
                   etag := rsp2.etag } }) ∧
    (0 < n → req2.content.ok = true → req2.content.map.contains "devicetype" = true →
      (req2.content.map.contains "username" = false ∨
        ((req2.content.map.value "username").type = QVariantType.String ∧
          10 ≤ (req2.content.map.value "username").toString.length)) →
      (createUser env (modifyConfig env s req rsp).state req2 rsp2).rsp.httpStatus = HttpStatus.HttpStatusOk ∧
      ∃ key, (createUser env (modifyConfig env s req rsp).state req2 rsp2).rsp.list =
        rsp2.list ++ [RspItem.success "username" (RspValue.str key)]) := by
  have hl : req.content.map.lookup "unlock" = some v := by rw [hbody]; simp [List.lookup]
  have hacc : fieldsAccepted env s.touchlinkState req.content.map recognizedFields = true := by
    rw [hbody]
    simp [fieldsAccepted, recognizedFields, ConfigField.key, List.lookup, ConfigField.accepts, hv, hn]
  have hbtn := (modifyConfig_unlock_effect env s req rsp v hauth haps (by rw [hbody]) hacc hl).1
  rw [hv] at hbtn
  constructor
  · intro h0 hcaller
    subst h0
    exact createUser_gate_closed env _ req2 rsp2 (by simpa using hbtn) hcaller
  · intro hpos hok hdev huser
    exact createUser_unlocked_succeeds env _ req2 rsp2 (by simpa [hpos] using hbtn) hok hdev huser

/-- Witness of C7: on the locked example gateway unlock 0 is followed by a refused createUser and
unlock 60 by a createUser with status 200. -/
theorem unlock_then_createUser_witness :
    createUser exampleEnv
        (modifyConfig exampleEnv exampleState
          (requestWith "PUT" ["api", "0000000000", "config"] [("unlock", QVariant.ofInt 0)]) emptyRsp).state
        (requestWith "POST" ["api"] [("devicetype", QVariant.ofString "app")]) emptyRsp =
      { ret := ReturnCode.REQ_READY_SEND
        state := (modifyConfig exampleEnv exampleState
          (requestWith "PUT" ["api", "0000000000", "config"] [("unlock", QVariant.ofInt 0)]) emptyRsp).state
        rsp := { httpStatus := HttpStatus.HttpStatusForbidden
                 list := emptyRsp.list ++
                   [RspItem.error ApiError.ERR_LINK_BUTTON_NOT_PRESSED "" "link button not pressed"]
                 map := emptyRsp.map
                 etag := emptyRsp.etag } } ∧
    (createUser exampleEnv
        (modifyConfig exampleEnv exampleState
          (requestWith "PUT" ["api", "0000000000", "config"] [("unlock", QVariant.ofInt 60)]) emptyRsp).state
        (requestWith "POST" ["api"] [("devicetype", QVariant.ofString "app")]) emptyRsp).rsp.httpStatus =
      HttpStatus.HttpStatusOk :=
  ⟨(unlock_then_createUser exampleEnv exampleState
      (requestWith "PUT" ["api", "0000000000", "config"] [("unlock", QVariant.ofInt 0)]) emptyRsp
      (QVariant.ofInt 0) 0 (requestWith "POST" ["api"] [("devicetype", QVariant.ofString "app")]) emptyRsp
      (by decide) (by decide) rfl (by decide) (by decide)).1 rfl rfl,
   ((unlock_then_createUser exampleEnv exampleState
      (requestWith "PUT" ["api", "0000000000", "config"] [("unlock", QVariant.ofInt 60)]) emptyRsp
      (QVariant.ofInt 60) 60 (requestWith "POST" ["api"] [("devicetype", QVariant.ofString "app")]) emptyRsp
      (by decide) (by decide) rfl (by decide) (by decide)).2
      (by decide) (by decide) (by decide) (Or.inl (by decide))).1⟩

/-! ## Claims on the unlock field -/

/-- C8, as stated, fails: in the batch with a boolean name and unlock 60 the name is refused
first, so afterwards the link button is still off, no relock timer runs and the change token
has its old value, although the unlock value 60 is within range. -/
theorem modifyConfig_unlock_not_reached_counterexample :
    (QVariant.ofInt 60).toUInt = (60, true) ∧ 60 ≤ exampleEnv.MAX_UNLOCK_GATEWAY_TIME ∧
    (modifyConfig exampleEnv exampleState
      (requestWith "PUT" ["api", "0000000000", "config"]
        [("name", QVariant.ofBool true), ("unlock", QVariant.ofInt 60)]) emptyRsp).state.gwLinkButton = false ∧
    (modifyConfig exampleEnv exampleState
      (requestWith "PUT" ["api", "0000000000", "config"]
        [("name", QVariant.ofBool true), ("unlock", QVariant.ofInt 60)]) emptyRsp).state.lockGatewayTimer = none ∧
    (modifyConfig exampleEnv exampleState
      (requestWith "PUT" ["api", "0000000000", "config"]
        [("name", QVariant.ofBool true), ("unlock", QVariant.ofInt 60)]) emptyRsp).state.gwConfigEtag =
      exampleState.gwConfigEtag := by
  decide

/-- C8, amended: for a batch whose recognized fields all meet their constraints and whose unlock
value is n (so n ≤ MAX_UNLOCK_GATEWAY_TIME), with MAX_UNLOCK_GATEWAY_TIME * 1000 within the range
of a 32 bit int: afterwards the link button is on exactly when 0 < n, the relock timer runs with
n * 1000 ms exactly when 0 < n and is stopped otherwise, whatever it was before, and the change
token is bumped once, whatever the link button was before. -/
theorem modifyConfig_unlock (env : Env) (s : GatewayState) (req : ApiRequest) (rsp : ApiResponse)
    (v : QVariant) (n : Nat)
    (hauth : (env.checkApikeyAuthentification req rsp).1 = true)
    (haps : s.apsCtrl = true)
    (hok : req.content.ok = true)
    (hacc : fieldsAccepted env s.touchlinkState req.content.map recognizedFields = true)
    (hl : req.content.map.lookup "unlock" = some v)
    (hv : v.toUInt.1 = n)
    (hmax : env.MAX_UNLOCK_GATEWAY_TIME * 1000 < 2147483648) :
    n ≤ env.MAX_UNLOCK_GATEWAY_TIME ∧
    ((modifyConfig env s req rsp).state.gwLinkButton = true ↔ 0 < n) ∧
    (modifyConfig env s req rsp).state.lockGatewayTimer =
      (if 0 < n then some ((n : Int) * 1000) else none) ∧
    (modifyConfig env s req rsp).state.gwConfigEtag = s.gwConfigEtag + 1 := by
  obtain ⟨h1, h2, h3, _⟩ := modifyConfig_unlock_effect env s req rsp v hauth haps hok hacc hl
  have hn : n ≤ env.MAX_UNLOCK_GATEWAY_TIME := by
    have hu := hacc
    simp only [fieldsAccepted, List.all_eq_true] at hu
    have := hu ConfigField.unlock (mem_recognizedFields _)
    simp only [ConfigField.key, hl, ConfigField.accepts, Bool.and_eq_true, decide_eq_true_eq] at this
    omega
  rw [hv] at h1 h2
  refine ⟨hn, by simp [h1], ?_, h3⟩
  rw [h2]
  by_cases hpos : 0 < n
  · have hlt : n * 1000 % 4294967296 = n * 1000 := Nat.mod_eq_of_lt (by omega)
    have hlt2 : n * 1000 < 2147483648 := by omega
    simp [hpos, uintToInt, hlt, hlt2]
  · simp [hpos]

/-- Witness of C8 amended: unlock 60 on the example gateway, whose timer is running with 5000 ms. -/
theorem modifyConfig_unlock_witness :
    60 ≤ exampleEnv.MAX_UNLOCK_GATEWAY_TIME ∧
    ((modifyConfig exampleEnv { exampleState with lockGatewayTimer := some 5000 }
      (requestWith "PUT" ["api", "0000000000", "config"]
        [("groupdelay", QVariant.ofInt 10), ("unlock", QVariant.ofInt 60)]) emptyRsp).state.gwLinkButton = true
      ↔ 0 < 60) ∧
    (modifyConfig exampleEnv { exampleState with lockGatewayTimer := some 5000 }
      (requestWith "PUT" ["api", "0000000000", "config"]
        [("groupdelay", QVariant.ofInt 10), ("unlock", QVariant.ofInt 60)]) emptyRsp).state.lockGatewayTimer =
      (if 0 < 60 then some (((60 : Nat) : Int) * 1000) else none) ∧
    (modifyConfig exampleEnv { exampleState with lockGatewayTimer := some 5000 }
      (requestWith "PUT" ["api", "0000000000", "config"]
        [("groupdelay", QVariant.ofInt 10), ("unlock", QVariant.ofInt 60)]) emptyRsp).state.gwConfigEtag =
      ({ exampleState with lockGatewayTimer := some 5000 } : GatewayState).gwConfigEtag + 1 :=
  modifyConfig_unlock exampleEnv { exampleState with lockGatewayTimer := some 5000 }
    (requestWith "PUT" ["api", "0000000000", "config"]
      [("groupdelay", QVariant.ofInt 10), ("unlock", QVariant.ofInt 60)]) emptyRsp
    (QVariant.ofInt 60) 60 (by decide) (by decide) (by decide) (by decide) (by decide) (by decide)
    (by decide)

/-! ## Claims on changePassword -/

/-- C9, as stated, fails on the status: with the admin username, an old hash that does not match
and an empty newhash the answer has status 400, not Unauthorized; and with a wrong username and
no newhash at all the answer has status 400 as well. -/
theorem changePassword_status_counterexample :
    exampleEnv.encryptString "bad" ≠ exampleState.gwAdminPasswordHash ∧
    (changePassword exampleEnv exampleState
      (requestWith "PUT" ["api", "0000000000", "config", "password"]
        [("username", QVariant.ofString "delight"), ("oldhash", QVariant.ofString "bad"),
         ("newhash", QVariant.ofString "")]) emptyRsp).rsp.httpStatus = HttpStatus.HttpStatusBadRequest ∧
    (changePassword exampleEnv exampleState
      (requestWith "PUT" ["api", "0000000000", "config", "password"]
        [("username", QVariant.ofString "mallory"), ("oldhash", QVariant.ofString "old")])
      emptyRsp).rsp.httpStatus = HttpStatus.HttpStatusBadRequest := by
  decide

/-- The outcomes of changePassword for an authenticated request with a non-empty parsed body. -/
theorem changePassword_cases (env : Env) (s : GatewayState) (req : ApiRequest) (rsp : ApiResponse)
    (hauth : (env.checkApikeyAuthentification req rsp).1 = true)
    (hok : req.content.ok = true)
    (hne : req.content.map.isEmpty = false) :
    (passwordChangeAccepted env s req.content.map = true →
      changePassword env s req rsp =
        { ret := ReturnCode.REQ_READY_SEND
          state := queSaveDb
            { s with gwAdminPasswordHash := env.encryptString (req.content.map.value "newhash").toString }
            DbTable.DB_CONFIG SaveDelay.DB_SHORT_SAVE_DELAY
          rsp := { httpStatus := HttpStatus.HttpStatusOk
                   list := (env.checkApikeyAuthentification req rsp).2.list ++
                     [RspItem.success "/config/password" (RspValue.str "changed")]
                   map := (env.checkApikeyAuthentification req rsp).2.map
                   etag := (env.checkApikeyAuthentification req rsp).2.etag } }) ∧
    (passwordChangeAccepted env s req.content.map = false →
      (changePassword env s req rsp).state = s ∧
      (changePassword env s req rsp).rsp.httpStatus ≠ HttpStatus.HttpStatusOk ∧
      ∃ id address description, (changePassword env s req rsp).rsp.list =
        (env.checkApikeyAuthentification req rsp).2.list ++ [RspItem.error id address description]) ∧
    ((req.content.map.contains "username" && req.content.map.contains "oldhash" &&
        req.content.map.contains "newhash") = true →
      ((req.content.map.value "username").type ≠ QVariantType.String ∨
        (req.content.map.value "username").toString ≠ s.gwAdminUserName) →
      (changePassword env s req rsp).rsp.httpStatus = HttpStatus.HttpStatusUnauthorized) ∧
    ((req.content.map.contains "username" && req.content.map.contains "oldhash" &&
        req.content.map.contains "newhash") = true →
      (req.content.map.value "username").type = QVariantType.String →
      (req.content.map.value "username").toString = s.gwAdminUserName →
      (req.content.map.value "oldhash").type = QVariantType.String →
      (req.content.map.value "oldhash").toString.isEmpty = false →
      (req.content.map.value "newhash").type = QVariantType.String →
      (req.content.map.value "newhash").toString.isEmpty = false →
      env.encryptString (req.content.map.value "oldhash").toString ≠ s.gwAdminPasswordHash →
      (changePassword env s req rsp).rsp.httpStatus = HttpStatus.HttpStatusUnauthorized) := by
  refine ⟨?_, ?_, ?_, ?_⟩
  · intro hacc
    simp only [passwordChangeAccepted, Bool.and_eq_true, decide_eq_true_eq, Bool.not_eq_true'] at hacc
    obtain ⟨⟨⟨⟨⟨⟨⟨⟨⟨h1, h2⟩, h3⟩, h4⟩, h5⟩, h6⟩, h7⟩, h8⟩, h9⟩, h10⟩ := hacc
    simp only [changePassword, hauth, hok, hne, h1, h2, h3, h4, h5, h6, h7, h8, h9, h10]
    simp
  · intro hacc
    simp only [changePassword, hauth, hok, hne, errorToMap]
    simp only [Bool.not_true, Bool.false_eq_true, if_false, Bool.or_false]
    split_ifs with k1 k2 k3 k4 k5
    · simp
    · simp
    · simp
    · simp
    · exfalso
      simp only [passwordChangeAccepted] at hacc
      simp only [Bool.or_eq_true, bne_iff_ne, ne_eq, not_or, not_not, Bool.not_eq_true] at k2 k3 k4 k5
      simp [k1, k2.1, k2.2, k3.1, k3.2, k4.1, k4.2, k5] at hacc
    · simp
  · intro hc hw
    simp only [changePassword, hauth, hok, hne, hc]
    have hcond : ((req.content.map.value "username").type != QVariantType.String ||
        (req.content.map.value "username").toString != s.gwAdminUserName) = true := by
      rcases hw with h | h <;> simp [h]
    simp [hcond]
  · intro hc h1 h2 h3 h4 h5 h6 h7
    simp only [changePassword, hauth, hok, hne, hc, h1, h2, h3, h4, h5, h6]
    simp [h7]

/-- C9, amended: for an authenticated changePassword request with a non-empty parsed body, the
request succeeds (status 200, one success element, stored hash replaced by the encrypted
newhash, config save queued with the short delay) when the acceptance conditions hold, and
otherwise the state is unchanged (stored hash kept, nothing queued), the status is not 200 and
one error element is appended; so it succeeds if and only if the conditions hold. The status is
Unauthorized for a wrong username when the three parameters are present, and for a non-matching
old hash when moreover the username is right and oldhash and newhash are non-empty strings. -/
theorem changePassword_outcome (env : Env) (s : GatewayState) (req : ApiRequest) (rsp : ApiResponse)
    (hauth : (env.checkApikeyAuthentification req rsp).1 = true)
    (hok : req.content.ok = true)
    (hne : req.content.map.isEmpty = false) :
    (passwordChangeAccepted env s req.content.map = true →
      changePassword env s req rsp =
        { ret := ReturnCode.REQ_READY_SEND
          state := queSaveDb
            { s with gwAdminPasswordHash := env.encryptString (req.content.map.value "newhash").toString }
            DbTable.DB_CONFIG SaveDelay.DB_SHORT_SAVE_DELAY
          rsp := { httpStatus := HttpStatus.HttpStatusOk
                   list := (env.checkApikeyAuthentification req rsp).2.list ++
                     [RspItem.success "/config/password" (RspValue.str "changed")]
                   map := (env.checkApikeyAuthentification req rsp).2.map
                   etag := (env.checkApikeyAuthentification req rsp).2.etag } }) ∧
    (passwordChangeAccepted env s req.content.map = false →
      (changePassword env s req rsp).state = s ∧
      (changePassword env s req rsp).rsp.httpStatus ≠ HttpStatus.HttpStatusOk ∧
      ∃ id address description, (changePassword env s req rsp).rsp.list =
        (env.checkApikeyAuthentification req rsp).2.list ++ [RspItem.error id address description]) ∧
    ((req.content.map.contains "username" && req.content.map.contains "oldhash" &&
        req.content.map.contains "newhash") = true →
      ((req.content.map.value "username").type ≠ QVariantType.String ∨
        (req.content.map.value "username").toString ≠ s.gwAdminUserName) →
      (changePassword env s req rsp).rsp.httpStatus = HttpStatus.HttpStatusUnauthorized) ∧
    ((req.content.map.contains "username" && req.content.map.contains "oldhash" &&
        req.content.map.contains "newhash") = true →
      (req.content.map.value "username").type = QVariantType.String →
      (req.content.map.value "username").toString = s.gwAdminUserName →
      (req.content.map.value "oldhash").type = QVariantType.String →
      (req.content.map.value "oldhash").toString.isEmpty = false →
      (req.content.map.value "newhash").type = QVariantType.String →
      (req.content.map.value "newhash").toString.isEmpty = false →
      env.encryptString (req.content.map.value "oldhash").toString ≠ s.gwAdminPasswordHash →
      (changePassword env s req rsp).rsp.httpStatus = HttpStatus.HttpStatusUnauthorized) :=
  changePassword_cases env s req rsp hauth hok hne

/-- Witness of C9 amended: the admin changes the hash from old to new on the example gateway. -/
theorem changePassword_outcome_witness :
    changePassword exampleEnv exampleState
      (requestWith "PUT" ["api", "0000000000", "config", "password"]
        [("username", QVariant.ofString "delight"), ("oldhash", QVariant.ofString "old"),
         ("newhash", QVariant.ofString "new")]) emptyRsp =
      { ret := ReturnCode.REQ_READY_SEND
        state := queSaveDb { exampleState with gwAdminPasswordHash := exampleEnv.encryptString "new" }
          DbTable.DB_CONFIG SaveDelay.DB_SHORT_SAVE_DELAY
        rsp := { httpStatus := HttpStatus.HttpStatusOk
                 list := emptyRsp.list ++ [RspItem.success "/config/password" (RspValue.str "changed")]
                 map := emptyRsp.map
                 etag := emptyRsp.etag } } :=
  (changePassword_outcome exampleEnv exampleState
    (requestWith "PUT" ["api", "0000000000", "config", "password"]
      [("username", QVariant.ofString "delight"), ("oldhash", QVariant.ofString "old"),
       ("newhash", QVariant.ofString "new")]) emptyRsp (by decide) (by decide) (by decide)).1 (by decide)

/-- C10, as stated, fails: when the new hash equals the old one the first change succeeds and the
second change presenting the same old hash succeeds too (status 200) and replaces the stored
hash, instead of failing with Unauthorized. -/
theorem changePassword_same_hash_counterexample :
    (changePassword exampleEnv exampleState
      (requestWith "PUT" ["api", "0000000000", "config", "password"]
        [("username", QVariant.ofString "delight"), ("oldhash", QVariant.ofString "old"),
         ("newhash", QVariant.ofString "old")]) emptyRsp).rsp.list =
      [RspItem.success "/config/password" (RspValue.str "changed")] ∧
    (changePassword exampleEnv
      (changePassword exampleEnv exampleState
        (requestWith "PUT" ["api", "0000000000", "config", "password"]
          [("username", QVariant.ofString "delight"), ("oldhash", QVariant.ofString "old"),
           ("newhash", QVariant.ofString "old")]) emptyRsp).state
      (requestWith "PUT" ["api", "0000000000", "config", "password"]
        [("username", QVariant.ofString "delight"), ("oldhash", QVariant.ofString "old"),
         ("newhash", QVariant.ofString "new")]) emptyRsp).rsp.httpStatus = HttpStatus.HttpStatusOk ∧
    (changePassword exampleEnv
      (changePassword exampleEnv exampleState
        (requestWith "PUT" ["api", "0000000000", "config", "password"]
          [("username", QVariant.ofString "delight"), ("oldhash", QVariant.ofString "old"),
           ("newhash", QVariant.ofString "old")]) emptyRsp).state
      (requestWith "PUT" ["api", "0000000000", "config", "password"]
        [("username", QVariant.ofString "delight"), ("oldhash", QVariant.ofString "old"),
         ("newhash", QVariant.ofString "new")]) emptyRsp).state.gwAdminPasswordHash ≠
      (changePassword exampleEnv exampleState
        (requestWith "PUT" ["api", "0000000000", "config", "password"]
          [("username", QVariant.ofString "delight"), ("oldhash", QVariant.ofString "old"),
           ("newhash", QVariant.ofString "old")]) emptyRsp).state.gwAdminPasswordHash := by
  decide

/-- C10, amended: if changePassword with the admin username, the correct old hash and a new hash
succeeds and the encrypted new hash differs from the encrypted old hash, then a following
authenticated request with the admin username, that old hash again and any non-empty string as
newhash fails with status Unauthorized and leaves the state, and so the stored hash, unchanged;
and an authenticated request with a non-empty body whose username is absent, not a string or
not the admin name fails (state unchanged, status not 200, one error element) whatever its old
hash is. -/
theorem changePassword_stale_hash (env : Env) (s : GatewayState) (req1 req2 : ApiRequest)
    (rsp1 rsp2 : ApiResponse)
    (hauth1 : (env.checkApikeyAuthentification req1 rsp1).1 = true)
    (hok1 : req1.content.ok = true)
    (hacc1 : passwordChangeAccepted env s req1.content.map = true)
    (hdiff : env.encryptString (req1.content.map.value "newhash").toString ≠
      env.encryptString (req1.content.map.value "oldhash").toString)
    (hauth2 : (env.checkApikeyAuthentification req2 rsp2).1 = true)
    (hok2 : req2.content.ok = true)
    (hpresent : (req2.content.map.contains "username" && req2.content.map.contains "oldhash" &&
      req2.content.map.contains "newhash") = true)
    (huser : (req2.content.map.value "username").type = QVariantType.String ∧
      (req2.content.map.value "username").toString = s.gwAdminUserName)
    (hold : (req2.content.map.value "oldhash").type = QVariantType.String ∧
      (req2.content.map.value "oldhash").toString = (req1.content.map.value "oldhash").toString)
    (hnew : (req2.content.map.value "newhash").type = QVariantType.String ∧
      (req2.content.map.value "newhash").toString.isEmpty = false) :
    ((changePassword env (changePassword env s req1 rsp1).state req2 rsp2).rsp.httpStatus =
        HttpStatus.HttpStatusUnauthorized ∧
      (changePassword env (changePassword env s req1 rsp1).state req2 rsp2).state =
        (changePassword env s req1 rsp1).state) ∧
    ∀ (s3 : GatewayState) (req3 : ApiRequest) (rsp3 : ApiResponse),
      (env.checkApikeyAuthentification req3 rsp3).1 = true → req3.content.ok = true →
      req3.content.map.isEmpty = false →
      ¬ (req3.content.map.contains "username" = true ∧
          (req3.content.map.value "username").type = QVariantType.String ∧
          (req3.content.map.value "username").toString = s3.gwAdminUserName) →
      (changePassword env s3 req3 rsp3).state = s3 ∧
      (changePassword env s3 req3 rsp3).rsp.httpStatus ≠ HttpStatus.HttpStatusOk ∧
      ∃ id address description, (changePassword env s3 req3 rsp3).rsp.list =
        (env.checkApikeyAuthentification req3 rsp3).2.list ++ [RspItem.error id address description] := by
  have hacc := hacc1
  simp only [passwordChangeAccepted, Bool.and_eq_true, decide_eq_true_eq, Bool.not_eq_true'] at hacc
  obtain ⟨⟨⟨⟨⟨⟨⟨⟨⟨h1, h2⟩, h3⟩, h4⟩, h5⟩, h6⟩, h7⟩, h8⟩, h9⟩, h10⟩ := hacc
  have hne1 : req1.content.map.isEmpty = false := by
    cases hm : req1.content.map with
    | nil => rw [hm] at h1; simp [QVariantMap.contains] at h1
    | cons a as => rfl
  have hne2 : req2.content.map.isEmpty = false := by
    simp only [Bool.and_eq_true] at hpresent
    cases hm : req2.content.map with
    | nil => rw [hm] at hpresent; simp [QVariantMap.contains] at hpresent
    | cons a as => rfl
  have hfirst := (changePassword_cases env s req1 rsp1 hauth1 hok1 hne1).1 hacc1
  constructor
  · rw [hfirst]
    have hstale : env.encryptString (req2.content.map.value "oldhash").toString ≠
        (queSaveDb
          { s with gwAdminPasswordHash := env.encryptString (req1.content.map.value "newhash").toString }
          DbTable.DB_CONFIG SaveDelay.DB_SHORT_SAVE_DELAY).gwAdminPasswordHash := by
      rw [hold.2]
      simp only [queSaveDb]
      exact fun h => hdiff h.symm
    have hsecond := changePassword_cases env
      (queSaveDb
        { s with gwAdminPasswordHash := env.encryptString (req1.content.map.value "newhash").toString }
        DbTable.DB_CONFIG SaveDelay.DB_SHORT_SAVE_DELAY) req2 rsp2 hauth2 hok2 hne2
    refine ⟨hsecond.2.2.2 hpresent huser.1 (by simpa [queSaveDb] using huser.2) hold.1
      (by rw [hold.2]; exact h7) hnew.1 hnew.2 hstale, ?_⟩
    refine (hsecond.2.1 ?_).1
    simp only [passwordChangeAccepted, Bool.and_eq_false_iff, decide_eq_false_iff_not]
    exact Or.inr hstale
  · intro s3 req3 rsp3 hauth3 hok3 hne3 hwrong
    refine (changePassword_cases env s3 req3 rsp3 hauth3 hok3 hne3).2.1 ?_
    by_contra hcon
    simp only [Bool.not_eq_false] at hcon
    simp only [passwordChangeAccepted, Bool.and_eq_true, decide_eq_true_eq] at hcon
    exact hwrong ⟨hcon.1.1.1.1.1.1.1.1.1, hcon.1.1.1.1.1.1.2, hcon.1.1.1.1.1.2⟩

/-- Witness of C10 amended: on the example gateway the admin changes the hash from old to new; the
old hash is then refused, and so is a request of another user name with the right hash. -/
theorem changePassword_stale_hash_witness :
    ((changePassword exampleEnv
        (changePassword exampleEnv exampleState
          (requestWith "PUT" ["api", "0000000000", "config", "password"]
            [("username", QVariant.ofString "delight"), ("oldhash", QVariant.ofString "old"),
             ("newhash", QVariant.ofString "new")]) emptyRsp).state
        (requestWith "PUT" ["api", "0000000000", "config", "password"]
          [("username", QVariant.ofString "delight"), ("oldhash", QVariant.ofString "old"),
           ("newhash", QVariant.ofString "other")]) emptyRsp).rsp.httpStatus =
        HttpStatus.HttpStatusUnauthorized ∧
      (changePassword exampleEnv
        (changePassword exampleEnv exampleState
          (requestWith "PUT" ["api", "0000000000", "config", "password"]
            [("username", QVariant.ofString "delight"), ("oldhash", QVariant.ofString "old"),
             ("newhash", QVariant.ofString "new")]) emptyRsp).state
        (requestWith "PUT" ["api", "0000000000", "config", "password"]
          [("username", QVariant.ofString "delight"), ("oldhash", QVariant.ofString "old"),
           ("newhash", QVariant.ofString "other")]) emptyRsp).state =
        (changePassword exampleEnv exampleState
          (requestWith "PUT" ["api", "0000000000", "config", "password"]
            [("username", QVariant.ofString "delight"), ("oldhash", QVariant.ofString "old"),
             ("newhash", QVariant.ofString "new")]) emptyRsp).state) ∧
    (changePassword exampleEnv exampleState
      (requestWith "PUT" ["api", "0000000000", "config", "password"]
        [("username", QVariant.ofString "mallory"), ("oldhash", QVariant.ofString "old"),
         ("newhash", QVariant.ofString "new")]) emptyRsp).state = exampleState :=
  ⟨(changePassword_stale_hash exampleEnv exampleState
      (requestWith "PUT" ["api", "0000000000", "config", "password"]
        [("username", QVariant.ofString "delight"), ("oldhash", QVariant.ofString "old"),
         ("newhash", QVariant.ofString "new")])
      (requestWith "PUT" ["api", "0000000000", "config", "password"]
        [("username", QVariant.ofString "delight"), ("oldhash", QVariant.ofString "old"),
         ("newhash", QVariant.ofString "other")])
      emptyRsp emptyRsp (by decide) (by decide) (by decide) (by decide) (by decide) (by decide)
      (by decide) (by decide) (by decide) (by decide)).1,
   ((changePassword_stale_hash exampleEnv exampleState
      (requestWith "PUT" ["api", "0000000000", "config", "password"]
        [("username", QVariant.ofString "delight"), ("oldhash", QVariant.ofString "old"),
         ("newhash", QVariant.ofString "new")])
      (requestWith "PUT" ["api", "0000000000", "config", "password"]
        [("username", QVariant.ofString "delight"), ("oldhash", QVariant.ofString "old"),
         ("newhash", QVariant.ofString "other")])
      emptyRsp emptyRsp (by decide) (by decide) (by decide) (by decide) (by decide) (by decide)
      (by decide) (by decide) (by decide) (by decide)).2 exampleState
      (requestWith "PUT" ["api", "0000000000", "config", "password"]
        [("username", QVariant.ofString "mallory"), ("oldhash", QVariant.ofString "old"),
         ("newhash", QVariant.ofString "new")]) emptyRsp
      (by decide) (by decide) (by decide) (by decide)).1⟩

/-! ## Claims on deletePassword -/

theorem lookup_configRemove_self (m : List (QString × QString)) (key : QString) :
    (configRemove m key).lookup key = none := by
  induction m with
  | nil => rfl
  | cons e es ih =>
    obtain ⟨k, v⟩ := e
    by_cases h : k = key
    · simp [configRemove, h] at ih ⊢
      exact ih
    · have hkey : (key == k) = false := by simpa using fun h1 => h h1.symm
      simp [configRemove, h, List.lookup, hkey] at ih ⊢
      exact ih

theorem lookup_configRemove_other (m : List (QString × QString)) (key other : QString)
    (h : m.lookup other = none) : (configRemove m key).lookup other = none := by
  induction m with
  | nil => rfl
  | cons e es ih =>
    obtain ⟨k, v⟩ := e
    simp only [List.lookup] at h
    cases hk : (other == k) with
    | true => rw [hk] at h; simp at h
    | false =>
      rw [hk] at h
      have := ih h
      by_cases h2 : k = key
      · simpa [configRemove, h2] using this
      · simp only [configRemove, List.filter_cons, bne_iff_ne, ne_eq, h2, not_false_eq_true,
          decide_True, if_true, List.lookup, hk] at this ⊢
        exact this

/-- C11: deletePassword fails with status Forbidden, one error element and the state (and so
gwConfig) unchanged when the uptime exceeds 600 seconds; below 600 it answers status 200 and the
state is the one `initAuthentification` makes of the state whose gwConfig has lost the entries
gwusername and gwpassword; an earlier refused attempt leaves no trace, so the outcome of a call
is the same with or without it. -/
theorem deletePassword_uptime_gate (env : Env) (s : GatewayState) (req : ApiRequest) (rsp : ApiResponse) :
    (600 < env.getUptime →
      deletePassword env s req rsp =
        { ret := ReturnCode.REQ_READY_SEND
          state := s
          rsp := { rsp with
            httpStatus := HttpStatus.HttpStatusForbidden
            list := rsp.list ++
              [RspItem.error ApiError.ERR_UNAUTHORIZED_USER (joinPath req.path) "unauthorized user"] } }) ∧
    (env.getUptime < 600 →
      deletePassword env s req rsp =
        { ret := ReturnCode.REQ_READY_SEND
          state := env.initAuthentification
            { s with gwConfig := configRemove (configRemove s.gwConfig "gwusername") "gwpassword" }
          rsp := { rsp with httpStatus := HttpStatus.HttpStatusOk } }) ∧
    (configRemove (configRemove s.gwConfig "gwusername") "gwpassword").lookup "gwusername" = none ∧
    (configRemove (configRemove s.gwConfig "gwusername") "gwpassword").lookup "gwpassword" = none ∧
    ∀ (env0 : Env) (req0 : ApiRequest) (rsp0 : ApiResponse), 600 < env0.getUptime →
      deletePassword env (deletePassword env0 s req0 rsp0).state req rsp = deletePassword env s req rsp := by
  refine ⟨?_, ?_, ?_, ?_, ?_⟩
  · intro h
    simp [deletePassword, h, errorToMap]
  · intro h
    have h1 : ¬ (env.getUptime > 600) := by omega
    simp [deletePassword, h1]
  · exact lookup_configRemove_other _ _ _ (lookup_configRemove_self _ _)
  · exact lookup_configRemove_self _ _
  · intro env0 req0 rsp0 h
    have : (deletePassword env0 s req0 rsp0).state = s := by simp [deletePassword, h]
    rw [this]

/-- Witness of C11: at uptime 30 the example gateway resets the password, at uptime 601 it
refuses, and a call after the refusal behaves as the call without it. -/
theorem deletePassword_uptime_gate_witness :
    (deletePassword exampleEnv exampleState
      (requestWith "DELETE" ["api", "config", "password"] []) emptyRsp).rsp.httpStatus =
      HttpStatus.HttpStatusOk ∧
    (deletePassword { exampleEnv with getUptime := 601 } exampleState
      (requestWith "DELETE" ["api", "config", "password"] []) emptyRsp).rsp.httpStatus =
      HttpStatus.HttpStatusForbidden ∧
    deletePassword exampleEnv
      (deletePassword { exampleEnv with getUptime := 601 } exampleState
        (requestWith "DELETE" ["api", "config", "password"] []) emptyRsp).state
      (requestWith "DELETE" ["api", "config", "password"] []) emptyRsp =
      deletePassword exampleEnv exampleState
        (requestWith "DELETE" ["api", "config", "password"] []) emptyRsp :=
  ⟨congrArg (fun o => o.rsp.httpStatus)
      ((deletePassword_uptime_gate exampleEnv exampleState
        (requestWith "DELETE" ["api", "config", "password"] []) emptyRsp).2.1 (by decide)),
   congrArg (fun o => o.rsp.httpStatus)
      ((deletePassword_uptime_gate { exampleEnv with getUptime := 601 } exampleState
        (requestWith "DELETE" ["api", "config", "password"] []) emptyRsp).1 (by decide)),
   (deletePassword_uptime_gate exampleEnv exampleState
      (requestWith "DELETE" ["api", "config", "password"] []) emptyRsp).2.2.2.2
      { exampleEnv with getUptime := 601 } (requestWith "DELETE" ["api", "config", "password"] []) emptyRsp
      (by decide)⟩

/-! ## Claims on the radio state -/

/-- C13: with a radio controller present, after checkRfConnectState gwRfConnected is true when
touchlink is active and otherwise the in-network value of the radio, that is, their
disjunction; the change token is bumped once when gwRfConnected differs from before and is
untouched when it does not. -/
theorem checkRfConnectState_connected (env : Env) (s : GatewayState) (haps : s.apsCtrl = true) :
    (checkRfConnectState env s).gwRfConnected = (isTouchlinkActive s || env.isInNetwork) ∧
    ((checkRfConnectState env s).gwRfConnected ≠ s.gwRfConnected →
      (checkRfConnectState env s).gwConfigEtag = s.gwConfigEtag + 1) ∧
    ((checkRfConnectState env s).gwRfConnected = s.gwRfConnected →
      (checkRfConnectState env s).gwConfigEtag = s.gwConfigEtag) := by
  by_cases h1 : isTouchlinkActive s = true <;> by_cases h2 : env.isInNetwork = true <;>
    by_cases h3 : s.gwRfConnected = true <;> by_cases h4 : s.gwRfConnectedExpected = true <;>
    simp [checkRfConnectState, haps, updateEtag, queSaveDb, h1, h2, h3, h4]

/-- Witness of C13: the example gateway with the radio reporting out of network. -/
theorem checkRfConnectState_connected_witness :
    (checkRfConnectState { exampleEnv with isInNetwork := false } exampleState).gwRfConnected =
      (isTouchlinkActive exampleState || false) ∧
    (checkRfConnectState { exampleEnv with isInNetwork := false } exampleState).gwConfigEtag =
      exampleState.gwConfigEtag + 1 :=
  ⟨(checkRfConnectState_connected { exampleEnv with isInNetwork := false } exampleState rfl).1,
   (checkRfConnectState_connected { exampleEnv with isInNetwork := false } exampleState rfl).2.1
     (by decide)⟩

/-- C14, as stated, fails: in a state without radio controller whose gwRfConnected is true and
gwRfConnectedExpected false, checkRfConnectState does nothing, so afterwards gwRfConnected
holds and gwRfConnectedExpected does not. -/
theorem checkRfConnectState_latch_counterexample :
    (checkRfConnectState exampleEnv
      { exampleState with apsCtrl := false, gwRfConnectedExpected := false }).gwRfConnected = true ∧
    (checkRfConnectState exampleEnv
      { exampleState with apsCtrl := false, gwRfConnectedExpected := false }).gwRfConnectedExpected =
      false := by
  decide

/-- C14, amended: for every state and radio status checkRfConnectState never changes
gwRfConnectedExpected from true to false, and a config save with the long delay is queued
exactly when this call upgraded the flag from false to true (nothing is queued otherwise);
when a radio controller is present, gwRfConnected implies gwRfConnectedExpected after the
call. -/
theorem checkRfConnectState_latch (env : Env) (s : GatewayState) :
    (s.gwRfConnectedExpected = true → (checkRfConnectState env s).gwRfConnectedExpected = true) ∧
    (s.apsCtrl = true → (checkRfConnectState env s).gwRfConnected = true →
      (checkRfConnectState env s).gwRfConnectedExpected = true) ∧
    (checkRfConnectState env s).saveQueue =
      (if s.gwRfConnectedExpected = false ∧ (checkRfConnectState env s).gwRfConnectedExpected = true
        then s.saveQueue ++ [(DbTable.DB_CONFIG, SaveDelay.DB_LONG_SAVE_DELAY)]
        else s.saveQueue) := by
  by_cases h0 : s.apsCtrl = true <;> by_cases h1 : isTouchlinkActive s = true <;>
    by_cases h2 : env.isInNetwork = true <;> by_cases h3 : s.gwRfConnected = true <;>
    by_cases h4 : s.gwRfConnectedExpected = true <;>
    simp [checkRfConnectState, updateEtag, queSaveDb, h0, h1, h2, h3, h4]

/-- Witness of C14 amended: the example gateway with the expectation not yet set. -/
theorem checkRfConnectState_latch_witness :
    (checkRfConnectState exampleEnv { exampleState with gwRfConnectedExpected := false }).gwRfConnectedExpected
      = true ∧
    (checkRfConnectState exampleEnv exampleState).gwRfConnectedExpected = true :=
  ⟨(checkRfConnectState_latch exampleEnv { exampleState with gwRfConnectedExpected := false }).2.1
      rfl (by decide),
   (checkRfConnectState_latch exampleEnv exampleState).1 rfl⟩

/-! ## Claims on the read handlers -/

theorem checkRfConnectState_idempotent (env : Env) (s : GatewayState) (ip : QString) (port : Int) :
    checkRfConnectState env { checkRfConnectState env s with gwIpAddress := ip, gwPort := port } =
      { checkRfConnectState env s with gwIpAddress := ip, gwPort := port } := by
  by_cases h0 : s.apsCtrl = true <;> by_cases h1 : s.touchlinkState = TouchlinkState.TL_Idle <;>
    by_cases h2 : env.isInNetwork = true <;> by_cases h3 : s.gwRfConnected = true <;>
    by_cases h4 : s.gwRfConnectedExpected = true <;>
    simp [checkRfConnectState, updateEtag, queSaveDb, isTouchlinkActive, h0, h1, h2, h3, h4]

theorem readHandler_first (full : Bool) (env : Env) (s : GatewayState) (req : ApiRequest)
    (rsp : ApiResponse) (hauth : (env.checkApikeyAuthentification req rsp).1 = true) :
    (readHandler full env s req rsp).rsp.etag = (checkRfConnectState env s).gwConfigEtag ∧
    ∃ ip port, (readHandler full env s req rsp).state =
      { checkRfConnectState env s with gwIpAddress := ip, gwPort := port } := by
  cases full
  · simp only [readHandler, Bool.false_eq_true, if_false, getConfig, hauth, Bool.not_true]
    cases hm : matchingEtag (checkRfConnectState env s) req with
    | none =>
      simp only [configToMap]
      exact ⟨trivial, _, _, rfl⟩
    | some etag =>
      simp only [matchingEtag] at hm
      split at hm
      · split_ifs at hm with he
        simp only [Option.some.injEq] at hm
        subst hm
        simp only [beq_iff_eq] at he
        exact ⟨he.symm, _, _, rfl⟩
      · simp at hm
  · simp only [readHandler, if_true, getFullState, hauth, Bool.not_true, Bool.false_eq_true, if_false]
    cases hm : matchingEtag (checkRfConnectState env s) req with
    | none =>
      simp only [configToMap]
      exact ⟨trivial, _, _, rfl⟩
    | some etag =>
      simp only [matchingEtag] at hm
      split at hm
      · split_ifs at hm with he
        simp only [Option.some.injEq] at hm
        subst hm
        simp only [beq_iff_eq] at he
        exact ⟨he.symm, _, _, rfl⟩
      · simp at hm

theorem readHandler_matching (full : Bool) (env : Env) (s : GatewayState) (req : ApiRequest)
    (rsp : ApiResponse) (hauth : (env.checkApikeyAuthentification req rsp).1 = true)
    (hfix : checkRfConnectState env s = s)
    (hhdr : req.ifNoneMatch = some s.gwConfigEtag) :
    readHandler full env s req rsp =
      { ret := ReturnCode.REQ_READY_SEND
        state := s
        rsp := { (env.checkApikeyAuthentification req rsp).2 with
          httpStatus := HttpStatus.HttpStatusNotModified, etag := s.gwConfigEtag } } := by
  cases full <;>
    simp [readHandler, getConfig, getFullState, hauth, hfix, matchingEtag, hhdr]

/-- C15: with the radio status fixed, when an authenticated getConfig or getFullState returns the
change token t, the next authenticated getConfig or getFullState that carries If-None-Match
with t answers status NotModified with token t, leaves list and map of the response as they
were given (no body) and the state as it was. -/
theorem conditional_read_not_modified (first second : Bool) (env : Env) (s : GatewayState)
    (req1 req2 : ApiRequest) (rsp1 rsp2 : ApiResponse)
    (hauth1 : (env.checkApikeyAuthentification req1 rsp1).1 = true)
    (hauth2 : (env.checkApikeyAuthentification req2 rsp2).1 = true)
    (hhdr : req2.ifNoneMatch = some (readHandler first env s req1 rsp1).rsp.etag) :
    readHandler second env (readHandler first env s req1 rsp1).state req2 rsp2 =
      { ret := ReturnCode.REQ_READY_SEND
        state := (readHandler first env s req1 rsp1).state
        rsp := { (env.checkApikeyAuthentification req2 rsp2).2 with
          httpStatus := HttpStatus.HttpStatusNotModified
          etag := (readHandler first env s req1 rsp1).rsp.etag } } := by
  obtain ⟨he, ip, port, hs⟩ := readHandler_first first env s req1 rsp1 hauth1
  have hetag : (readHandler first env s req1 rsp1).state.gwConfigEtag =
      (readHandler first env s req1 rsp1).rsp.etag := by rw [hs, he]
  have hfix : checkRfConnectState env (readHandler first env s req1 rsp1).state =
      (readHandler first env s req1 rsp1).state := by
    rw [hs]; exact checkRfConnectState_idempotent env s ip port
  have h := readHandler_matching second env _ req2 rsp2 hauth2 hfix (by rw [hetag]; exact hhdr)
  rw [h, hetag]

/-- Witness of C15: a getConfig on the example gateway returns token 7, and the getFullState that
follows with If-None-Match 7 is answered NotModified. -/
theorem conditional_read_not_modified_witness :
    (readHandler false exampleEnv exampleState (requestWith "GET" ["api", "0000000000", "config"] [])
      emptyRsp).rsp.etag = 7 ∧
    (readHandler true exampleEnv
      (readHandler false exampleEnv exampleState (requestWith "GET" ["api", "0000000000", "config"] [])
        emptyRsp).state
      { requestWith "GET" ["api", "0000000000"] [] with ifNoneMatch := some 7 } emptyRsp).rsp.httpStatus =
      HttpStatus.HttpStatusNotModified :=
  ⟨by decide,
   congrArg (fun o => o.rsp.httpStatus)
    (conditional_read_not_modified false true exampleEnv exampleState
      (requestWith "GET" ["api", "0000000000", "config"] [])
      { requestWith "GET" ["api", "0000000000"] [] with ifNoneMatch := some 7 } emptyRsp emptyRsp
      rfl rfl (by decide))⟩

/-! ## Claims on the update channel -/

theorem lookup_mapInsert (m : List (QString × JsonValue)) (key other : QString) (v : JsonValue) :
    (mapInsert m key v).lookup other = if other = key then some v else m.lookup other := by
  induction m with
  | nil =>
    by_cases h : other = key
    · subst h; simp [mapInsert, List.lookup]
    · have hb : (other == key) = false := by simpa using h
      simp [mapInsert, List.lookup, hb, h]
  | cons e es ih =>
    obtain ⟨k, w⟩ := e
    by_cases hk : k = key
    · subst hk
      by_cases h : other = k
      · subst h; simp [mapInsert, List.lookup]
      · have hb : (other == k) = false := by simpa using h
        simp [mapInsert, List.lookup, hb, h]
    · by_cases h : other = key
      · subst h
        have hne : (other == k) = false := by simpa using fun h1 => hk h1.symm
        simp [mapInsert, hk, List.lookup, hne, ih]
      · cases hb : (other == k) <;> simp [mapInsert, hk, List.lookup, hb, ih, h]

theorem checkRfConnectState_keeps_update (env : Env) (s : GatewayState) :
    (checkRfConnectState env s).gwUpdateVersion = s.gwUpdateVersion := by
  by_cases h0 : s.apsCtrl = true <;> by_cases h1 : isTouchlinkActive s = true <;>
    by_cases h2 : env.isInNetwork = true <;> by_cases h3 : s.gwRfConnected = true <;>
    by_cases h4 : s.gwRfConnectedExpected = true <;>
    simp [checkRfConnectState, updateEtag, queSaveDb, h0, h1, h2, h3, h4]

theorem configToMap_swupdate (env : Env) (s : GatewayState) (map : List (QString × JsonValue)) :
    (configToMap env s map).2.lookup "swupdate" = some (swupdateEntry s.gwUpdateVersion) := by
  simp [configToMap, assignAll, lookup_mapInsert, swupdateEntry]

/-- C12: after modifyConfig applies the batch holding updatechannel c alone, c one of stable,
alpha, beta and different from the current channel, gwUpdateChannel is c and gwUpdateVersion is
GW_SW_VERSION; an authenticated getConfig that follows and returns the configuration (status
200) holds GW_SW_VERSION as the version of its swupdate entry. -/
theorem updatechannel_resets_update_version (env : Env) (s : GatewayState) (req req2 : ApiRequest)
    (rsp rsp2 : ApiResponse) (v : QVariant) (c : QString)
    (hauth : (env.checkApikeyAuthentification req rsp).1 = true)
    (haps : s.apsCtrl = true)
    (hbody : req.content = { ok := true, map := [("updatechannel", v)] })
    (hty : v.type = QVariantType.String)
    (hc : v.toString = c)
    (hchannel : c = "stable" ∨ c = "alpha" ∨ c = "beta")
    (hnew : c ≠ s.gwUpdateChannel) :
    (modifyConfig env s req rsp).state.gwUpdateChannel = c ∧
    (modifyConfig env s req rsp).state.gwUpdateVersion = env.GW_SW_VERSION ∧
    ((env.checkApikeyAuthentification req2 rsp2).1 = true →
      (getConfig env (modifyConfig env s req rsp).state req2 rsp2).rsp.httpStatus = HttpStatus.HttpStatusOk →
      (getConfig env (modifyConfig env s req rsp).state req2 rsp2).rsp.map.lookup "swupdate" =
        some (swupdateEntry env.GW_SW_VERSION)) := by
  have hne : req.content.map.isEmpty = false := by rw [hbody]; rfl
  have hstate : (modifyConfig env s req rsp).state.gwUpdateChannel = c ∧
      (modifyConfig env s req rsp).state.gwUpdateVersion = env.GW_SW_VERSION := by
    rw [modifyConfig_eq_of_fields env s req rsp hauth haps (by rw [hbody]) hne, hbody]
    have hvalid : (c == "stable" || c == "alpha" || c == "beta") = true := by
      rcases hchannel with h | h | h <;> simp [h]
    have hdiff : (s.gwUpdateChannel != c) = true := by
      simpa using fun h => hnew h.symm
    simp only [runBlocks, recognizedFields, ConfigField.block, modifyConfigName,
      modifyConfigRfconnected, modifyConfigUpdatechannel, modifyConfigPermitjoin, modifyConfigGroupdelay,
      modifyConfigOtauactive, modifyConfigDiscovery, modifyConfigUnlock, QVariantMap.contains,
      QVariantMap.value, List.lookup]
    simp [hty, hc, hvalid, hdiff, appendSuccess, queSaveDb, updateEtag]
  refine ⟨hstate.1, hstate.2, ?_⟩
  intro hauth2 hstatus
  simp only [getConfig, hauth2, Bool.not_true, Bool.false_eq_true, if_false] at hstatus ⊢
  cases hm : matchingEtag (checkRfConnectState env (modifyConfig env s req rsp).state) req2 with
  | some etag => rw [hm] at hstatus; simp at hstatus
  | none =>
    simp only []
    rw [configToMap_swupdate, checkRfConnectState_keeps_update, hstate.2]

/-- Witness of C12: the example gateway is switched from stable to beta and read back. -/
theorem updatechannel_resets_update_version_witness :
    (modifyConfig exampleEnv { exampleState with gwUpdateVersion := "1.10.00" }
      (requestWith "PUT" ["api", "0000000000", "config"] [("updatechannel", QVariant.ofString "beta")])
      emptyRsp).state.gwUpdateChannel = "beta" ∧
    (modifyConfig exampleEnv { exampleState with gwUpdateVersion := "1.10.00" }
      (requestWith "PUT" ["api", "0000000000", "config"] [("updatechannel", QVariant.ofString "beta")])
      emptyRsp).state.gwUpdateVersion = exampleEnv.GW_SW_VERSION ∧
    (getConfig exampleEnv
      (modifyConfig exampleEnv { exampleState with gwUpdateVersion := "1.10.00" }
        (requestWith "PUT" ["api", "0000000000", "config"] [("updatechannel", QVariant.ofString "beta")])
        emptyRsp).state
      (requestWith "GET" ["api", "0000000000", "config"] []) emptyRsp).rsp.map.lookup "swupdate" =
      some (swupdateEntry exampleEnv.GW_SW_VERSION) :=
  ⟨(updatechannel_resets_update_version exampleEnv { exampleState with gwUpdateVersion := "1.10.00" }
      (requestWith "PUT" ["api", "0000000000", "config"] [("updatechannel", QVariant.ofString "beta")])
      (requestWith "GET" ["api", "0000000000", "config"] []) emptyRsp emptyRsp
      (QVariant.ofString "beta") "beta" rfl rfl rfl rfl rfl (by decide) (by decide)).1,
   (updatechannel_resets_update_version exampleEnv { exampleState with gwUpdateVersion := "1.10.00" }
      (requestWith "PUT" ["api", "0000000000", "config"] [("updatechannel", QVariant.ofString "beta")])
      (requestWith "GET" ["api", "0000000000", "config"] []) emptyRsp emptyRsp
      (QVariant.ofString "beta") "beta" rfl rfl rfl rfl rfl (by decide) (by decide)).2.1,
   (updatechannel_resets_update_version exampleEnv { exampleState with gwUpdateVersion := "1.10.00" }
      (requestWith "PUT" ["api", "0000000000", "config"] [("updatechannel", QVariant.ofString "beta")])
      (requestWith "GET" ["api", "0000000000", "config"] []) emptyRsp emptyRsp
      (QVariant.ofString "beta") "beta" rfl rfl rfl rfl rfl (by decide) (by decide)).2.2 rfl (by decide)⟩

/-! ## Claims on the firmware version poll -/

theorem checkMinFirmwareVersionFile_version (env : Env) (s : GatewayState) :
    (checkMinFirmwareVersionFile env s).gwFirmwareVersion = s.gwFirmwareVersion := by
  simp only [checkMinFirmwareVersionFile]
  split_ifs <;> rfl

theorem checkMinFirmwareVersionFile_singleShots (env : Env) (s : GatewayState) :
    (checkMinFirmwareVersionFile env s).singleShots = s.singleShots := by
  simp only [checkMinFirmwareVersionFile]
  split_ifs <;> rfl

theorem checkMinFirmwareVersionFile_etag (env : Env) (s : GatewayState) :
    (checkMinFirmwareVersionFile env s).gwConfigEtag = s.gwConfigEtag := by
  simp only [checkMinFirmwareVersionFile]
  split_ifs <;> rfl

theorem checkMinFirmwareVersionFile_needUpdate (env : Env) (s : GatewayState) :
    (checkMinFirmwareVersionFile env s).gwFirmwareNeedUpdate =
      (s.gwFirmwareNeedUpdate || (env.ARCH_ARM && env.fileExists (minFirmwareFile env))) := by
  by_cases ha : env.ARCH_ARM = true <;>
    by_cases hf : env.fileExists (minFirmwareFile env) = true <;>
    simp [checkMinFirmwareVersionFile, ha, hf] <;>
    simp [minFirmwareFile] at hf <;> simp [hf]

theorem queryFirmwareVersion_nonzero (env : Env) (s : GatewayState) (haps : s.apsCtrl = true)
    (h0 : reportedFirmwareVersion env ≠ 0) :
    (queryFirmwareVersionTimerFired env s).singleShots = s.singleShots ∧
    (queryFirmwareVersionTimerFired env s).gwFirmwareVersion =
      sprintfHex8 (reportedFirmwareVersion env) := by
  have hb : (reportedFirmwareVersion env == 0) = false := by simpa using h0
  simp only [queryFirmwareVersionTimerFired, haps, if_true, hb, Bool.false_eq_true, if_false]
  split_ifs <;> simp [updateEtag, checkMinFirmwareVersionFile_version,
    checkMinFirmwareVersionFile_singleShots]

/-- C16: with a radio controller present, when the radio reports firmware version 0 the slot
schedules one further poll after 1000 ms and leaves gwFirmwareVersion as it is; when it reports
a non-zero version the version is recorded and no poll is scheduled. -/
theorem queryFirmwareVersion_poll (env : Env) (s : GatewayState) (haps : s.apsCtrl = true) :
    (reportedFirmwareVersion env = 0 →
      (queryFirmwareVersionTimerFired env s).singleShots =
        s.singleShots ++ [(1000, TimerSlot.queryFirmwareVersionTimerFired)] ∧
      (queryFirmwareVersionTimerFired env s).gwFirmwareVersion = s.gwFirmwareVersion) ∧
    (reportedFirmwareVersion env ≠ 0 →
      (queryFirmwareVersionTimerFired env s).singleShots = s.singleShots ∧
      (queryFirmwareVersionTimerFired env s).gwFirmwareVersion =
        sprintfHex8 (reportedFirmwareVersion env)) := by
  constructor
  · intro h0
    simp only [queryFirmwareVersionTimerFired, haps, if_true, h0, beq_self_eq_true]
    split_ifs <;> simp [updateEtag, checkMinFirmwareVersionFile_version,
      checkMinFirmwareVersionFile_singleShots, singleShot]
  · intro h0
    exact queryFirmwareVersion_nonzero env s haps h0

/-- Witness of C16: the example radio reports a version; with the report 0 a poll is scheduled. -/
theorem queryFirmwareVersion_poll_witness :
    (queryFirmwareVersionTimerFired { exampleEnv with firmwareVersion := 0 } exampleState).singleShots =
      exampleState.singleShots ++ [(1000, TimerSlot.queryFirmwareVersionTimerFired)] ∧
    (queryFirmwareVersionTimerFired exampleEnv exampleState).singleShots = exampleState.singleShots :=
  ⟨((queryFirmwareVersion_poll { exampleEnv with firmwareVersion := 0 } exampleState rfl).1
      (by decide)).1,
   ((queryFirmwareVersion_poll exampleEnv exampleState rfl).2 (by decide)).1⟩

theorem hexCharValue_hexDigitLower (n : Nat) (h : n < 16) : hexCharValue (hexDigitLower n) = n := by
  interval_cases n <;> decide

theorem hexDigitLower_mem (n : Nat) (h : n < 16) : hexDigitLower n ∈ "0123456789abcdef".data := by
  interval_cases n <;> decide

/-- C17: with a radio controller present and a non-zero reported version v, after the slot
gwFirmwareVersion is 0x followed by eight lower-case hexadecimal digits whose value is v,
gwFirmwareNeedUpdate is true exactly when v and FW_PLATFORM_MASK give FW_PLATFORM_RPI, v is
below GW_MIN_RPI_FW_VERSION, the build is for ARM and the update image exists, so a flag set
before is cleared otherwise, and the change token is bumped once. -/
theorem queryFirmwareVersion_records (env : Env) (s : GatewayState) (haps : s.apsCtrl = true)
    (hv : reportedFirmwareVersion env ≠ 0) :
    (queryFirmwareVersionTimerFired env s).gwFirmwareVersion =
      "0x" ++ String.mk (hexDigits8 (reportedFirmwareVersion env)) ∧
    (hexDigits8 (reportedFirmwareVersion env)).length = 8 ∧
    (∀ ch ∈ hexDigits8 (reportedFirmwareVersion env), ch ∈ "0123456789abcdef".data) ∧
    hexValue (hexDigits8 (reportedFirmwareVersion env)) = reportedFirmwareVersion env ∧
    ((queryFirmwareVersionTimerFired env s).gwFirmwareNeedUpdate = true ↔
      (reportedFirmwareVersion env &&& env.FW_PLATFORM_MASK = env.FW_PLATFORM_RPI ∧
        reportedFirmwareVersion env < env.GW_MIN_RPI_FW_VERSION ∧
        env.ARCH_ARM = true ∧ env.fileExists (minFirmwareFile env) = true)) ∧
    (queryFirmwareVersionTimerFired env s).gwConfigEtag = s.gwConfigEtag + 1 := by
  have hlt : reportedFirmwareVersion env < 4294967296 := by
    unfold reportedFirmwareVersion; exact Nat.mod_lt _ (by decide)
  have hmod : reportedFirmwareVersion env % 4294967296 = reportedFirmwareVersion env :=
    Nat.mod_eq_of_lt hlt
  have hb : (reportedFirmwareVersion env == 0) = false := by simpa using hv
  refine ⟨?_, rfl, ?_, ?_, ?_, ?_⟩
  · have := (queryFirmwareVersion_nonzero env s haps hv).2
    rw [this, sprintfHex8, hmod]
  · intro ch hch
    simp only [hexDigits8, List.mem_cons, List.mem_singleton, List.not_mem_nil, or_false] at hch
    rcases hch with h | h | h | h | h | h | h | h <;> rw [h] <;>
      exact hexDigitLower_mem _ (Nat.mod_lt _ (by decide))
  · simp only [hexValue, hexDigits8, List.foldl]
    rw [hexCharValue_hexDigitLower _ (Nat.mod_lt _ (by decide)),
      hexCharValue_hexDigitLower _ (Nat.mod_lt _ (by decide)),
      hexCharValue_hexDigitLower _ (Nat.mod_lt _ (by decide)),
      hexCharValue_hexDigitLower _ (Nat.mod_lt _ (by decide)),
      hexCharValue_hexDigitLower _ (Nat.mod_lt _ (by decide)),
      hexCharValue_hexDigitLower _ (Nat.mod_lt _ (by decide)),
      hexCharValue_hexDigitLower _ (Nat.mod_lt _ (by decide)),
      hexCharValue_hexDigitLower _ (Nat.mod_lt _ (by decide))]
    omega
  · simp only [queryFirmwareVersionTimerFired, haps, if_true, hb, Bool.false_eq_true, if_false]
    by_cases hp : (reportedFirmwareVersion env &&& env.FW_PLATFORM_MASK) = env.FW_PLATFORM_RPI
    · by_cases hm : reportedFirmwareVersion env < env.GW_MIN_RPI_FW_VERSION
      · simp [hp, hm, updateEtag, checkMinFirmwareVersionFile_needUpdate]
      · simp [hp, hm, updateEtag]
    · simp [hp, updateEtag]
  · simp only [queryFirmwareVersionTimerFired, haps, if_true, hb, Bool.false_eq_true, if_false]
    split_ifs <;> simp [updateEtag, checkMinFirmwareVersionFile_etag]

/-- Witness of C17: the example radio reports 0x25fb0500, a RaspBee below the minimum version
with the image present, while the flag was not set. -/
theorem queryFirmwareVersion_records_witness :
    (queryFirmwareVersionTimerFired exampleEnv exampleState).gwFirmwareVersion =
      "0x" ++ String.mk (hexDigits8 (reportedFirmwareVersion exampleEnv)) ∧
    (queryFirmwareVersionTimerFired exampleEnv exampleState).gwFirmwareNeedUpdate = true ∧
    (queryFirmwareVersionTimerFired exampleEnv exampleState).gwConfigEtag =
      exampleState.gwConfigEtag + 1 :=
  ⟨(queryFirmwareVersion_records exampleEnv exampleState rfl (by decide)).1,
   (queryFirmwareVersion_records exampleEnv exampleState rfl (by decide)).2.2.2.2.1.mpr
     ⟨by decide, by decide, rfl, rfl⟩,
   (queryFirmwareVersion_records exampleEnv exampleState rfl (by decide)).2.2.2.2.2⟩

/-! ## Claims on the update triggers -/

/-- C18, as stated, fails: with the update channel gamma the slot updateSoftwareTimerFired
returns without calling exit, so no exit code, and not APP_RET_RESTART_APP either, is handed
over. -/
theorem updateSoftwareTimerFired_unknown_channel_counterexample :
    (updateSoftwareTimerFired { exampleState with gwUpdateChannel := "gamma" }).appExit = [] ∧
    updateSoftwareTimerFired { exampleState with gwUpdateChannel := "gamma" } =
      { exampleState with gwUpdateChannel := "gamma" } := by
  decide

/-- C18, amended: updateSoftwareTimerFired ends in a process exit with the stable-update code
for the channel stable, the alpha-update code for alpha and the beta-update code for beta; for
any other channel value it returns without an exit and leaves the state as it is. -/
theorem updateSoftwareTimerFired_exit_code (s : GatewayState) :
    (s.gwUpdateChannel = "stable" →
      updateSoftwareTimerFired s = { s with appExit := s.appExit ++ [AppRet.APP_RET_UPDATE] }) ∧
    (s.gwUpdateChannel = "alpha" →
      updateSoftwareTimerFired s = { s with appExit := s.appExit ++ [AppRet.APP_RET_UPDATE_ALPHA] }) ∧
    (s.gwUpdateChannel = "beta" →
      updateSoftwareTimerFired s = { s with appExit := s.appExit ++ [AppRet.APP_RET_UPDATE_BETA] }) ∧
    (s.gwUpdateChannel ≠ "stable" → s.gwUpdateChannel ≠ "alpha" → s.gwUpdateChannel ≠ "beta" →
      updateSoftwareTimerFired s = s) := by
  refine ⟨?_, ?_, ?_, ?_⟩
  · intro h; simp [updateSoftwareTimerFired, h]
  · intro h; simp [updateSoftwareTimerFired, h]
  · intro h; simp [updateSoftwareTimerFired, h]
  · intro h1 h2 h3; simp [updateSoftwareTimerFired, h1, h2, h3]

/-- Witness of C18 amended: the example gateway is on the channel stable. -/
theorem updateSoftwareTimerFired_exit_code_witness :
    updateSoftwareTimerFired exampleState =
      { exampleState with appExit := exampleState.appExit ++ [AppRet.APP_RET_UPDATE] } :=
  (updateSoftwareTimerFired_exit_code exampleState).1 rfl

/-- C19: for an authenticated request updateSoftware and updateFirmware return REQ_READY_SEND,
set status 200 and append one success element echoing gwUpdateVersion, respectively
gwFirmwareVersionUpdate, whether or not an update follows. Outside the ARM build the state is
unchanged and nothing is scheduled; in the ARM build the state is saved and the exit slot is
scheduled after 5000 ms exactly when gwUpdateVersion differs from GW_SW_VERSION, respectively
gwFirmwareNeedUpdate is set, and the state is unchanged otherwise. -/
theorem update_triggers (env : Env) (s : GatewayState) (req : ApiRequest) (rsp : ApiResponse)
    (hauth : (env.checkApikeyAuthentification req rsp).1 = true) :
    ((updateSoftware env s req rsp).ret = ReturnCode.REQ_READY_SEND ∧
      (updateSoftware env s req rsp).rsp =
        { (env.checkApikeyAuthentification req rsp).2 with
          httpStatus := HttpStatus.HttpStatusOk
          list := (env.checkApikeyAuthentification req rsp).2.list ++
            [RspItem.success "/config/update" (RspValue.str s.gwUpdateVersion)] } ∧
      (env.ARCH_ARM = false → (updateSoftware env s req rsp).state = s) ∧
      (env.ARCH_ARM = true → s.gwUpdateVersion ≠ env.GW_SW_VERSION →
        (updateSoftware env s req rsp).state =
          { s with
            dbSaves := s.dbSaves + 1
            singleShots := s.singleShots ++ [(5000, TimerSlot.updateSoftwareTimerFired)] }) ∧
      (env.ARCH_ARM = true → s.gwUpdateVersion = env.GW_SW_VERSION →
        (updateSoftware env s req rsp).state = s)) ∧
    ((updateFirmware env s req rsp).ret = ReturnCode.REQ_READY_SEND ∧
      (updateFirmware env s req rsp).rsp =
        { (env.checkApikeyAuthentification req rsp).2 with
          httpStatus := HttpStatus.HttpStatusOk
          list := (env.checkApikeyAuthentification req rsp).2.list ++
            [RspItem.success "/config/updatefirmware" (RspValue.str s.gwFirmwareVersionUpdate)] } ∧
      (env.ARCH_ARM = false → (updateFirmware env s req rsp).state = s) ∧
      (env.ARCH_ARM = true → s.gwFirmwareNeedUpdate = true →
        (updateFirmware env s req rsp).state =
          { s with
            dbSaves := s.dbSaves + 1
            singleShots := s.singleShots ++ [(5000, TimerSlot.updateFirmwareTimerFired)] }) ∧
      (env.ARCH_ARM = true → s.gwFirmwareNeedUpdate = false →
        (updateFirmware env s req rsp).state = s)) := by
  constructor
  · simp only [updateSoftware, hauth, Bool.not_true, Bool.false_eq_true, if_false]
    refine ⟨?_, ?_, ?_, ?_, ?_⟩
    · split_ifs <;> rfl
    · split_ifs <;> rfl
    · intro h; simp [h]
    · intro h h2; simp [h, h2, singleShot, saveDbNow]
    · intro h h2; simp [h, h2]
  · simp only [updateFirmware, hauth, Bool.not_true, Bool.false_eq_true, if_false]
    refine ⟨?_, ?_, ?_, ?_, ?_⟩
    · split_ifs <;> rfl
    · split_ifs <;> rfl
    · intro h; simp [h]
    · intro h h2; simp [h, h2, singleShot, saveDbNow]
    · intro h h2; simp [h, h2]

/-- Witness of C19: on the example gateway, an ARM build whose update version is the running one,
updateSoftware answers with the success element and changes nothing. -/
theorem update_triggers_witness :
    (updateSoftware exampleEnv exampleState (requestWith "POST" ["api", "0000000000", "config", "update"] [])
      emptyRsp).rsp.list = [RspItem.success "/config/update" (RspValue.str "1.09.00")] ∧
    (updateSoftware exampleEnv exampleState (requestWith "POST" ["api", "0000000000", "config", "update"] [])
      emptyRsp).state = exampleState :=
  ⟨congrArg (fun r => r.list)
      (update_triggers exampleEnv exampleState
        (requestWith "POST" ["api", "0000000000", "config", "update"] []) emptyRsp rfl).1.2.1,
   (update_triggers exampleEnv exampleState
      (requestWith "POST" ["api", "0000000000", "config", "update"] []) emptyRsp rfl).1.2.2.2.2 rfl rfl⟩

/-! ## Claims on the change token of a response -/

/-- C20, as stated, fails: the successful changePassword on the example gateway, whose change
token is 7, answers status 200 with the success element and leaves the etag field of the
response at the value 0 it was given. -/
theorem changePassword_etag_counterexample :
    (changePassword exampleEnv exampleState
      (requestWith "PUT" ["api", "0000000000", "config", "password"]
        [("username", QVariant.ofString "delight"), ("oldhash", QVariant.ofString "old"),
         ("newhash", QVariant.ofString "new")]) emptyRsp).rsp.httpStatus = HttpStatus.HttpStatusOk ∧
    (changePassword exampleEnv exampleState
      (requestWith "PUT" ["api", "0000000000", "config", "password"]
        [("username", QVariant.ofString "delight"), ("oldhash", QVariant.ofString "old"),
         ("newhash", QVariant.ofString "new")]) emptyRsp).rsp.list =
      [RspItem.success "/config/password" (RspValue.str "changed")] ∧
    (changePassword exampleEnv exampleState
      (requestWith "PUT" ["api", "0000000000", "config", "password"]
        [("username", QVariant.ofString "delight"), ("oldhash", QVariant.ofString "old"),
         ("newhash", QVariant.ofString "new")]) emptyRsp).rsp.etag = 0 ∧
    (changePassword exampleEnv exampleState
      (requestWith "PUT" ["api", "0000000000", "config", "password"]
        [("username", QVariant.ofString "delight"), ("oldhash", QVariant.ofString "old"),
         ("newhash", QVariant.ofString "new")]) emptyRsp).state.gwConfigEtag = 7 := by
  decide

theorem createUser_etag_of_ok (env : Env) (s : GatewayState) (req : ApiRequest) (rsp : ApiResponse)
    (hstatus : (createUser env s req rsp).rsp.httpStatus = HttpStatus.HttpStatusOk) :
    (createUser env s req rsp).rsp.etag = (createUser env s req rsp).state.gwConfigEtag := by
  simp only [createUser] at hstatus ⊢
  split_ifs at hstatus ⊢ <;> simp_all

theorem modifyConfig_etag_of_ok (env : Env) (s : GatewayState) (req : ApiRequest) (rsp : ApiResponse)
    (hauth : (env.checkApikeyAuthentification req rsp).1 = true) (haps : s.apsCtrl = true)
    (hstatus : (modifyConfig env s req rsp).rsp.httpStatus = HttpStatus.HttpStatusOk) :
    (modifyConfig env s req rsp).rsp.etag = (modifyConfig env s req rsp).state.gwConfigEtag := by
  by_cases hbody : req.content.ok = true ∧ req.content.map.isEmpty = false
  · rw [modifyConfig_eq_of_fields env s req rsp hauth haps hbody.1 hbody.2] at hstatus ⊢
    cases hr : runBlocks env req.content.map recognizedFields
      { state := s
        rsp := { (env.checkApikeyAuthentification req rsp).2 with httpStatus := HttpStatus.HttpStatusOk }
        changed := false } with
    | error e =>
      rw [hr] at hstatus
      have := (runBlocks_error env req.content.map _ _ _ hr).2.1
      simp only at hstatus
      rw [this] at hstatus
      exact absurd hstatus (by decide)
    | ok c => rfl
  · exfalso
    have hbad : (!req.content.ok || req.content.map.isEmpty) = true := by
      by_cases h1 : req.content.ok = true
      · have h2 : req.content.map.isEmpty = true := by
          by_contra h; exact hbody ⟨h1, by simpa using h⟩
        simp [h2]
      · simp [h1]
    simp [modifyConfig, hauth, haps, hbad] at hstatus

/-- C20, amended: a createUser response with status 200, and a modifyConfig response with status
200 for an authenticated caller with the radio controller present, carry in their etag field
the value of gwConfigEtag in the state after the request; changePassword never sets the etag
field: for an authenticated caller the response keeps the etag it was given. -/
theorem successful_response_etag (env : Env) (s : GatewayState) (req : ApiRequest) (rsp : ApiResponse) :
    ((createUser env s req rsp).rsp.httpStatus = HttpStatus.HttpStatusOk →
      (createUser env s req rsp).rsp.etag = (createUser env s req rsp).state.gwConfigEtag) ∧
    ((env.checkApikeyAuthentification req rsp).1 = true → s.apsCtrl = true →
      (modifyConfig env s req rsp).rsp.httpStatus = HttpStatus.HttpStatusOk →
      (modifyConfig env s req rsp).rsp.etag = (modifyConfig env s req rsp).state.gwConfigEtag) ∧
    ((env.checkApikeyAuthentification req rsp).1 = true →
      (changePassword env s req rsp).rsp.etag = (env.checkApikeyAuthentification req rsp).2.etag) := by
  refine ⟨createUser_etag_of_ok env s req rsp, modifyConfig_etag_of_ok env s req rsp, ?_⟩
  intro hauth
  simp only [changePassword, hauth, Bool.not_true, Bool.false_eq_true, if_false]
  split_ifs <;> rfl

/-- Witness of C20 amended: the unlock request on the example gateway answers with the bumped
token 8. -/
theorem successful_response_etag_witness :
    (modifyConfig exampleEnv exampleState
      (requestWith "PUT" ["api", "0000000000", "config"] [("unlock", QVariant.ofInt 60)]) emptyRsp).rsp.etag =
      (modifyConfig exampleEnv exampleState
        (requestWith "PUT" ["api", "0000000000", "config"] [("unlock", QVariant.ofInt 60)])
        emptyRsp).state.gwConfigEtag ∧
    (modifyConfig exampleEnv exampleState
      (requestWith "PUT" ["api", "0000000000", "config"] [("unlock", QVariant.ofInt 60)]) emptyRsp).rsp.etag =
      8 :=
  ⟨(successful_response_etag exampleEnv exampleState
      (requestWith "PUT" ["api", "0000000000", "config"] [("unlock", QVariant.ofInt 60)]) emptyRsp).2.1
      rfl rfl (by decide),
   by decide⟩

/-! ## Claims on the broker -/

/-- C25: handleConfigurationApi calls the handler the interface table names for the method and
the path of the request (POST on one segment createUser, GET on two segments getFullState, GET
and PUT on key/config getConfig and modifyConfig, POST on key/config/update and
key/config/updatefirmware updateSoftware and updateFirmware, PUT on key/config/password
changePassword, DELETE on the three segments ending in config/password deletePassword), and
for every other request, DELETE on key/config/whitelist/name among them, it returns
REQ_NOT_HANDLED and leaves state and response as they were. -/
theorem handleConfigurationApi_dispatch (env : Env) (s : GatewayState) (req : ApiRequest)
    (rsp : ApiResponse) :
    handleConfigurationApi env s req rsp =
      (match routeOf req.method req.path with
       | some route => route.handler env s req rsp
       | none => { ret := ReturnCode.REQ_NOT_HANDLED, state := s, rsp := rsp }) ∧
    (∀ a key name, req.method = "DELETE" → req.path = [a, key, "config", "whitelist", name] →
      handleConfigurationApi env s req rsp = { ret := ReturnCode.REQ_NOT_HANDLED, state := s, rsp := rsp }) := by
  constructor
  · obtain ⟨path, method, content, inm⟩ := req
    rcases path with _ | ⟨a, _ | ⟨b, _ | ⟨c, _ | ⟨d, _ | ⟨e, rest⟩⟩⟩⟩⟩
    · simp [handleConfigurationApi, routeOf]
    · by_cases h : method = "POST" <;> simp [handleConfigurationApi, routeOf, Route.handler, h]
    · by_cases h : method = "GET" <;> simp [handleConfigurationApi, routeOf, Route.handler, h]
    · by_cases hg : method = "GET" <;> by_cases hp : method = "PUT" <;>
        by_cases hd : method = "DELETE" <;> by_cases hc : c = "config" <;>
        by_cases hb : b = "config" <;> by_cases hw : c = "password" <;>
        simp_all [handleConfigurationApi, routeOf, Route.handler, pathAt]
    · by_cases hg : method = "POST" <;> by_cases hp : method = "PUT" <;>
        by_cases hc : c = "config" <;> by_cases h1 : d = "update" <;>
        by_cases h2 : d = "updatefirmware" <;> by_cases h3 : d = "password" <;>
        simp_all [handleConfigurationApi, routeOf, Route.handler, pathAt]
    · simp [handleConfigurationApi, routeOf]
  · intro a key name hm hp
    simp [handleConfigurationApi, hm, hp, pathAt]

/-- Witness of C25: DELETE on a whitelist entry is not handled, PUT on the password path goes to
changePassword. -/
theorem handleConfigurationApi_dispatch_witness :
    handleConfigurationApi exampleEnv exampleState
      (requestWith "DELETE" ["api", "0000000000", "config", "whitelist", "1111111111"] []) emptyRsp =
      { ret := ReturnCode.REQ_NOT_HANDLED, state := exampleState, rsp := emptyRsp } ∧
    handleConfigurationApi exampleEnv exampleState
      (requestWith "PUT" ["api", "0000000000", "config", "password"] []) emptyRsp =
      changePassword exampleEnv exampleState
        (requestWith "PUT" ["api", "0000000000", "config", "password"] []) emptyRsp :=
  ⟨(handleConfigurationApi_dispatch exampleEnv exampleState
      (requestWith "DELETE" ["api", "0000000000", "config", "whitelist", "1111111111"] []) emptyRsp).2
      "api" "0000000000" "1111111111" rfl rfl,
   (handleConfigurationApi_dispatch exampleEnv exampleState
      (requestWith "PUT" ["api", "0000000000", "config", "password"] []) emptyRsp).1⟩

/-! ## Claims on malformed bodies -/

/-- C21, as stated, fails: for an authenticated caller and a body that does not parse,
modifyConfig in a state without radio controller returns REQ_NOT_HANDLED and appends no
error element. -/
theorem modifyConfig_invalid_body_counterexample :
    (exampleEnv.checkApikeyAuthentification
      { requestWith "PUT" ["api", "0000000000", "config"] [] with content := { ok := false, map := [] } }
      emptyRsp).1 = true ∧
    (modifyConfig exampleEnv { exampleState with apsCtrl := false }
      { requestWith "PUT" ["api", "0000000000", "config"] [] with content := { ok := false, map := [] } }
      emptyRsp).ret = ReturnCode.REQ_NOT_HANDLED ∧
    (modifyConfig exampleEnv { exampleState with apsCtrl := false }
      { requestWith "PUT" ["api", "0000000000", "config"] [] with content := { ok := false, map := [] } }
      emptyRsp).rsp.list = [] := by
  decide

/-- C21, amended: for createUser once past the link-button gate, for modifyConfig with an
authenticated caller and the radio controller present, and for changePassword with an
authenticated caller, a body that fails to parse or parses to an empty object yields status 400
and the single error InvalidJson and leaves the whole state unchanged; a createUser body that
parses and lacks devicetype, and a changePassword body that parses and lacks username, oldhash
or newhash, yield status 400 and the single error MissingParameter and no state change. -/
theorem malformed_body_rejected (env : Env) (s : GatewayState) (req : ApiRequest) (rsp : ApiResponse) :
    ((s.gwLinkButton = true ∨ env.allowedToCreateApikey req = true) →
      (req.content.ok = false ∨ req.content.map.isEmpty = true) →
      createUser env s req rsp =
        { ret := ReturnCode.REQ_READY_SEND
          state := s
          rsp := { rsp with
            httpStatus := HttpStatus.HttpStatusBadRequest
            list := rsp.list ++ [RspItem.error ApiError.ERR_INVALID_JSON "" "body contains invalid JSON"] } }) ∧
    ((env.checkApikeyAuthentification req rsp).1 = true → s.apsCtrl = true →
      (req.content.ok = false ∨ req.content.map.isEmpty = true) →
      modifyConfig env s req rsp =
        { ret := ReturnCode.REQ_READY_SEND
          state := s
          rsp := { (env.checkApikeyAuthentification req rsp).2 with
            httpStatus := HttpStatus.HttpStatusBadRequest
            list := (env.checkApikeyAuthentification req rsp).2.list ++
              [RspItem.error ApiError.ERR_INVALID_JSON "" "body contains invalid JSON"] } }) ∧
    ((env.checkApikeyAuthentification req rsp).1 = true →
      (req.content.ok = false ∨ req.content.map.isEmpty = true) →
      changePassword env s req rsp =
        { ret := ReturnCode.REQ_READY_SEND
          state := s
          rsp := { (env.checkApikeyAuthentification req rsp).2 with
            httpStatus := HttpStatus.HttpStatusBadRequest
            list := (env.checkApikeyAuthentification req rsp).2.list ++
              [RspItem.error ApiError.ERR_INVALID_JSON "/config/password"
                "body contains invalid JSON"] } }) ∧
    ((s.gwLinkButton = true ∨ env.allowedToCreateApikey req = true) →
      req.content.ok = true → req.content.map.isEmpty = false →
      req.content.map.contains "devicetype" = false →
      createUser env s req rsp =
        { ret := ReturnCode.REQ_READY_SEND
          state := s
          rsp := { rsp with
            httpStatus := HttpStatus.HttpStatusBadRequest
            list := rsp.list ++
              [RspItem.error ApiError.ERR_MISSING_PARAMETER "" "missing parameters in body"] } }) ∧
    ((env.checkApikeyAuthentification req rsp).1 = true →
      req.content.ok = true → req.content.map.isEmpty = false →
      (req.content.map.contains "username" = false ∨ req.content.map.contains "oldhash" = false ∨
        req.content.map.contains "newhash" = false) →
      changePassword env s req rsp =
        { ret := ReturnCode.REQ_READY_SEND
          state := s
          rsp := { (env.checkApikeyAuthentification req rsp).2 with
            httpStatus := HttpStatus.HttpStatusBadRequest
            list := (env.checkApikeyAuthentification req rsp).2.list ++
              [RspItem.error ApiError.ERR_MISSING_PARAMETER "/config/password"
                "missing parameters in body"] } }) := by
  refine ⟨?_, ?_, ?_, ?_, ?_⟩
  · intro hgate hbody
    have hgate1 : (!s.gwLinkButton && !env.allowedToCreateApikey req) = false := by
      rcases hgate with h | h <;> simp [h]
    have hbad : (!req.content.ok || req.content.map.isEmpty) = true := by
      rcases hbody with h | h <;> simp [h]
    simp [createUser, hgate1, hbad, errorToMap]
  · intro hauth haps hbody
    have hbad : (!req.content.ok || req.content.map.isEmpty) = true := by
      rcases hbody with h | h <;> simp [h]
    simp [modifyConfig, hauth, haps, hbad, errorToMap]
  · intro hauth hbody
    have hbad : (!req.content.ok || req.content.map.isEmpty) = true := by
      rcases hbody with h | h <;> simp [h]
    simp [changePassword, hauth, hbad, errorToMap]
  · intro hgate hok hne hdev
    have hgate1 : (!s.gwLinkButton && !env.allowedToCreateApikey req) = false := by
      rcases hgate with h | h <;> simp [h]
    simp [createUser, hgate1, hok, hne, hdev, errorToMap]
  · intro hauth hok hne hmiss
    have hall : (req.content.map.contains "username" && req.content.map.contains "oldhash" &&
        req.content.map.contains "newhash") = false := by
      rcases hmiss with h | h | h <;> simp [h]
    simp only [changePassword, hauth, hok, hne, hall, errorToMap]
    simp

/-- Witness of C21 amended: an empty object sent to modifyConfig of the example gateway. -/
theorem malformed_body_rejected_witness :
    modifyConfig exampleEnv exampleState (requestWith "PUT" ["api", "0000000000", "config"] []) emptyRsp =
      { ret := ReturnCode.REQ_READY_SEND
        state := exampleState
        rsp := { emptyRsp with
          httpStatus := HttpStatus.HttpStatusBadRequest
          list := emptyRsp.list ++
            [RspItem.error ApiError.ERR_INVALID_JSON "" "body contains invalid JSON"] } } :=
  (malformed_body_rejected exampleEnv exampleState
    (requestWith "PUT" ["api", "0000000000", "config"] []) emptyRsp).2.1 rfl rfl (Or.inr rfl)

/-! ## Claims on the key of createUser -/

theorem hexDigitUpper_mem (n : Nat) (h : n < 16) : hexDigitUpper n ∈ "0123456789ABCDEF".data := by
  interval_cases n <;> decide

theorem hexCharValueUpper_hexDigitUpper (n : Nat) (h : n < 16) :
    hexCharValueUpper (hexDigitUpper n) = n := by
  interval_cases n <;> decide

theorem hex2_data (r : Nat) :
    (hex2 r).data = [hexDigitUpper (r % 256 / 16), hexDigitUpper (r % 256 % 16)] := rfl

theorem randomApikey_eq (env : Env) :
    randomApikey env =
      hex2 (env.qrand 0) ++ hex2 (env.qrand 1) ++ hex2 (env.qrand 2) ++ hex2 (env.qrand 3) ++
        hex2 (env.qrand 4) := by
  show "" ++ hex2 (env.qrand 0) ++ hex2 (env.qrand 1) ++ hex2 (env.qrand 2) ++ hex2 (env.qrand 3) ++
      hex2 (env.qrand 4) = _
  simp

/-- C23: for a createUser request past the gate whose parsed body has devicetype and no
username, the issued key is the concatenation of the renderings of the five random bytes, each
rendering being the two upper-case hexadecimal digits of the byte; the key has 10 characters,
each in 0-9 or A-F, and it is the key of the success element and of the record appended to the
whitelist. -/
theorem createUser_random_key (env : Env) (s : GatewayState) (req : ApiRequest) (rsp : ApiResponse)
    (hgate : s.gwLinkButton = true ∨ env.allowedToCreateApikey req = true)
    (hok : req.content.ok = true)
    (hdev : req.content.map.contains "devicetype" = true)
    (hno : req.content.map.contains "username" = false) :
    randomApikey env =
      hex2 (env.qrand 0) ++ hex2 (env.qrand 1) ++ hex2 (env.qrand 2) ++ hex2 (env.qrand 3) ++
        hex2 (env.qrand 4) ∧
    (∀ r, (hex2 r).data = [hexDigitUpper (r % 256 / 16), hexDigitUpper (r % 256 % 16)] ∧
      hexCharValueUpper (hexDigitUpper (r % 256 / 16)) * 16 +
        hexCharValueUpper (hexDigitUpper (r % 256 % 16)) = r % 256) ∧
    (randomApikey env).length = 10 ∧
    (∀ ch ∈ (randomApikey env).data, ch ∈ "0123456789ABCDEF".data) ∧
    (createUser env s req rsp).rsp.list =
      rsp.list ++ [RspItem.success "username" (RspValue.str (randomApikey env))] ∧
    (createUser env s req rsp).rsp.httpStatus = HttpStatus.HttpStatusOk ∧
    (createUser env s req rsp).state.apiAuths =
      s.apiAuths ++
        [{ apikey := randomApikey env
           devicetype := (req.content.map.value "devicetype").toString
           createDate := env.currentDateTimeUtc
           lastUseDate := env.currentDateTimeUtc }] := by
  have hne : req.content.map.isEmpty = false := by
    cases hm : req.content.map with
    | nil => rw [hm] at hdev; simp [QVariantMap.contains] at hdev
    | cons a as => rfl
  have hgate1 : (!s.gwLinkButton && !env.allowedToCreateApikey req) = false := by
    rcases hgate with h | h <;> simp [h]
  have hlt1 : ∀ r : Nat, r % 256 / 16 < 16 := fun r => by omega
  have hlt2 : ∀ r : Nat, r % 256 % 16 < 16 := fun r => by omega
  refine ⟨randomApikey_eq env, ?_, ?_, ?_, ?_, ?_, ?_⟩
  · intro r
    refine ⟨rfl, ?_⟩
    rw [hexCharValueUpper_hexDigitUpper _ (hlt1 r), hexCharValueUpper_hexDigitUpper _ (hlt2 r)]
    omega
  · rw [randomApikey_eq]
    simp only [String.length_append]
    rfl
  · intro ch hch
    rw [randomApikey_eq] at hch
    simp only [String.data_append, hex2_data, List.mem_append, List.mem_cons, List.mem_singleton,
      List.not_mem_nil, or_false] at hch
    rcases hch with (((((h | h) | (h | h)) | (h | h)) | (h | h)) | (h | h)) <;> rw [h] <;>
      first
        | exact hexDigitUpper_mem _ (hlt1 _)
        | exact hexDigitUpper_mem _ (hlt2 _)
  · simp [createUser, hgate1, hok, hne, hdev, hno]
  · simp [createUser, hgate1, hok, hne, hdev, hno]
  · simp [createUser, hgate1, hok, hne, hdev, hno, queSaveDb, updateEtag]

/-- Witness of C23: with every draw 0 the unlocked example gateway issues the key 0000000000. -/
theorem createUser_random_key_witness :
    (createUser exampleEnv { exampleState with gwLinkButton := true }
      (requestWith "POST" ["api"] [("devicetype", QVariant.ofString "app")]) emptyRsp).rsp.list =
      emptyRsp.list ++ [RspItem.success "username" (RspValue.str (randomApikey exampleEnv))] ∧
    (randomApikey exampleEnv).length = 10 :=
  ⟨(createUser_random_key exampleEnv { exampleState with gwLinkButton := true }
      (requestWith "POST" ["api"] [("devicetype", QVariant.ofString "app")]) emptyRsp
      (Or.inl rfl) rfl (by decide) (by decide)).2.2.2.2.1,
   (createUser_random_key exampleEnv { exampleState with gwLinkButton := true }
      (requestWith "POST" ["api"] [("devicetype", QVariant.ofString "app")]) emptyRsp
      (Or.inl rfl) rfl (by decide) (by decide)).2.2.1⟩

/-- C24: for a createUser request past the gate whose parsed body has devicetype and a username
that is not a string or has fewer than 10 characters, the answer is status 400 with the single
error InvalidValue and the state (whitelist, change token, save queue) is unchanged; a string
username of 10 or more characters is not rejected: the answer has status 200. -/
theorem createUser_username_check (env : Env) (s : GatewayState) (req : ApiRequest) (rsp : ApiResponse)
    (v : QVariant)
    (hgate : s.gwLinkButton = true ∨ env.allowedToCreateApikey req = true)
    (hok : req.content.ok = true)
    (hdev : req.content.map.contains "devicetype" = true)
    (hu : req.content.map.lookup "username" = some v) :
    ((v.type ≠ QVariantType.String ∨ v.toString.length < 10) →
      createUser env s req rsp =
        { ret := ReturnCode.REQ_READY_SEND
          state := s
          rsp := { rsp with
            httpStatus := HttpStatus.HttpStatusBadRequest
            list := rsp.list ++ [RspItem.error ApiError.ERR_INVALID_VALUE "/"
              ("invalid value, " ++ v.toString ++ ", for parameter, username")] } }) ∧
    (v.type = QVariantType.String → 10 ≤ v.toString.length →
      (createUser env s req rsp).rsp.httpStatus = HttpStatus.HttpStatusOk ∧
      (createUser env s req rsp).rsp.list =
        rsp.list ++ [RspItem.success "username" (RspValue.str v.toString)]) := by
  have hne := map_nonempty_of_lookup _ _ _ hu
  have hgate1 : (!s.gwLinkButton && !env.allowedToCreateApikey req) = false := by
    rcases hgate with h | h <;> simp [h]
  have hcu : req.content.map.contains "username" = true := by simp [QVariantMap.contains, hu]
  have hval : req.content.map.value "username" = v := by simp [QVariantMap.value, hu]
  constructor
  · intro hbad
    have hcond : (v.type != QVariantType.String || decide (v.toString.length < 10)) = true := by
      rcases hbad with h | h <;> simp [h]
    simp only [createUser, hgate1, hok, hne, hdev, hcu, hval, errorToMap]
    simp [hcond]
  · intro hty hlen
    have hnl : ¬ (v.toString.length < 10) := by omega
    simp only [createUser, hgate1, hok, hne, hdev, hcu, hval, hty, hnl]
    simp
    split_ifs <;> simp

/-- Witness of C24: the username short is refused by the unlocked example gateway. -/
theorem createUser_username_check_witness :
    createUser exampleEnv { exampleState with gwLinkButton := true }
      (requestWith "POST" ["api"]
        [("devicetype", QVariant.ofString "app"), ("username", QVariant.ofString "short")]) emptyRsp =
      { ret := ReturnCode.REQ_READY_SEND
        state := { exampleState with gwLinkButton := true }
        rsp := { emptyRsp with
          httpStatus := HttpStatus.HttpStatusBadRequest
          list := emptyRsp.list ++ [RspItem.error ApiError.ERR_INVALID_VALUE "/"
            ("invalid value, " ++ (QVariant.ofString "short").toString ++ ", for parameter, username")] } } :=
  (createUser_username_check exampleEnv { exampleState with gwLinkButton := true }
    (requestWith "POST" ["api"]
      [("devicetype", QVariant.ofString "app"), ("username", QVariant.ofString "short")]) emptyRsp
    (QVariant.ofString "short") (Or.inl rfl) rfl (by decide) (by decide)).1 (Or.inr (by decide))

/-! ## Claims on a batch with one field -/

theorem block_absent (env : Env) (map : QVariantMap) (c : Ctx) (f : ConfigField)
    (h : map.lookup f.key = none) : f.block env map c = Except.ok c := by
  cases f <;>
    simp only [ConfigField.key] at h <;>
    simp [ConfigField.block, modifyConfigName, modifyConfigRfconnected, modifyConfigUpdatechannel,
      modifyConfigPermitjoin, modifyConfigGroupdelay, modifyConfigOtauactive, modifyConfigDiscovery,
      modifyConfigUnlock, QVariantMap.contains, h]

theorem runBlocks_absent (env : Env) (map : QVariantMap) :
    ∀ (l : List ConfigField) (c : Ctx), (∀ g ∈ l, map.lookup g.key = none) →
      runBlocks env map l c = Except.ok c := by
  intro l
  induction l with
  | nil => intro c _; rfl
  | cons g gs ih =>
    intro c h
    simp only [runBlocks, block_absent env map c g (h g (List.mem_cons_self _ _))]
    exact ih c (fun k hk => h k (List.mem_cons_of_mem _ hk))

theorem runBlocks_single (env : Env) (map : QVariantMap) (f : ConfigField) :
    ∀ (l : List ConfigField) (c : Ctx), l.Nodup → f ∈ l →
      (∀ g ∈ l, g ≠ f → map.lookup g.key = none) →
      runBlocks env map l c = f.block env map c := by
  intro l
  induction l with
  | nil => intro c _ hm; simp at hm
  | cons g gs ih =>
    intro c hnd hm habs
    rw [List.nodup_cons] at hnd
    by_cases hgf : g = f
    · subst hgf
      simp only [runBlocks]
      cases hb : g.block env map c with
      | error e => rfl
      | ok c1 =>
        exact runBlocks_absent env map gs c1 (fun k hk =>
          habs k (List.mem_cons_of_mem _ hk) (fun hkg => hnd.1 (hkg ▸ hk)))
    · have hfm : f ∈ gs := by
        rcases List.mem_cons.mp hm with h | h
        · exact absurd h.symm hgf
        · exact h
      simp only [runBlocks, block_absent env map c g (habs g (List.mem_cons_self _ _) hgf)]
      exact ih c hnd.2 hfm (fun k hk => habs k (List.mem_cons_of_mem _ hk))

theorem recognizedFields_nodup : recognizedFields.Nodup := by
  decide

/-- C22, as stated, fails: with touchlink active the boolean value true of rfconnected, which meets
the constraint of the field, is refused, and the error is InternalError with the bridge-busy
code in its description, not InvalidValue with the offending value. -/
theorem modifyConfig_rfconnected_busy_counterexample :
    (QVariant.ofBool true).type = QVariantType.Bool ∧
    (modifyConfig exampleEnv { exampleState with touchlinkState := TouchlinkState.TL_Active 1 }
      (requestWith "PUT" ["api", "0000000000", "config"] [("rfconnected", QVariant.ofBool true)])
      emptyRsp).rsp.httpStatus = HttpStatus.HttpStatusBadRequest ∧
    (modifyConfig exampleEnv { exampleState with touchlinkState := TouchlinkState.TL_Active 1 }
      (requestWith "PUT" ["api", "0000000000", "config"] [("rfconnected", QVariant.ofBool true)])
      emptyRsp).rsp.list =
      [RspItem.error ApiError.ERR_INTERNAL_ERROR "/config/rfconnected" "Internal error, 0"] := by
  decide

/-- C22, amended: for an authenticated caller with the radio controller present and a batch
that holds a single recognized field, modifyConfig accepts the field (status 200) if and only
if its value meets the constraint (name: string of at most 16 characters; rfconnected: boolean,
and touchlink idle; otauactive, discovery: boolean; updatechannel: one of the strings stable,
alpha, beta; permitjoin: converts to an integer in [0,255]; groupdelay: converts to an integer
in [0, MAX_GROUP_SEND_DELAY]; unlock: converts to an unsigned integer of at most
MAX_UNLOCK_GATEWAY_TIME). A rejected value yields status 400 and one error with the address
/config/field and leaves the state unchanged; the error is InvalidValue with the offending
value in its description, except for a boolean rfconnected while touchlink is busy, where it
is InternalError with the bridge-busy code. -/
theorem modifyConfig_single_field (env : Env) (s : GatewayState) (req : ApiRequest) (rsp : ApiResponse)
    (f : ConfigField) (v : QVariant)
    (hauth : (env.checkApikeyAuthentification req rsp).1 = true)
    (haps : s.apsCtrl = true)
    (hok : req.content.ok = true)
    (hf : req.content.map.lookup f.key = some v)
    (hsingle : ∀ g : ConfigField, g ≠ f → req.content.map.lookup g.key = none) :
    ((modifyConfig env s req rsp).rsp.httpStatus = HttpStatus.HttpStatusOk ↔
      f.accepts env s.touchlinkState v = true) ∧
    (f.accepts env s.touchlinkState v = false →
      modifyConfig env s req rsp =
        { ret := ReturnCode.REQ_READY_SEND
          state := s
          rsp := { (env.checkApikeyAuthentification req rsp).2 with
            httpStatus := HttpStatus.HttpStatusBadRequest
            list := (env.checkApikeyAuthentification req rsp).2.list ++
              [if f = ConfigField.rfconnected ∧ v.type = QVariantType.Bool then
                RspItem.error ApiError.ERR_INTERNAL_ERROR f.address
                  ("Internal error, " ++ ToString.toString (env.errorCode ApiError.ERR_BRIDGE_BUSY))
               else
                RspItem.error ApiError.ERR_INVALID_VALUE f.address
                  ("invalid value, " ++ v.toString ++ (", for parameter, " ++ f.key))] } }) := by
  have hne := map_nonempty_of_lookup _ _ _ hf
  have hrun : ∀ c, runBlocks env req.content.map recognizedFields c = f.block env req.content.map c :=
    fun c => runBlocks_single env req.content.map f recognizedFields c recognizedFields_nodup
      (mem_recognizedFields f) (fun g _ hg => hsingle g hg)
  have hrej : f.accepts env s.touchlinkState v = false →
      modifyConfig env s req rsp =
        { ret := ReturnCode.REQ_READY_SEND
          state := s
          rsp := { (env.checkApikeyAuthentification req rsp).2 with
            httpStatus := HttpStatus.HttpStatusBadRequest
            list := (env.checkApikeyAuthentification req rsp).2.list ++
              [if f = ConfigField.rfconnected ∧ v.type = QVariantType.Bool then
                RspItem.error ApiError.ERR_INTERNAL_ERROR f.address
                  ("Internal error, " ++ ToString.toString (env.errorCode ApiError.ERR_BRIDGE_BUSY))
               else
                RspItem.error ApiError.ERR_INVALID_VALUE f.address
                  ("invalid value, " ++ v.toString ++ (", for parameter, " ++ f.key))] } } := by
    intro ha
    rw [modifyConfig_eq_of_fields env s req rsp hauth haps hok hne, hrun,
      block_rejected_item env req.content.map _ f v hf ha]
  refine ⟨⟨?_, ?_⟩, hrej⟩
  · intro hst
    by_contra hna
    have ha : f.accepts env s.touchlinkState v = false := by simpa using hna
    rw [hrej ha] at hst
    simp at hst
  · intro ha
    rw [modifyConfig_eq_of_fields env s req rsp hauth haps hok hne, hrun]
    obtain ⟨c1, hb⟩ := block_accepted env req.content.map
      { state := s
        rsp := { (env.checkApikeyAuthentification req rsp).2 with httpStatus := HttpStatus.HttpStatusOk }
        changed := false } f (by
        intro w hw
        rw [hf] at hw
        simp only [Option.some.injEq] at hw
        subst hw
        exact ha)
    rw [hb]
    exact (block_ok_frame env req.content.map _ c1 f hb).2.2.1

/-- Witness of C22 amended: permitjoin 300 alone is refused by the example gateway. -/
theorem modifyConfig_single_field_witness :
    ((modifyConfig exampleEnv exampleState
        (requestWith "PUT" ["api", "0000000000", "config"] [("permitjoin", QVariant.ofInt 300)])
        emptyRsp).rsp.httpStatus = HttpStatus.HttpStatusOk ↔
      ConfigField.accepts exampleEnv exampleState.touchlinkState ConfigField.permitjoin
        (QVariant.ofInt 300) = true) ∧
    (modifyConfig exampleEnv exampleState
        (requestWith "PUT" ["api", "0000000000", "config"] [("permitjoin", QVariant.ofInt 300)])
        emptyRsp).state = exampleState :=
  ⟨(modifyConfig_single_field exampleEnv exampleState
      (requestWith "PUT" ["api", "0000000000", "config"] [("permitjoin", QVariant.ofInt 300)])
      emptyRsp ConfigField.permitjoin (QVariant.ofInt 300) rfl rfl rfl (by decide)
      (by intro g hg; cases g <;> first | decide | exact absurd rfl hg)).1,
   congrArg (fun o => o.state)
    ((modifyConfig_single_field exampleEnv exampleState
      (requestWith "PUT" ["api", "0000000000", "config"] [("permitjoin", QVariant.ofInt 300)])
      emptyRsp ConfigField.permitjoin (QVariant.ofInt 300) rfl rfl rfl (by decide)
      (by intro g hg; cases g <;> first | decide | exact absurd rfl hg)).2 (by decide))⟩

/-! ## Claims on rfconnected when the radio refuses -/

theorem block_ok_keeps_rf (env : Env) (map : QVariantMap) (c c1 : Ctx) (f : ConfigField)
    (hf : f ≠ ConfigField.rfconnected) (h : f.block env map c = Except.ok c1) :
    c1.state.gwRfConnected = c.state.gwRfConnected ∧
    c1.state.gwRfConnectedExpected = c.state.gwRfConnectedExpected ∧
    c1.state.networkRequests = c.state.networkRequests ∧
    ∃ items, c1.rsp.list = c.rsp.list ++ items := by
  cases f <;>
    first
      | exact absurd rfl hf
      | (simp only [ConfigField.block, modifyConfigName, modifyConfigUpdatechannel,
          modifyConfigPermitjoin, modifyConfigGroupdelay, modifyConfigOtauactive, modifyConfigDiscovery,
          modifyConfigUnlock, reject, appendSuccess, queSaveDb, setPermitJoinDuration,
          setInternetDiscoveryInterval] at h
         split_ifs at h <;>
         simp only [Except.ok.injEq, reduceCtorEq] at h <;>
         subst h <;>
         simp)

theorem runBlocks_ok_keeps_rf (env : Env) (map : QVariantMap) :
    ∀ (l : List ConfigField) (c c1 : Ctx), ConfigField.rfconnected ∉ l →
      runBlocks env map l c = Except.ok c1 →
      c1.state.gwRfConnected = c.state.gwRfConnected ∧
      c1.state.gwRfConnectedExpected = c.state.gwRfConnectedExpected ∧
      c1.state.networkRequests = c.state.networkRequests ∧
      ∃ items, c1.rsp.list = c.rsp.list ++ items := by
  intro l
  induction l with
  | nil =>
    intro c c1 _ h
    simp only [runBlocks, Except.ok.injEq] at h
    subst h
    exact ⟨rfl, rfl, rfl, [], by simp⟩
  | cons f fs ih =>
    intro c c1 hnot h
    simp only [runBlocks] at h
    cases hb : f.block env map c with
    | error e => rw [hb] at h; simp at h
    | ok c2 =>
      rw [hb] at h
      have hf : f ≠ ConfigField.rfconnected := fun hf => hnot (hf ▸ List.mem_cons_self _ _)
      obtain ⟨h1, h2, h3, i1, h4⟩ := block_ok_keeps_rf env map c c2 f hf hb
      obtain ⟨k1, k2, k3, i2, k4⟩ := ih c2 c1 (fun hm => hnot (List.mem_cons_of_mem _ hm)) h
      exact ⟨k1.trans h1, k2.trans h2, k3.trans h3, i1 ++ i2, by rw [k4, h4, List.append_assoc]⟩

theorem block_rfconnected_refused (env : Env) (map : QVariantMap) (c : Ctx) (v : QVariant)
    (hl : map.lookup "rfconnected" = some v)
    (hty : v.type = QVariantType.Bool)
    (hidle : c.state.touchlinkState = TouchlinkState.TL_Idle)
    (hoff : env.setNetworkState v.toBool = false) :
    ∃ c1, modifyConfigRfconnected env map c = Except.ok c1 ∧
      c1.state.gwRfConnected = v.toBool ∧ c1.state.gwRfConnectedExpected = v.toBool ∧
      c1.state.networkRequests = c.state.networkRequests ++ [v.toBool] ∧
      c1.rsp.list = c.rsp.list ++
        [RspItem.error ApiError.ERR_DEVICE_OFF "/config/rfconnected"
          "Error, rfconnected, is not modifiable. Device is set to off."] := by
  by_cases h1 : c.state.gwRfConnected = v.toBool <;>
    by_cases h2 : c.state.gwRfConnectedExpected = v.toBool <;>
    simp [modifyConfigRfconnected, QVariantMap.contains, QVariantMap.value, hl, hty, hidle, hoff,
      h1, h2, queSaveDb, errorToMap]

/-- When no recognized field of the batch fails its validation: for an authenticated caller with
the radio controller present, touchlink idle and a batch whose rfconnected is the boolean b,
when setNetworkState reports failure, the response holds the DeviceOff error for the field
and still one element for every recognized field of the batch, the status stays 200, and
afterwards gwRfConnected and gwRfConnectedExpected both equal b, the request to the radio was
made, and the change token is bumped once when gwRfConnected changed: nothing is rolled back. -/
theorem modifyConfig_rfconnected_device_off (env : Env) (s : GatewayState) (req : ApiRequest)
    (rsp : ApiResponse) (v : QVariant) (b : Bool)
    (hauth : (env.checkApikeyAuthentification req rsp).1 = true)
    (haps : s.apsCtrl = true)
    (hok : req.content.ok = true)
    (hidle : s.touchlinkState = TouchlinkState.TL_Idle)
    (hacc : fieldsAccepted env s.touchlinkState req.content.map recognizedFields = true)
    (hl : req.content.map.lookup "rfconnected" = some v)
    (hty : v.type = QVariantType.Bool)
    (hb : v.toBool = b)
    (hoff : env.setNetworkState b = false) :
    RspItem.error ApiError.ERR_DEVICE_OFF "/config/rfconnected"
        "Error, rfconnected, is not modifiable. Device is set to off." ∈
      (modifyConfig env s req rsp).rsp.list ∧
    (modifyConfig env s req rsp).rsp.list.length =
      (env.checkApikeyAuthentification req rsp).2.list.length +
        presentCount req.content.map recognizedFields ∧
    (modifyConfig env s req rsp).rsp.httpStatus = HttpStatus.HttpStatusOk ∧
    (modifyConfig env s req rsp).state.gwRfConnected = b ∧
    (modifyConfig env s req rsp).state.gwRfConnectedExpected = b ∧
    b ∈ (modifyConfig env s req rsp).state.networkRequests ∧
    (s.gwRfConnected ≠ b → (modifyConfig env s req rsp).state.gwConfigEtag = s.gwConfigEtag + 1) := by
  subst hb
  have hne := map_nonempty_of_lookup _ _ _ hl
  have hsplit : recognizedFields = [ConfigField.name] ++
      (ConfigField.rfconnected ::
        [ConfigField.updatechannel, ConfigField.permitjoin, ConfigField.groupdelay,
          ConfigField.otauactive, ConfigField.discovery, ConfigField.unlock]) := rfl
  obtain ⟨cend, hend⟩ := runBlocks_accepted env req.content.map recognizedFields
    { state := s
      rsp := { (env.checkApikeyAuthentification req rsp).2 with httpStatus := HttpStatus.HttpStatusOk }
      changed := false } hacc
  obtain ⟨_, hetag, hstatus, _, hlen⟩ := runBlocks_ok env req.content.map _ _ _ hend
  have hfacts : cend.state.gwRfConnected = v.toBool ∧ cend.state.gwRfConnectedExpected = v.toBool ∧
      v.toBool ∈ cend.state.networkRequests ∧
      RspItem.error ApiError.ERR_DEVICE_OFF "/config/rfconnected"
        "Error, rfconnected, is not modifiable. Device is set to off." ∈ cend.rsp.list := by
    have hrun := hend
    rw [hsplit, runBlocks_append] at hrun
    cases h1 : runBlocks env req.content.map [ConfigField.name]
        { state := s
          rsp := { (env.checkApikeyAuthentification req rsp).2 with httpStatus := HttpStatus.HttpStatusOk }
          changed := false } with
    | error e => rw [h1] at hrun; simp at hrun
    | ok c1 =>
      rw [h1] at hrun
      have ht := (runBlocks_ok env req.content.map _ _ _ h1).1
      obtain ⟨c2, hb2, r1, r2, r3, r4⟩ := block_rfconnected_refused env req.content.map c1 v hl hty
        (by rw [ht]; exact hidle) hoff
      simp only [runBlocks, ConfigField.block, hb2] at hrun
      obtain ⟨k1, k2, k3, items, k4⟩ := runBlocks_ok_keeps_rf env req.content.map
        [ConfigField.updatechannel, ConfigField.permitjoin, ConfigField.groupdelay,
          ConfigField.otauactive, ConfigField.discovery, ConfigField.unlock] c2 cend (by decide)
        (by simpa only [runBlocks, ConfigField.block] using hrun)
      refine ⟨k1.trans r1, k2.trans r2, ?_, ?_⟩
      · rw [k3, r3]; simp
      · rw [k4, r4]; simp
  have hmc := modifyConfig_eq_of_fields env s req rsp hauth haps hok hne
  rw [hend] at hmc
  have hlist : (modifyConfig env s req rsp).rsp.list = cend.rsp.list := by rw [hmc]
  have hst : (modifyConfig env s req rsp).rsp.httpStatus = cend.rsp.httpStatus := by rw [hmc]
  have hrf : (modifyConfig env s req rsp).state.gwRfConnected = cend.state.gwRfConnected := by
    rw [hmc]; simp only; split_ifs <;> rfl
  have hrfe : (modifyConfig env s req rsp).state.gwRfConnectedExpected =
      cend.state.gwRfConnectedExpected := by
    rw [hmc]; simp only; split_ifs <;> rfl
  have hnet : (modifyConfig env s req rsp).state.networkRequests = cend.state.networkRequests := by
    rw [hmc]; simp only; split_ifs <;> rfl
  refine ⟨by rw [hlist]; exact hfacts.2.2.2, by rw [hlist]; exact hlen, by rw [hst, hstatus],
    by rw [hrf]; exact hfacts.1, by rw [hrfe]; exact hfacts.2.1, by rw [hnet]; exact hfacts.2.2.1, ?_⟩
  intro hchg
  refine modifyConfig_completed_bumps_etag env s req rsp hauth haps hok hne hacc ?_
  intro hobs
  have := congrArg (fun t => t.2.1) hobs
  simp only [observableConfig] at this
  rw [hrf, hfacts.1] at this
  exact hchg this.symm

/-- An instance of the lemma: on the example gateway with a radio that refuses, rfconnected false
together with groupdelay 10 gives the DeviceOff error, applies both fields and bumps the token. -/
theorem modifyConfig_rfconnected_device_off_witness :
    RspItem.error ApiError.ERR_DEVICE_OFF "/config/rfconnected"
        "Error, rfconnected, is not modifiable. Device is set to off." ∈
      (modifyConfig { exampleEnv with setNetworkState := fun _ => false } exampleState
        (requestWith "PUT" ["api", "0000000000", "config"]
          [("rfconnected", QVariant.ofBool false), ("groupdelay", QVariant.ofInt 10)]) emptyRsp).rsp.list ∧
    (modifyConfig { exampleEnv with setNetworkState := fun _ => false } exampleState
        (requestWith "PUT" ["api", "0000000000", "config"]
          [("rfconnected", QVariant.ofBool false), ("groupdelay", QVariant.ofInt 10)])
        emptyRsp).state.gwRfConnected = false ∧
    (modifyConfig { exampleEnv with setNetworkState := fun _ => false } exampleState
        (requestWith "PUT" ["api", "0000000000", "config"]
          [("rfconnected", QVariant.ofBool false), ("groupdelay", QVariant.ofInt 10)])
        emptyRsp).state.gwConfigEtag = exampleState.gwConfigEtag + 1 :=
  ⟨(modifyConfig_rfconnected_device_off { exampleEnv with setNetworkState := fun _ => false } exampleState
      (requestWith "PUT" ["api", "0000000000", "config"]
        [("rfconnected", QVariant.ofBool false), ("groupdelay", QVariant.ofInt 10)]) emptyRsp
      (QVariant.ofBool false) false rfl rfl rfl rfl (by decide) (by decide) rfl rfl rfl).1,
   (modifyConfig_rfconnected_device_off { exampleEnv with setNetworkState := fun _ => false } exampleState
      (requestWith "PUT" ["api", "0000000000", "config"]
        [("rfconnected", QVariant.ofBool false), ("groupdelay", QVariant.ofInt 10)]) emptyRsp
      (QVariant.ofBool false) false rfl rfl rfl rfl (by decide) (by decide) rfl rfl rfl).2.2.2.1,
   (modifyConfig_rfconnected_device_off { exampleEnv with setNetworkState := fun _ => false } exampleState
      (requestWith "PUT" ["api", "0000000000", "config"]
        [("rfconnected", QVariant.ofBool false), ("groupdelay", QVariant.ofInt 10)]) emptyRsp
      (QVariant.ofBool false) false rfl rfl rfl rfl (by decide) (by decide) rfl rfl rfl).2.2.2.2.2.2
      (by decide)⟩

/-- C26, the code at the failing input: the radio refuses, the gateway is connected with token 7,
and the batch holds rfconnected false and permitjoin 300. The rfconnected block appends the
DeviceOff error and still sets gwRfConnected and gwRfConnectedExpected to false, marking the
change; the permitjoin block then refuses 300 and returns before the closing bump: the
connection flag changed from true to false and the change token is still 7. -/
theorem modifyConfig_device_off_then_failed_field_skips_bump :
    exampleState.touchlinkState = TouchlinkState.TL_Idle ∧
    exampleState.gwRfConnected = true ∧
    exampleState.gwConfigEtag = 7 ∧
    (modifyConfig { exampleEnv with setNetworkState := fun _ => false } exampleState
      (requestWith "PUT" ["api", "0000000000", "config"]
        [("rfconnected", QVariant.ofBool false), ("permitjoin", QVariant.ofInt 300)]) emptyRsp).rsp.list =
      [RspItem.error ApiError.ERR_DEVICE_OFF "/config/rfconnected"
        "Error, rfconnected, is not modifiable. Device is set to off.",
       RspItem.error ApiError.ERR_INVALID_VALUE "/config/permitjoin"
        "invalid value, 300, for parameter, permitjoin"] ∧
    (modifyConfig { exampleEnv with setNetworkState := fun _ => false } exampleState
      (requestWith "PUT" ["api", "0000000000", "config"]
        [("rfconnected", QVariant.ofBool false), ("permitjoin", QVariant.ofInt 300)])
      emptyRsp).rsp.httpStatus = HttpStatus.HttpStatusBadRequest ∧
    (modifyConfig { exampleEnv with setNetworkState := fun _ => false } exampleState
      (requestWith "PUT" ["api", "0000000000", "config"]
        [("rfconnected", QVariant.ofBool false), ("permitjoin", QVariant.ofInt 300)])
      emptyRsp).state.gwRfConnected = false ∧
    (modifyConfig { exampleEnv with setNetworkState := fun _ => false } exampleState
      (requestWith "PUT" ["api", "0000000000", "config"]
        [("rfconnected", QVariant.ofBool false), ("permitjoin", QVariant.ofInt 300)])
      emptyRsp).state.gwRfConnectedExpected = false ∧
    (modifyConfig { exampleEnv with setNetworkState := fun _ => false } exampleState
      (requestWith "PUT" ["api", "0000000000", "config"]
        [("rfconnected", QVariant.ofBool false), ("permitjoin", QVariant.ofInt 300)])
      emptyRsp).state.gwConfigEtag = 7 := by
  decide

/-! ## Claims on bumps without a change -/

/-- C27, the code at the failing input: the gateway carries the default name and the batch holds
the empty name alone, a valid batch without unlock. The name block sees that the stored name
differs from the empty text, sets changed, and puts the default name back: every observable
setting is as before, and the change token is bumped. -/
theorem modifyConfig_empty_name_bumps_etag :
    exampleEnv.GW_DEFAULT_NAME = "deCONZ-GW" ∧
    fieldsAccepted exampleEnv TouchlinkState.TL_Idle [("name", QVariant.ofString "")] recognizedFields =
      true ∧
    QVariantMap.contains [("name", QVariant.ofString "")] "unlock" = false ∧
    observableConfig (modifyConfig exampleEnv { exampleState with gwName := "deCONZ-GW" }
      (requestWith "PUT" ["api", "0000000000", "config"] [("name", QVariant.ofString "")])
      emptyRsp).state = observableConfig { exampleState with gwName := "deCONZ-GW" } ∧
    (modifyConfig exampleEnv { exampleState with gwName := "deCONZ-GW" }
      (requestWith "PUT" ["api", "0000000000", "config"] [("name", QVariant.ofString "")])
      emptyRsp).state.gwConfigEtag =
      ({ exampleState with gwName := "deCONZ-GW" } : GatewayState).gwConfigEtag + 1 := by
  exact ⟨rfl, by decide, by decide, rfl, by decide⟩

/-! ## Settings touched by the field blocks -/

theorem sameSetting_trans (g : ConfigField) (a b c : GatewayState)
    (h1 : g.sameSetting a b) (h2 : g.sameSetting b c) : g.sameSetting a c := by
  cases g <;> simp only [ConfigField.sameSetting] at h1 h2 ⊢
  · exact h1.trans h2
  · exact h1.trans h2
  · exact ⟨h1.1.trans h2.1, h1.2.trans h2.2⟩
  · exact h1.trans h2
  · exact h1.trans h2
  · exact h1.trans h2
  · exact h1.trans h2
  · exact h1.trans h2

theorem sameSetting_symm (g : ConfigField) (a b : GatewayState)
    (h : g.sameSetting a b) : g.sameSetting b a := by
  cases g <;> simp only [ConfigField.sameSetting] at h ⊢
  · exact h.symm
  · exact h.symm
  · exact ⟨h.1.symm, h.2.symm⟩
  · exact h.symm
  · exact h.symm
  · exact h.symm
  · exact h.symm
  · exact h.symm

theorem sameSetting_of_observable (g : ConfigField) (a b : GatewayState)
    (h : observableConfig a = observableConfig b) : g.sameSetting a b := by
  simp only [observableConfig, Prod.mk.injEq] at h
  obtain ⟨h1, h2, h3, h4, h5, h6, h7, h8, h9⟩ := h
  cases g <;> simp only [ConfigField.sameSetting]
  · exact h1
  · exact h2
  · exact ⟨h3, h4⟩
  · exact h5
  · exact h6
  · exact h7
  · exact h8
  · exact h9

theorem block_ok_others (env : Env) (map : QVariantMap) (c c1 : Ctx) (f : ConfigField)
    (h : f.block env map c = Except.ok c1) :
    ∀ g, g ≠ f → g.sameSetting c1.state c.state := by
  cases f <;>
    simp only [ConfigField.block, modifyConfigName, modifyConfigRfconnected, modifyConfigUpdatechannel,
      modifyConfigPermitjoin, modifyConfigGroupdelay, modifyConfigOtauactive, modifyConfigDiscovery,
      modifyConfigUnlock, reject, appendSuccess, queSaveDb, setPermitJoinDuration,
      setInternetDiscoveryInterval] at h <;>
    split_ifs at h <;>
    simp only [Except.ok.injEq, reduceCtorEq] at h <;>
    subst h <;>
    intro g hg <;>
    cases g <;>
    first
      | exact absurd rfl hg
      | simp [ConfigField.sameSetting]

theorem block_ok_changed_setting (env : Env) (map : QVariantMap) (c c1 : Ctx) (f : ConfigField)
    (h : f.block env map c = Except.ok c1)
    (hunlock : map.lookup "unlock" = none)
    (hslip : f = ConfigField.name → map.contains "name" = true →
      ¬ ((map.value "name").toString = "" ∧ c.state.gwName = env.GW_DEFAULT_NAME)) :
    c1.changed = true → c.changed = true ∨ ¬ f.sameSetting c1.state c.state := by
  cases f
  case unlock =>
    rw [block_absent env map c ConfigField.unlock hunlock] at h
    simp only [Except.ok.injEq] at h
    subst h
    exact fun hc => Or.inl hc
  case name =>
    simp only [ConfigField.block, modifyConfigName, reject, appendSuccess, queSaveDb] at h
    by_cases k1 : map.contains "name" = true
    · have hs := hslip rfl k1
      simp only [k1, if_true] at h
      by_cases k2 : ((map.value "name").type != QVariantType.String ||
          decide ((map.value "name").toString.length > 16)) = true
      · simp [k2] at h
      · simp only [k2, Bool.false_eq_true, if_false] at h
        by_cases k3 : (c.state.gwName != (map.value "name").toString) = true
        · simp only [k3, if_true, Except.ok.injEq] at h
          subst h
          intro _
          right
          simp only [ConfigField.sameSetting]
          simp only [bne_iff_ne, ne_eq] at k3
          by_cases he : (map.value "name").toString = ""
          · have hem : (map.value "name").toString.isEmpty = true := by rw [he]; rfl
            simp only [hem, if_true]
            exact fun hcon => hs ⟨he, hcon.symm⟩
          · have hne : (map.value "name").toString.isEmpty = false := by
              cases hb : (map.value "name").toString.isEmpty with
              | false => rfl
              | true =>
                exfalso
                apply he
                exact (String.isEmpty_iff _).mp hb
            simp only [hne, Bool.false_eq_true, if_false]
            exact fun hcon => k3 hcon.symm
        · simp only [k3, Bool.false_eq_true, if_false, Except.ok.injEq] at h
          subst h
          exact fun hc => Or.inl hc
    · simp only [k1, Bool.false_eq_true, if_false, Except.ok.injEq] at h
      subst h
      exact fun hc => Or.inl hc
  all_goals
    clear hslip hunlock
    simp only [ConfigField.block, modifyConfigRfconnected, modifyConfigUpdatechannel,
      modifyConfigPermitjoin, modifyConfigGroupdelay, modifyConfigOtauactive, modifyConfigDiscovery,
      reject, appendSuccess, queSaveDb, setPermitJoinDuration, setInternetDiscoveryInterval] at h
    split_ifs at h <;>
    simp only [Except.ok.injEq, reduceCtorEq] at h <;>
    subst h <;>
    simp [ConfigField.sameSetting] <;>
    first
      | exact fun hc => Or.inl hc
      | (refine Or.inr (fun hcon => ?_)
         simp [hcon] at *)

theorem runBlocks_ok_settings (env : Env) (map : QVariantMap) (hunlock : map.lookup "unlock" = none) :
    ∀ (l : List ConfigField) (c c1 : Ctx), l.Nodup →
      (ConfigField.name ∈ l → map.contains "name" = true →
        ¬ ((map.value "name").toString = "" ∧ c.state.gwName = env.GW_DEFAULT_NAME)) →
      runBlocks env map l c = Except.ok c1 →
      (c1.changed = true → c.changed = true ∨ ∃ g ∈ l, ¬ g.sameSetting c1.state c.state) ∧
      (∀ g, g ∉ l → g.sameSetting c1.state c.state) := by
  intro l
  induction l with
  | nil =>
    intro c c1 _ _ h
    simp only [runBlocks, Except.ok.injEq] at h
    subst h
    exact ⟨fun hc => Or.inl hc, fun g _ => by cases g <;> simp [ConfigField.sameSetting]⟩
  | cons f fs ih =>
    intro c c1 hnd hslip h
    rw [List.nodup_cons] at hnd
    simp only [runBlocks] at h
    cases hb : f.block env map c with
    | error e => rw [hb] at h; simp at h
    | ok c2 =>
      rw [hb] at h
      have hothers := block_ok_others env map c c2 f hb
      have hchg := block_ok_changed_setting env map c c2 f hb hunlock
        (fun hf => hslip (hf ▸ List.mem_cons_self _ _))
      have hslip2 : ConfigField.name ∈ fs → map.contains "name" = true →
          ¬ ((map.value "name").toString = "" ∧ c2.state.gwName = env.GW_DEFAULT_NAME) := by
        intro hm hcn
        have hnf : ConfigField.name ≠ f := fun hf => hnd.1 (hf ▸ hm)
        have hsame := hothers ConfigField.name hnf
        simp only [ConfigField.sameSetting] at hsame
        rw [hsame]
        exact hslip (List.mem_cons_of_mem _ hm) hcn
      obtain ⟨k1, k2⟩ := ih c2 c1 hnd.2 hslip2 h
      constructor
      · intro hc1
        rcases k1 hc1 with hc2 | ⟨g, hg, hns⟩
        · rcases hchg hc2 with hc | hns
          · exact Or.inl hc
          · refine Or.inr ⟨f, List.mem_cons_self _ _, fun hs => hns ?_⟩
            exact sameSetting_trans f _ _ _ (sameSetting_symm f _ _ (k2 f hnd.1)) hs
        · refine Or.inr ⟨g, List.mem_cons_of_mem _ hg, fun hs => hns ?_⟩
          have hgf : g ≠ f := fun hgf => hnd.1 (hgf ▸ hg)
          exact sameSetting_trans g _ _ _ hs (sameSetting_symm g _ _ (hothers g hgf))
      · intro g hg
        have hgf : g ≠ f := fun hgf => hg (hgf ▸ List.mem_cons_self _ _)
        have hgfs : g ∉ fs := fun hm => hg (List.mem_cons_of_mem _ hm)
        exact sameSetting_trans g _ _ _ (k2 g hgfs) (hothers g hgf)

/-- Apart from the empty name sent while the default name is stored, a batch without unlock none
of whose fields fails validation bumps the change token only when an observable setting changed. -/
theorem modifyConfig_unchanged_keeps_etag (env : Env) (s : GatewayState) (req : ApiRequest)
    (rsp : ApiResponse)
    (hauth : (env.checkApikeyAuthentification req rsp).1 = true) (haps : s.apsCtrl = true)
    (hok : req.content.ok = true) (hne : req.content.map.isEmpty = false)
    (hacc : fieldsAccepted env s.touchlinkState req.content.map recognizedFields = true)
    (hunlock : req.content.map.lookup "unlock" = none)
    (hslip : req.content.map.contains "name" = true →
      ¬ ((req.content.map.value "name").toString = "" ∧ s.gwName = env.GW_DEFAULT_NAME))
    (hsame : observableConfig (modifyConfig env s req rsp).state = observableConfig s) :
    (modifyConfig env s req rsp).state.gwConfigEtag = s.gwConfigEtag := by
  rw [modifyConfig_eq_of_fields env s req rsp hauth haps hok hne] at hsame ⊢
  obtain ⟨c, hr⟩ := runBlocks_accepted env req.content.map recognizedFields
    { state := s
      rsp := { (env.checkApikeyAuthentification req rsp).2 with httpStatus := HttpStatus.HttpStatusOk }
      changed := false } hacc
  obtain ⟨_, he, _, _, _⟩ := runBlocks_ok env req.content.map _ _ _ hr
  obtain ⟨hc, _⟩ := runBlocks_ok_settings env req.content.map hunlock recognizedFields _ c
    recognizedFields_nodup (fun _ => hslip) hr
  rw [hr] at hsame ⊢
  simp only at hsame he ⊢
  by_cases hch : c.changed = true
  · exfalso
    simp only [hch, if_true] at hsame
    have hobs : observableConfig c.state = observableConfig s := hsame
    rcases hc hch with h0 | ⟨g, _, hns⟩
    · simp at h0
    · exact hns (sameSetting_of_observable g _ _ hobs)
  · simp [hch, he]

/-! ## Claims on the update after a channel switch -/

theorem modifyConfig_updatechannel_sets (env : Env) (s : GatewayState) (req : ApiRequest)
    (rsp : ApiResponse) (v : QVariant) (c : QString)
    (hauth : (env.checkApikeyAuthentification req rsp).1 = true)
    (haps : s.apsCtrl = true)
    (hbody : req.content = { ok := true, map := [("updatechannel", v)] })
    (hty : v.type = QVariantType.String)
    (hc : v.toString = c)
    (hchannel : c = "stable" ∨ c = "alpha" ∨ c = "beta")
    (hnew : c ≠ s.gwUpdateChannel) :
    (modifyConfig env s req rsp).state.gwUpdateChannel = c ∧
    (modifyConfig env s req rsp).state.gwUpdateVersion = env.GW_SW_VERSION ∧
    (modifyConfig env s req rsp).state.singleShots = s.singleShots ∧
    (modifyConfig env s req rsp).state.dbSaves = s.dbSaves := by
  have hne : req.content.map.isEmpty = false := by rw [hbody]; rfl
  rw [modifyConfig_eq_of_fields env s req rsp hauth haps (by rw [hbody]) hne, hbody]
  have hvalid : (c == "stable" || c == "alpha" || c == "beta") = true := by
    rcases hchannel with h | h | h <;> simp [h]
  have hdiff : (s.gwUpdateChannel != c) = true := by
    simpa using fun h => hnew h.symm
  simp only [runBlocks, recognizedFields, ConfigField.block, modifyConfigName,
    modifyConfigRfconnected, modifyConfigUpdatechannel, modifyConfigPermitjoin, modifyConfigGroupdelay,
    modifyConfigOtauactive, modifyConfigDiscovery, modifyConfigUnlock, QVariantMap.contains,
    QVariantMap.value, List.lookup]
  simp [hty, hc, hvalid, hdiff, appendSuccess, queSaveDb, updateEtag]

/-- C28: after modifyConfig applies the batch holding updatechannel c alone, c one of stable,
alpha, beta and different from the current channel, an authenticated updateSoftware answers
status 200 with the success element echoing GW_SW_VERSION and leaves the state as it is, so no
exit is scheduled and nothing is saved, whether or not the build is for ARM. -/
theorem updateSoftware_after_channel_switch (env : Env) (s : GatewayState) (req req2 : ApiRequest)
    (rsp rsp2 : ApiResponse) (v : QVariant) (c : QString)
    (hauth : (env.checkApikeyAuthentification req rsp).1 = true)
    (haps : s.apsCtrl = true)
    (hbody : req.content = { ok := true, map := [("updatechannel", v)] })
    (hty : v.type = QVariantType.String)
    (hc : v.toString = c)
    (hchannel : c = "stable" ∨ c = "alpha" ∨ c = "beta")
    (hnew : c ≠ s.gwUpdateChannel)
    (hauth2 : (env.checkApikeyAuthentification req2 rsp2).1 = true) :
    updateSoftware env (modifyConfig env s req rsp).state req2 rsp2 =
      { ret := ReturnCode.REQ_READY_SEND
        state := (modifyConfig env s req rsp).state
        rsp := { (env.checkApikeyAuthentification req2 rsp2).2 with
          httpStatus := HttpStatus.HttpStatusOk
          list := (env.checkApikeyAuthentification req2 rsp2).2.list ++
            [RspItem.success "/config/update" (RspValue.str env.GW_SW_VERSION)] } } ∧
    (modifyConfig env s req rsp).state.gwUpdateVersion = env.GW_SW_VERSION ∧
    (updateSoftware env (modifyConfig env s req rsp).state req2 rsp2).state.singleShots = s.singleShots ∧
    (updateSoftware env (modifyConfig env s req rsp).state req2 rsp2).state.dbSaves = s.dbSaves := by
  obtain ⟨_, hver, hshots, hsaves⟩ :=
    modifyConfig_updatechannel_sets env s req rsp v c hauth haps hbody hty hc hchannel hnew
  have hout : updateSoftware env (modifyConfig env s req rsp).state req2 rsp2 =
      { ret := ReturnCode.REQ_READY_SEND
        state := (modifyConfig env s req rsp).state
        rsp := { (env.checkApikeyAuthentification req2 rsp2).2 with
          httpStatus := HttpStatus.HttpStatusOk
          list := (env.checkApikeyAuthentification req2 rsp2).2.list ++
            [RspItem.success "/config/update" (RspValue.str env.GW_SW_VERSION)] } } := by
    simp [updateSoftware, hauth2, hver]
  refine ⟨hout, hver, ?_, ?_⟩
  · rw [hout]; exact hshots
  · rw [hout]; exact hsaves

/-- Witness of C28: the example gateway, an ARM build with an update pending, is switched to beta
and asked to update: nothing is scheduled. -/
theorem updateSoftware_after_channel_switch_witness :
    (updateSoftware exampleEnv
      (modifyConfig exampleEnv { exampleState with gwUpdateVersion := "1.10.00" }
        (requestWith "PUT" ["api", "0000000000", "config"] [("updatechannel", QVariant.ofString "beta")])
        emptyRsp).state
      (requestWith "POST" ["api", "0000000000", "config", "update"] []) emptyRsp).state.singleShots =
      ({ exampleState with gwUpdateVersion := "1.10.00" } : GatewayState).singleShots ∧
    (updateSoftware exampleEnv { exampleState with gwUpdateVersion := "1.10.00" }
      (requestWith "POST" ["api", "0000000000", "config", "update"] []) emptyRsp).state.singleShots =
      [(5000, TimerSlot.updateSoftwareTimerFired)] :=
  ⟨(updateSoftware_after_channel_switch exampleEnv { exampleState with gwUpdateVersion := "1.10.00" }
      (requestWith "PUT" ["api", "0000000000", "config"] [("updatechannel", QVariant.ofString "beta")])
      (requestWith "POST" ["api", "0000000000", "config", "update"] []) emptyRsp emptyRsp
      (QVariant.ofString "beta") "beta" rfl rfl rfl rfl rfl (by decide) (by decide) rfl).2.2.1,
   by decide⟩

end DeRestPlugin
